import Mathlib

/-!
Shallow embedding of `pyscal_rdf_gui/graph.py` (the `RDFGraph` class): the
schema encoder (`create_graph` and the `add_*` methods), the defect
annotators (`add_gb`, `add_vacancy`), the subgraph extractor
(`iterate_graph`, `get_sample`) and the decoder (`get_system_from_sample`).

Modelling conventions:
* rdflib terms become the inductive `Node`; a `BNode` identity is either a
  caller-supplied label (`Sum.inl`) or an automatically generated fresh id
  (`Sum.inr k`, allocated from a counter in the encoder state, standing for
  rdflib's uuid-derived ids).
* Python numbers are embedded as `ℚ` (floats) and `ℤ` (ints); strings as
  `String`; a missing value (`None`) as `Option.none` at the record level
  and as `Value.vNone` inside a constructed literal.
* the rdflib `Graph` is a duplicate-free `List Triple`; `Graph.addTriple`
  keeps the first insertion (set semantics with insertion order preserved,
  matching rdflib's dict-backed in-memory store iteration order).
* fallible Python code (TypeError / AttributeError / assertion on a `None`
  where a term is required) is modelled with `Except String`.
* the unbounded recursion of `iterate_graph` is modelled with explicit fuel
  counting call depth; `none` means the recursion exceeded the given depth.
-/

namespace PyscalRdf

/-- Datatype tag of an rdflib `Literal` (`XSD.string` / `XSD.integer` / `XSD.float`). -/
inductive DType
  | dString
  | dInteger
  | dFloat
deriving DecidableEq, Repr

/-- Underlying Python value carried by a `Literal`. `vNone` is Python `None`. -/
inductive Value
  | vNone
  | vStr (s : String)
  | vInt (n : ℤ)
  | vRat (q : ℚ)
deriving DecidableEq, Repr

/-- An rdflib term: blank node, URI reference, or typed literal. -/
inductive Node
  | bnode (id : String ⊕ Nat)
  | uri (u : String)
  | lit (v : Value) (dt : DType)
deriving DecidableEq, Repr

/-- A (subject, predicate, object) triple. -/
structure Triple where
  s : Node
  p : Node
  o : Node
deriving DecidableEq, Repr

/-- Whether `str(v.toPython())` is exactly the string `"None"`.  Python's
`str` of an `int` or `float` is always a digit string (never `"None"`), so
those cases are structurally `false`. -/
def Value.strIsNone : Value → Bool
  | .vNone => true
  | .vStr s => s == "None"
  | .vInt _ => false
  | .vRat _ => false

/-- Whether `str(node.toPython())` is exactly `"None"`.  For a `BNode` or
`URIRef`, `toPython` returns the term itself (a `str` subclass holding the
id / the URI).  rdflib's auto-generated blank-node ids (`Sum.inr`) are
uuid-derived hex strings prefixed with `N` followed by hex digits, never the
four characters `None`, so that case is structurally `false`. -/
def Node.strIsNone : Node → Bool
  | .bnode (.inl s) => s == "None"
  | .bnode (.inr _) => false
  | .uri u => u == "None"
  | .lit v _ => v.strIsNone

/-- The value `toPython()` returns for a term: a literal yields its value, a
`BNode` yields its id string (`BNode` is a `str` subclass), a `URIRef` its
URI string. -/
def Node.toPython : Node → Value
  | .bnode (.inl s) => .vStr s
  | .bnode (.inr n) => .vStr ("N" ++ toString n)
  | .uri u => .vStr u
  | .lit v _ => v

/-- Calling `.toPython()` on the result of a lookup that may be Python
`None`: on `None` this raises `AttributeError`. -/
def toPythonE : Option Node → Except String Value
  | none => .error "AttributeError: NoneType object has no attribute toPython"
  | some n => .ok n.toPython

/-- Namespace constructors for the ontology URIs used in `graph.py`. -/
def cmsoUri (s : String) : Node := .uri ("https://purls.helmholtz-metadaten.de/cmso/" ++ s)

def pldoUri (s : String) : Node := .uri ("https://purls.helmholtz-metadaten.de/pldo/" ++ s)

def podoUri (s : String) : Node := .uri ("https://purls.helmholtz-metadaten.de/podo/" ++ s)

/-- `RDF.type`. -/
def RDFtype : Node := .uri "http://www.w3.org/1999/02/22-rdf-syntax-ns#type"

def CMSO.AtomicScaleSample : Node := cmsoUri "AtomicScaleSample"

def CMSO.hasMaterial : Node := cmsoUri "hasMaterial"

def CMSO.CrystallineMaterial : Node := cmsoUri "CrystallineMaterial"

def CMSO.hasComposition : Node := cmsoUri "hasComposition"

def CMSO.ChemicalComposition : Node := cmsoUri "ChemicalComposition"

def CMSO.hasElementRatio' : Node := cmsoUri "hasElementRatio"

def CMSO.hasSimulationCell : Node := cmsoUri "hasSimulationCell"

def CMSO.SimulationCell : Node := cmsoUri "SimulationCell"

def CMSO.hasVolume : Node := cmsoUri "hasVolume"

def CMSO.hasNumberOfAtoms : Node := cmsoUri "hasNumberOfAtoms"

def CMSO.hasLength : Node := cmsoUri "hasLength"

def CMSO.SimulationCellLength : Node := cmsoUri "SimulationCellLength"

def CMSO.hasLength_x : Node := cmsoUri "hasLength_x"

def CMSO.hasLength_y : Node := cmsoUri "hasLength_y"

def CMSO.hasLength_z : Node := cmsoUri "hasLength_z"

def CMSO.hasVector : Node := cmsoUri "hasVector"

def CMSO.SimulationCellVector : Node := cmsoUri "SimulationCellVector"

def CMSO.hasComponent_x : Node := cmsoUri "hasComponent_x"

def CMSO.hasComponent_y : Node := cmsoUri "hasComponent_y"

def CMSO.hasComponent_z : Node := cmsoUri "hasComponent_z"

def CMSO.hasAngle : Node := cmsoUri "hasAngle"

def CMSO.SimulationCellAngle : Node := cmsoUri "SimulationCellAngle"

def CMSO.hasAngle_alpha : Node := cmsoUri "hasAngle_alpha"

def CMSO.hasAngle_beta : Node := cmsoUri "hasAngle_beta"

def CMSO.hasAngle_gamma : Node := cmsoUri "hasAngle_gamma"

def CMSO.hasStructure : Node := cmsoUri "hasStructure"

def CMSO.CrystalStructure : Node := cmsoUri "CrystalStructure"

def CMSO.hasAltName : Node := cmsoUri "hasAltName"

def CMSO.hasSpaceGroup : Node := cmsoUri "hasSpaceGroup"

def CMSO.SpaceGroup : Node := cmsoUri "SpaceGroup"

def CMSO.hasSpaceGroupSymbol : Node := cmsoUri "hasSpaceGroupSymbol"

def CMSO.hasSpaceGroupNumber : Node := cmsoUri "hasSpaceGroupNumber"

def CMSO.hasUnitCell : Node := cmsoUri "hasUnitCell"

def CMSO.UnitCell : Node := cmsoUri "UnitCell"

def CMSO.hasLattice : Node := cmsoUri "hasLattice"

def CMSO.BravaisLattice : Node := cmsoUri "BravaisLattice"

def CMSO.hasLatticeSystem : Node := cmsoUri "hasLatticeSystem"

/-- The source spells the predicate `hasLatticeParamter` (sic). -/
def CMSO.hasLatticeParamter : Node := cmsoUri "hasLatticeParamter"

def CMSO.LatticeParameter : Node := cmsoUri "LatticeParameter"

def CMSO.LatticeAngle : Node := cmsoUri "LatticeAngle"

def CMSO.hasAtom : Node := cmsoUri "hasAtom"

def CMSO.Atom : Node := cmsoUri "Atom"

def CMSO.hasPositionVector : Node := cmsoUri "hasPositionVector"

def CMSO.PositionVector : Node := cmsoUri "PositionVector"

def CMSO.hasElement : Node := cmsoUri "hasElement"

def CMSO.Element : Node := cmsoUri "Element"

def CMSO.hasSymbol : Node := cmsoUri "hasSymbol"

def CMSO.hasCoordinationNumber : Node := cmsoUri "hasCoordinationNumber"

def CMSO.hasDefect : Node := cmsoUri "hasDefect"

def PLDO.GrainBoundary : Node := pldoUri "GrainBoundary"

def PLDO.TwistBoundary : Node := pldoUri "TwistBoundary"

def PLDO.TiltBoundary : Node := pldoUri "TiltBoundary"

def PLDO.SymmetricTiltBoundary : Node := pldoUri "SymmetricTiltBoundary"

def PLDO.MixedBoundary : Node := pldoUri "MixedBoundary"

def PLDO.hasSigmaValue : Node := pldoUri "hasSigmaValue"

def PLDO.hasGBPlane : Node := pldoUri "hasGBPlane"

def PLDO.GrainBoundaryPlane : Node := pldoUri "GrainBoundaryPlane"

def PLDO.hasMillerIndices : Node := pldoUri "hasMillerIndices"

def PLDO.hasRotationAxis : Node := pldoUri "hasRotationAxis"

def PLDO.RotationAxis : Node := pldoUri "RotationAxis"

def PLDO.hasComponentX : Node := pldoUri "hasComponentX"

def PLDO.hasComponentY : Node := pldoUri "hasComponentY"

def PLDO.hasComponentZ : Node := pldoUri "hasComponentZ"

def PLDO.hasMisorientationAngle : Node := pldoUri "hasMisorientationAngle"

def PLDO.MisorientationAngle : Node := pldoUri "MisorientationAngle"

def PLDO.hasAngle : Node := pldoUri "hasAngle"

def PODO.Vacancy : Node := podoUri "Vacancy"

def PODO.hasVacancyConcentration : Node := podoUri "hasVacancyConcentration"

def PODO.hasNumberOfVacancy : Node := podoUri "hasNumberOfVacancy"

/-- rdflib `Graph.add`: set semantics — a duplicate insertion is a no-op;
otherwise the triple is appended (iteration preserves insertion order). -/
def Graph.addTriple (g : List Triple) (t : Triple) : List Triple :=
  if t ∈ g then g else g ++ [t]

/-- `RDFGraph.add` (graph.py lines 93-95): insert the triple only when
`str(triple[2].toPython()) != 'None'`. -/
def RDFGraph.add (g : List Triple) (t : Triple) : List Triple :=
  if t.o.strIsNone then g else Graph.addTriple g t

/-- rdflib `Graph.triples((s, p, o))` pattern matching; `none` components are
wildcards.  Results come back in store (insertion) order. -/
def Graph.triples (g : List Triple) (s p o : Option Node) : List Triple :=
  g.filter (fun t =>
    (match s with | none => true | some x => t.s == x) &&
    (match p with | none => true | some x => t.p == x) &&
    (match o with | none => true | some x => t.o == x))

/-- rdflib `Graph.value(subject, predicate)` with `object=None`, `any=True`,
`default=None`: if subject or predicate is Python `None` (two of the three
slots unbound), the default `None` is returned; otherwise the first object
of a matching triple, or `None` when there is no match. -/
def Graph.value (g : List Triple) (s p : Option Node) : Option Node :=
  match s, p with
  | some s', some p' => (Graph.triples g (some s') (some p') none).head?.map (fun t => t.o)
  | _, _ => none

/-- Mutable state of an `RDFGraph` object during encoding: the triple store,
the fresh-blank-node counter, and the instance attributes `self.sample`,
`self.material`, `self.simulation_cell`, `self.crystal_structure`,
`self.unit_cell` (all `None` until assigned). -/
structure GState where
  graph : List Triple := []
  ctr : Nat := 0
  sample : Option Node := none
  material : Option Node := none
  simulation_cell : Option Node := none
  crystal_structure : Option Node := none
  unit_cell : Option Node := none
deriving DecidableEq, Repr

/-- `BNode(name)`: a supplied name gives a labelled blank node; `BNode(None)`
draws a fresh auto-generated identity from the counter. -/
def GState.newBNode (st : GState) (name : Option String) : Node × GState :=
  match name with
  | some n => (.bnode (.inl n), st)
  | none => (.bnode (.inr st.ctr), { st with ctr := st.ctr + 1 })

/-- Insert a triple through the `RDFGraph.add` guard. -/
def GState.addT (st : GState) (t : Triple) : GState :=
  { st with graph := RDFGraph.add st.graph t }

/-- Reading an attribute / dictionary entry that must not be Python `None`;
on `None` the corresponding Python exception is raised. -/
def req {α : Type} (o : Option α) (msg : String) : Except String α :=
  match o with
  | some a => .ok a
  | none => .error msg

/-- Stand-in for Python `str()` of a number (used only inside composition
strings such as `"Al=0.5"`; no claim depends on the exact digits, only on
the string not being `"None"`, which a numeric `str` never is). -/
def pyFloatStr (q : ℚ) : String := toString q

/-- Python's `np.round(x, decimals=2)`: round half to even at two decimal
places.  Computed on the numerator and denominator: `n` is `⌊q*100⌋`, `rem`
the remainder, and the half-way case goes to the even integer. -/
def npRound2 (q : ℚ) : ℚ :=
  let n100 : ℤ := q.num * 100
  let n : ℤ := Int.fdiv n100 q.den
  let rem : ℤ := n100 - n * q.den
  let m : ℤ :=
    if 2 * rem < (q.den : ℤ) then n
    else if (q.den : ℤ) < 2 * rem then n + 1
    else if n % 2 = 0 then n else n + 1
  mkRat m 100

/-- The data dictionary produced by `convert_to_dict` and read through
`RDFGraph.data(key)`: every field may be absent (`data` returns `None`). A
cell vector / position is read at exactly the indices 0, 1, 2 in the source,
so it is embedded as a triple of rationals. -/
structure SysDict where
  ChemicalCompositionElement : Option (List String) := none
  ChemicalCompositionRatio' : Option (List ℚ) := none
  CellVolume : Option ℚ := none
  NumberOfAtoms : Option ℤ := none
  SimulationCellLengthX : Option ℚ := none
  SimulationCellLengthY : Option ℚ := none
  SimulationCellLengthZ : Option ℚ := none
  SimulationCellVectorA : Option (ℚ × ℚ × ℚ) := none
  SimulationCellVectorB : Option (ℚ × ℚ × ℚ) := none
  SimulationCellVectorC : Option (ℚ × ℚ × ℚ) := none
  SimulationCellAngleAlpha : Option ℚ := none
  SimulationCellAngleBeta : Option ℚ := none
  SimulationCellAngleGamma : Option ℚ := none
  CrystalStructureName : Option String := none
  SpaceGroupSymbol : Option String := none
  SpaceGroupNumber : Option ℤ := none
  BravaisLattice : Option String := none
  LatticeParameter : Option ℚ := none
  Positions : Option (List (ℚ × ℚ × ℚ)) := none
  Element : Option (List String) := none
  Coordination : Option (List ℤ) := none
deriving DecidableEq, Repr

/-- `Literal(self.data(key), datatype=XSD.float)` for a possibly missing
rational field: a missing value yields a literal carrying Python `None`. -/
def Value.ofOptRat : Option ℚ → Value
  | none => .vNone
  | some q => .vRat q

/-- Same for an integer field. -/
def Value.ofOptInt : Option ℤ → Value
  | none => .vNone
  | some n => .vInt n

/-- Same for a string field. -/
def Value.ofOptStr : Option String → Value
  | none => .vNone
  | some s => .vStr s

/-- `add_sample` (graph.py 160-175). -/
def add_sample (st : GState) (name : Option String) : GState :=
  let (sample_01, st) := st.newBNode name
  let st := st.addT ⟨sample_01, RDFtype, CMSO.AtomicScaleSample⟩
  { st with sample := some sample_01 }

/-- `add_material` (graph.py 177-193). -/
def add_material (st : GState) (name : Option String) : Except String GState := do
  let smp ← req st.sample "sample is None"
  let (material_01, st) := st.newBNode name
  let st := st.addT ⟨smp, CMSO.hasMaterial, material_01⟩
  let st := st.addT ⟨material_01, RDFtype, CMSO.CrystallineMaterial⟩
  pure { st with material := some material_01 }

/-- `add_chemical_composition` (graph.py 195-213).  `zip` over a missing
list raises `TypeError`; otherwise one `element=ratio` string literal is
inserted per zipped pair. -/
def add_chemical_composition (d : SysDict) (st : GState) (name : Option String) :
    Except String GState := do
  let els ← req d.ChemicalCompositionElement "TypeError: zip argument 1 must support iteration"
  let rats ← req (SysDict.ChemicalCompositionRatio' d) "TypeError: zip argument 2 must support iteration"
  let chem_comp := (List.zip els rats).map (fun xy => xy.1 ++ "=" ++ pyFloatStr xy.2)
  let mat ← req st.material "material is None"
  let (chemical_composition_01, st) := st.newBNode name
  let st := st.addT ⟨mat, CMSO.hasComposition, chemical_composition_01⟩
  let st := st.addT ⟨chemical_composition_01, RDFtype, CMSO.ChemicalComposition⟩
  let st := chem_comp.foldl
    (fun st s => st.addT ⟨chemical_composition_01, CMSO.hasElementRatio', .lit (.vStr s) .dString⟩) st
  pure st

/-- `add_simulation_cell` (graph.py 215-233).  `np.round(None, 2)` raises
`TypeError`, so a missing `CellVolume` aborts after the first two
insertions; a missing `NumberOfAtoms` only produces a skipped
`Literal(None)`. -/
def add_simulation_cell (d : SysDict) (st : GState) (name : Option String) :
    Except String GState := do
  let smp ← req st.sample "sample is None"
  let (simulation_cell_01, st) := st.newBNode name
  let st := st.addT ⟨smp, CMSO.hasSimulationCell, simulation_cell_01⟩
  let st := st.addT ⟨simulation_cell_01, RDFtype, CMSO.SimulationCell⟩
  let vol ← req d.CellVolume "TypeError: type NoneType does not define round method"
  let st := st.addT ⟨simulation_cell_01, CMSO.hasVolume, .lit (.vRat (npRound2 vol)) .dFloat⟩
  let st := st.addT ⟨smp, CMSO.hasNumberOfAtoms, .lit (Value.ofOptInt d.NumberOfAtoms) .dInteger⟩
  pure { st with simulation_cell := some simulation_cell_01 }

/-- Length block of `add_simulation_cell_properties` (graph.py 250-258). -/
def add_cell_length_block (d : SysDict) (sc : Node) (st : GState) (uname : Option String) :
    GState :=
  let (simulation_cell_length_01, st) := st.newBNode uname
  let st := st.addT ⟨sc, CMSO.hasLength, simulation_cell_length_01⟩
  let st := st.addT ⟨simulation_cell_length_01, RDFtype, CMSO.SimulationCellLength⟩
  let st := st.addT ⟨simulation_cell_length_01, CMSO.hasLength_x,
    .lit (Value.ofOptRat d.SimulationCellLengthX) .dFloat⟩
  let st := st.addT ⟨simulation_cell_length_01, CMSO.hasLength_y,
    .lit (Value.ofOptRat d.SimulationCellLengthY) .dFloat⟩
  let st := st.addT ⟨simulation_cell_length_01, CMSO.hasLength_z,
    .lit (Value.ofOptRat d.SimulationCellLengthZ) .dFloat⟩
  st

/-- One vector block of `add_simulation_cell_properties` (graph.py 260-288):
the vector is indexed `[0] [1] [2]`, so a missing vector raises `TypeError`
after the edge and type triples went in. -/
def add_cell_vector_block (vec : Option (ℚ × ℚ × ℚ)) (sc : Node) (st : GState)
    (uname : Option String) : Except String GState := do
  let (simulation_cell_vector, st) := st.newBNode uname
  let st := st.addT ⟨sc, CMSO.hasVector, simulation_cell_vector⟩
  let st := st.addT ⟨simulation_cell_vector, RDFtype, CMSO.SimulationCellVector⟩
  let v ← req vec "TypeError: NoneType object is not subscriptable"
  let st := st.addT ⟨simulation_cell_vector, CMSO.hasComponent_x, .lit (.vRat v.1) .dFloat⟩
  let st := st.addT ⟨simulation_cell_vector, CMSO.hasComponent_y, .lit (.vRat v.2.1) .dFloat⟩
  let st := st.addT ⟨simulation_cell_vector, CMSO.hasComponent_z, .lit (.vRat v.2.2) .dFloat⟩
  pure st

/-- Angle block of `add_simulation_cell_properties` (graph.py 290-298). -/
def add_cell_angle_block (d : SysDict) (sc : Node) (st : GState) (uname : Option String) :
    GState :=
  let (simulation_cell_angle_01, st) := st.newBNode uname
  let st := st.addT ⟨sc, CMSO.hasAngle, simulation_cell_angle_01⟩
  let st := st.addT ⟨simulation_cell_angle_01, RDFtype, CMSO.SimulationCellAngle⟩
  let st := st.addT ⟨simulation_cell_angle_01, CMSO.hasAngle_alpha,
    .lit (Value.ofOptRat d.SimulationCellAngleAlpha) .dFloat⟩
  let st := st.addT ⟨simulation_cell_angle_01, CMSO.hasAngle_beta,
    .lit (Value.ofOptRat d.SimulationCellAngleBeta) .dFloat⟩
  let st := st.addT ⟨simulation_cell_angle_01, CMSO.hasAngle_gamma,
    .lit (Value.ofOptRat d.SimulationCellAngleGamma) .dFloat⟩
  st

/-- `add_simulation_cell_properties` (graph.py 236-298), written as the
sequence of its five textual blocks (length, three vectors, angle) in source
order. -/
def add_simulation_cell_properties (d : SysDict) (st : GState) (name : Option String) :
    Except String GState := do
  let sc ← req st.simulation_cell "simulation_cell is None"
  let st := add_cell_length_block d sc st (name.map (· ++ "Length"))
  let st ← add_cell_vector_block d.SimulationCellVectorA sc st (name.map (· ++ "Vector01"))
  let st ← add_cell_vector_block d.SimulationCellVectorB sc st (name.map (· ++ "Vector02"))
  let st ← add_cell_vector_block d.SimulationCellVectorC sc st (name.map (· ++ "Vector03"))
  pure (add_cell_angle_block d sc st (name.map (· ++ "Angle")))

/-- `add_crystal_structure` (graph.py 301-318). -/
def add_crystal_structure (d : SysDict) (st : GState) (name : Option String) :
    Except String GState := do
  let mat ← req st.material "material is None"
  let (crystal_structure_01, st) := st.newBNode name
  let st := st.addT ⟨mat, CMSO.hasStructure, crystal_structure_01⟩
  let st := st.addT ⟨crystal_structure_01, RDFtype, CMSO.CrystalStructure⟩
  let st := st.addT ⟨crystal_structure_01, CMSO.hasAltName,
    .lit (Value.ofOptStr d.CrystalStructureName) .dString⟩
  pure { st with crystal_structure := some crystal_structure_01 }

/-- `add_space_group` (graph.py 320-337). -/
def add_space_group (d : SysDict) (st : GState) (name : Option String) :
    Except String GState := do
  let cs ← req st.crystal_structure "crystal_structure is None"
  let (space_group_01, st) := st.newBNode name
  let st := st.addT ⟨cs, CMSO.hasSpaceGroup, space_group_01⟩
  let st := st.addT ⟨space_group_01, RDFtype, CMSO.SpaceGroup⟩
  let st := st.addT ⟨space_group_01, CMSO.hasSpaceGroupSymbol,
    .lit (Value.ofOptStr d.SpaceGroupSymbol) .dString⟩
  let st := st.addT ⟨space_group_01, CMSO.hasSpaceGroupNumber,
    .lit (Value.ofOptInt d.SpaceGroupNumber) .dInteger⟩
  pure st

/-- `add_unit_cell` (graph.py 340-365), including the Bravais lattice block. -/
def add_unit_cell (d : SysDict) (st : GState) (name : Option String) :
    Except String GState := do
  let cs ← req st.crystal_structure "crystal_structure is None"
  let (unit_cell_01, st) := st.newBNode name
  let st := st.addT ⟨cs, CMSO.hasUnitCell, unit_cell_01⟩
  let st := st.addT ⟨unit_cell_01, RDFtype, CMSO.UnitCell⟩
  let (bravaislattice, st) := st.newBNode (name.map (fun n => "Bravais" ++ n))
  let st := st.addT ⟨unit_cell_01, CMSO.hasLattice, bravaislattice⟩
  let st := st.addT ⟨bravaislattice, RDFtype, CMSO.BravaisLattice⟩
  let st := st.addT ⟨bravaislattice, CMSO.hasLatticeSystem,
    .lit (Value.ofOptStr d.BravaisLattice) .dString⟩
  pure { st with unit_cell := some unit_cell_01 }

/-- `add_lattice_properties` (graph.py 367-399). -/
def add_lattice_properties (d : SysDict) (st : GState) (name : Option String) :
    Except String GState := do
  let uc ← req st.unit_cell "unit_cell is None"
  let (lattice_parameter_01, st) := st.newBNode (name.map (· ++ "LatticeParameter"))
  let st := st.addT ⟨uc, CMSO.hasLatticeParamter, lattice_parameter_01⟩
  let st := st.addT ⟨lattice_parameter_01, RDFtype, CMSO.LatticeParameter⟩
  let st := st.addT ⟨lattice_parameter_01, CMSO.hasLength_x,
    .lit (Value.ofOptRat d.LatticeParameter) .dFloat⟩
  let st := st.addT ⟨lattice_parameter_01, CMSO.hasLength_y,
    .lit (Value.ofOptRat d.LatticeParameter) .dFloat⟩
  let st := st.addT ⟨lattice_parameter_01, CMSO.hasLength_z,
    .lit (Value.ofOptRat d.LatticeParameter) .dFloat⟩
  let (lattice_angle_01, st) := st.newBNode (name.map (· ++ "LatticeAngle"))
  let st := st.addT ⟨uc, CMSO.hasAngle, lattice_angle_01⟩
  let st := st.addT ⟨lattice_angle_01, RDFtype, CMSO.LatticeAngle⟩
  let st := st.addT ⟨lattice_angle_01, CMSO.hasAngle_alpha, .lit (.vRat 90) .dFloat⟩
  let st := st.addT ⟨lattice_angle_01, CMSO.hasAngle_beta, .lit (.vRat 90) .dFloat⟩
  let st := st.addT ⟨lattice_angle_01, CMSO.hasAngle_gamma, .lit (.vRat 90) .dFloat⟩
  pure st

/-- One iteration of the `add_atoms` loop body (graph.py 414-446) at atom
index `x`. -/
def add_atom_step (d : SysDict) (smp : Node) (name : Option String)
    (poss : List (ℚ × ℚ × ℚ)) (st : GState) (x : Nat) : Except String GState := do
  let (atom, st) := st.newBNode (name.map (fun n => n ++ "_" ++ toString x))
  let st := st.addT ⟨smp, CMSO.hasAtom, atom⟩
  let st := st.addT ⟨atom, RDFtype, CMSO.Atom⟩
  let (position, st) := st.newBNode (name.map (fun n => n ++ "_" ++ toString x ++ "_Position"))
  let st := st.addT ⟨atom, CMSO.hasPositionVector, position⟩
  let st := st.addT ⟨position, RDFtype, CMSO.PositionVector⟩
  let pos ← req (poss.get? x) "IndexError: list index out of range"
  let st := st.addT ⟨position, CMSO.hasComponent_x, .lit (.vRat pos.1) .dFloat⟩
  let st := st.addT ⟨position, CMSO.hasComponent_y, .lit (.vRat pos.2.1) .dFloat⟩
  let st := st.addT ⟨position, CMSO.hasComponent_z, .lit (.vRat pos.2.2) .dFloat⟩
  let (element, st) := st.newBNode (name.map (fun n => n ++ "_" ++ toString x ++ "_Element"))
  let st := st.addT ⟨atom, CMSO.hasElement, element⟩
  let st := st.addT ⟨element, RDFtype, CMSO.Element⟩
  let els ← req d.Element "TypeError: NoneType object is not subscriptable"
  let el ← req (els.get? x) "IndexError: list index out of range"
  let st := st.addT ⟨element, CMSO.hasSymbol, .lit (.vStr el) .dString⟩
  let coords ← req d.Coordination "TypeError: NoneType object is not subscriptable"
  let co ← req (coords.get? x) "IndexError: list index out of range"
  let st := st.addT ⟨atom, CMSO.hasCoordinationNumber, .lit (.vInt co) .dInteger⟩
  pure st

/-- `add_atoms` (graph.py 401-446): `len(None)` raises `TypeError`, then one
atom block per index in `range(len(Positions))`. -/
def add_atoms (d : SysDict) (st : GState) (name : Option String) : Except String GState := do
  let smp ← req st.sample "sample is None"
  let poss ← req d.Positions "TypeError: object of type NoneType has no len"
  (List.range poss.length).foldlM (add_atom_step d smp name poss) st

/-- `create_graph` (graph.py 120-158): the fixed encoding sequence, with the
deterministic name list in `names` mode (note `name_list[4]` repeats the
`SimulationCell` label and `name_list[8]` repeats the `UnitCell` label,
exactly as in the source). -/
def create_graph (d : SysDict) (names : Bool) (name_index : String) (st : GState) :
    Except String GState := do
  let n0 := if names then some (name_index ++ "_Sample") else none
  let n1 := if names then some (name_index ++ "_Material") else none
  let n2 := if names then some (name_index ++ "_ChemicalComposition") else none
  let n3 := if names then some (name_index ++ "_SimulationCell") else none
  let n4 := if names then some (name_index ++ "_SimulationCell") else none
  let n5 := if names then some (name_index ++ "_CrystalStructure") else none
  let n6 := if names then some (name_index ++ "_SpaceGroup") else none
  let n7 := if names then some (name_index ++ "_UnitCell") else none
  let n8 := if names then some (name_index ++ "_UnitCell") else none
  let n9 := if names then some (name_index ++ "_Atom") else none
  let st := add_sample st n0
  let st ← add_material st n1
  let st ← add_chemical_composition d st n2
  let st ← add_simulation_cell d st n3
  let st ← add_simulation_cell_properties d st n4
  let st ← add_crystal_structure d st n5
  let st ← add_space_group d st n6
  let st ← add_unit_cell d st n7
  let st ← add_lattice_properties d st n8
  let st ← add_atoms d st n9
  pure st

/-- The grain-boundary description dictionary passed to `add_gb`.  The
source reads exactly the keys `GBType`, `sigma`, `GBPlane`,
`RotationAxis[0..2]`, `MisorientationAngle`. -/
structure GBDict where
  GBType : Option String
  sigma : Value
  GBPlane : Value
  RotationAxis : Value × Value × Value
  MisorientationAngle : Value
deriving DecidableEq, Repr

/-- `add_gb` (graph.py 450-509): the defect-type dispatch has no `else`
branch, so an unrecognized `GBType` tag adds no type triple; the dependent
sub-triples are inserted unconditionally afterwards. -/
def add_gb (gb : GBDict) (st : GState) (name : Option String) : Except String GState := do
  let mat ← req st.material "material is None"
  let (plane_defect_01, st) := st.newBNode name
  let st := st.addT ⟨mat, CMSO.hasDefect, plane_defect_01⟩
  let st :=
    match gb.GBType with
    | none => st.addT ⟨plane_defect_01, RDFtype, PLDO.GrainBoundary⟩
    | some tag =>
      if tag = "Twist" then st.addT ⟨plane_defect_01, RDFtype, PLDO.TwistBoundary⟩
      else if tag = "Tilt" then st.addT ⟨plane_defect_01, RDFtype, PLDO.TiltBoundary⟩
      else if tag = "Symmetric Tilt" then
        st.addT ⟨plane_defect_01, RDFtype, PLDO.SymmetricTiltBoundary⟩
      else if tag = "Mixed" then st.addT ⟨plane_defect_01, RDFtype, PLDO.MixedBoundary⟩
      else st
  let st := st.addT ⟨plane_defect_01, PLDO.hasSigmaValue, .lit gb.sigma .dInteger⟩
  let (gb_plane_01, st) := st.newBNode (name.map (· ++ "GrainBoundaryPlane"))
  let st := st.addT ⟨plane_defect_01, PLDO.hasGBPlane, gb_plane_01⟩
  let st := st.addT ⟨gb_plane_01, RDFtype, PLDO.GrainBoundaryPlane⟩
  let st := st.addT ⟨gb_plane_01, PLDO.hasMillerIndices, .lit gb.GBPlane .dString⟩
  let (rotation_axis_01, st) := st.newBNode (name.map (· ++ "RotationAxis"))
  let st := st.addT ⟨plane_defect_01, PLDO.hasRotationAxis, rotation_axis_01⟩
  let st := st.addT ⟨rotation_axis_01, RDFtype, PLDO.RotationAxis⟩
  let st := st.addT ⟨rotation_axis_01, PLDO.hasComponentX, .lit gb.RotationAxis.1 .dFloat⟩
  let st := st.addT ⟨rotation_axis_01, PLDO.hasComponentY, .lit gb.RotationAxis.2.1 .dFloat⟩
  let st := st.addT ⟨rotation_axis_01, PLDO.hasComponentZ, .lit gb.RotationAxis.2.2 .dFloat⟩
  let (misorientation_angle_01, st) := st.newBNode (name.map (· ++ "MisorientationAngle"))
  let st := st.addT ⟨plane_defect_01, PLDO.hasMisorientationAngle, misorientation_angle_01⟩
  let st := st.addT ⟨misorientation_angle_01, RDFtype, PLDO.MisorientationAngle⟩
  let st := st.addT ⟨misorientation_angle_01, PLDO.hasAngle, .lit gb.MisorientationAngle .dFloat⟩
  pure st

/-- `add_vacancy` (graph.py 511-532). -/
def add_vacancy (concentration : Value) (number : Option Value) (st : GState)
    (name : Option String) : Except String GState := do
  let mat ← req st.material "material is None"
  let (vacancy_01, st) := st.newBNode name
  let st := st.addT ⟨mat, CMSO.hasDefect, vacancy_01⟩
  let st := st.addT ⟨vacancy_01, RDFtype, PODO.Vacancy⟩
  let st := st.addT ⟨vacancy_01, PODO.hasVacancyConcentration, .lit concentration .dFloat⟩
  let st :=
    match number with
    | none => st
    | some n => st.addT ⟨vacancy_01, PODO.hasNumberOfVacancy, .lit n .dInteger⟩
  pure st

/-- `iterate_graph` (graph.py 744-750): for every triple with the given
subject, copy it into the new store (`sg`) and recurse into its object.
The Python recursion is direct and unguarded; the `Nat` argument is fuel
bounding the call depth, and `none` means the depth was exceeded (in Python:
the recursion never returns / hits `RecursionError`). -/
def iterate_graph (g : List Triple) : Nat → Node → List Triple → Option (List Triple)
  | 0, _, _ => none
  | fuel + 1, item, sg =>
    (Graph.triples g (some item) none none).foldlM
      (fun acc triple => iterate_graph g fuel triple.o (Graph.addTriple acc triple)) sg

/-- `get_sample` (graph.py 752-775): extract the subgraph below `sample`
into a fresh store; with `no_atoms=True` additionally call `.toPython()` on
`sgraph.graph.value(sample, CMSO.hasNumberOfAtoms)` — which raises
`AttributeError` when that lookup returns `None`. -/
def get_sample (g : List Triple) (sample : Node) (no_atoms : Bool) (fuel : Nat) :
    Option (Except String (List Triple × Option Value)) :=
  match iterate_graph g fuel sample [] with
  | none => none
  | some sg =>
    if no_atoms then
      match toPythonE (Graph.value sg (some sample) (some CMSO.hasNumberOfAtoms)) with
      | .error e => some (.error e)
      | .ok na => some (.ok (sg, some na))
    else some (.ok (sg, none))

/-- Decoder output: `sys.box` (the three rows assembled in `cell_vectors`)
plus the parallel `positions` / `species` lists. -/
structure DecodedSystem where
  box : List (List Value)
  positions : List (List Value)
  species : List Value
deriving DecidableEq, Repr

/-- Body of the cell-vector loop of `get_system_from_sample` (graph.py
795-798): collect the x, y, z components of every `hasVector` child into the
three rows of `cell_vectors` (so row 0 holds the x components of all three
vectors); `.toPython()` on a failed component lookup raises
`AttributeError`. -/
def decode_cell (g : List Triple) (simcell : Option Node) :
    Except String (List Value × List Value × List Value) :=
  (Graph.triples g simcell (some CMSO.hasVector) none).foldlM
    (fun (cv : List Value × List Value × List Value) s => do
      let x ← toPythonE (Graph.value g (some s.o) (some CMSO.hasComponent_x))
      let y ← toPythonE (Graph.value g (some s.o) (some CMSO.hasComponent_y))
      let z ← toPythonE (Graph.value g (some s.o) (some CMSO.hasComponent_z))
      pure (cv.1 ++ [x], cv.2.1 ++ [y], cv.2.2 ++ [z])) ([], [], [])

/-- Body of the atom loop of `get_system_from_sample` (graph.py 804-812):
resolve the atom's position vector and element symbol; every `.toPython()`
on a `None` lookup raises `AttributeError`. -/
def decode_atom_step (g : List Triple) (ps : List (List Value) × List Value) (atom : Triple) :
    Except String (List (List Value) × List Value) := do
  let vector := Graph.value g (some atom.o) (some CMSO.hasPositionVector)
  let x ← toPythonE (Graph.value g vector (some CMSO.hasComponent_x))
  let y ← toPythonE (Graph.value g vector (some CMSO.hasComponent_y))
  let z ← toPythonE (Graph.value g vector (some CMSO.hasComponent_z))
  let element := Graph.value g (some atom.o) (some CMSO.hasElement)
  let sym ← toPythonE (Graph.value g element (some CMSO.hasSymbol))
  pure (ps.1 ++ [[x, y, z]], ps.2 ++ [sym])

/-- The atom loop of `get_system_from_sample` over all `hasAtom` children of
the sample. -/
def decode_atoms (g : List Triple) (sample : Node) :
    Except String (List (List Value) × List Value) :=
  (Graph.triples g (some sample) (some CMSO.hasAtom) none).foldlM (decode_atom_step g) ([], [])

/-- `get_system_from_sample` (graph.py 777-821).  Note `cell_vectors[0]`
collects the x components of every simulation-cell vector (so the decoded
box is the transpose of the encoded vector rows). -/
def get_system_from_sample (g : List Triple) (sample : Node) :
    Except String DecodedSystem := do
  let simcell := Graph.value g (some sample) (some CMSO.hasSimulationCell)
  let cv ← decode_cell g simcell
  let ps ← decode_atoms g sample
  pure ⟨[cv.1, cv.2.1, cv.2.2], ps.1, ps.2⟩

/-! Concrete stores and records used to instantiate the theorems below. -/

/-- Entry node `A` of the two-triple cyclic store. -/
def cycA : Node := .bnode (.inl "A")

/-- Node `B` of the two-triple cyclic store. -/
def cycB : Node := .bnode (.inl "B")

/-- A store with the cycle A→B→A. -/
def cycStore : List Triple := [⟨cycA, .uri "p", cycB⟩, ⟨cycB, .uri "q", cycA⟩]

def c6sample : Node := .bnode (.inl "S")

def c6atom : Node := .bnode (.inl "At")

def c6pos : Node := .bnode (.inl "P")

def c6el : Node := .bnode (.inl "E")

/-- A sample whose only atom has a position but no `hasElement` sub-node. -/
def c6g1 : List Triple :=
  [⟨c6sample, CMSO.hasAtom, c6atom⟩,
   ⟨c6atom, CMSO.hasPositionVector, c6pos⟩,
   ⟨c6pos, CMSO.hasComponent_x, .lit (.vRat 0) .dFloat⟩,
   ⟨c6pos, CMSO.hasComponent_y, .lit (.vRat 0) .dFloat⟩,
   ⟨c6pos, CMSO.hasComponent_z, .lit (.vRat 0) .dFloat⟩]

/-- Same sample, but the atom has an `Element` sub-node that lacks its
`hasSymbol` literal. -/
def c6g2 : List Triple := c6g1 ++ [⟨c6atom, CMSO.hasElement, c6el⟩]

/-- The `AttributeError` every `.toPython()`-on-`None` raises. -/
def attrErr : String := "AttributeError: NoneType object has no attribute toPython"

/-- A small fully-populated data dictionary with zero atoms. -/
def dmin : SysDict :=
  { ChemicalCompositionElement := some []
    ChemicalCompositionRatio' := some []
    CellVolume := some 1
    NumberOfAtoms := some 0
    SimulationCellLengthX := some 1
    SimulationCellLengthY := some 1
    SimulationCellLengthZ := some 1
    SimulationCellVectorA := some (1, 0, 0)
    SimulationCellVectorB := some (0, 1, 0)
    SimulationCellVectorC := some (0, 0, 1)
    SimulationCellAngleAlpha := some 90
    SimulationCellAngleBeta := some 90
    SimulationCellAngleGamma := some 90
    CrystalStructureName := some "l12"
    SpaceGroupSymbol := some "Pm-3m"
    SpaceGroupNumber := some 221
    BravaisLattice := some "cubic"
    LatticeParameter := some 1
    Positions := some []
    Element := some []
    Coordination := some [] }

/-- The concrete record of the spec's named-mode scenario: cubic cell of
side 3, one Al atom at (0.5, 0.5, 0.5) with coordination 12. -/
def d7 : SysDict :=
  { ChemicalCompositionElement := some ["Al"]
    ChemicalCompositionRatio' := some [1]
    CellVolume := some 27
    NumberOfAtoms := some 1
    SimulationCellLengthX := some 3
    SimulationCellLengthY := some 3
    SimulationCellLengthZ := some 3
    SimulationCellVectorA := some (3, 0, 0)
    SimulationCellVectorB := some (0, 3, 0)
    SimulationCellVectorC := some (0, 0, 3)
    SimulationCellAngleAlpha := some 90
    SimulationCellAngleBeta := some 90
    SimulationCellAngleGamma := some 90
    CrystalStructureName := some "fcc"
    SpaceGroupSymbol := some "Fm-3m"
    SpaceGroupNumber := some 225
    BravaisLattice := some "cubic"
    LatticeParameter := some 3
    Positions := some [(mkRat 1 2, mkRat 1 2, mkRat 1 2)]
    Element := some ["Al"]
    Coordination := some [12] }

/-- The state produced by encoding `d7` in named mode with index "01" from a
fresh store. -/
def st7 : GState := (create_graph d7 true "01" {}).toOption.getD {}

/-- The concrete record of the round-trip counterexample: same as `d7` but
with non-symmetric cell vectors A=(1,2,3), B=(4,5,6), C=(7,8,9). -/
def d1 : SysDict :=
  { d7 with SimulationCellVectorA := some (1, 2, 3)
            SimulationCellVectorB := some (4, 5, 6)
            SimulationCellVectorC := some (7, 8, 9) }

/-- The predicate on a store that no stored triple has an object whose
string form is `"None"` (in particular no null-valued literal). -/
def NoNoneObjects (g : List Triple) : Prop := ∀ t ∈ g, t.o.strIsNone = false

/-- Auto-generated blank node with counter id `k`. -/
def bn (k : Nat) : Node := .bnode (.inr k)

/-- The `element=ratio` strings built by `add_chemical_composition`. -/
def chemStrings (els : List String) (rats : List ℚ) : List String :=
  (List.zip els rats).map (fun xy => xy.1 ++ "=" ++ pyFloatStr xy.2)

/-- The triples of one atom block of `add_atoms` at counter `c`: atom node
`bn c`, position node `bn (c+1)`, element node `bn (c+2)`. -/
def atomTriples (smp : Node) (c : Nat) (pos : ℚ × ℚ × ℚ) (el : String) (co : ℤ) :
    List Triple :=
  [⟨smp, CMSO.hasAtom, bn c⟩,
   ⟨bn c, RDFtype, CMSO.Atom⟩,
   ⟨bn c, CMSO.hasPositionVector, bn (c + 1)⟩,
   ⟨bn (c + 1), RDFtype, CMSO.PositionVector⟩,
   ⟨bn (c + 1), CMSO.hasComponent_x, .lit (.vRat pos.1) .dFloat⟩,
   ⟨bn (c + 1), CMSO.hasComponent_y, .lit (.vRat pos.2.1) .dFloat⟩,
   ⟨bn (c + 1), CMSO.hasComponent_z, .lit (.vRat pos.2.2) .dFloat⟩,
   ⟨bn c, CMSO.hasElement, bn (c + 2)⟩,
   ⟨bn (c + 2), RDFtype, CMSO.Element⟩,
   ⟨bn (c + 2), CMSO.hasSymbol, .lit (.vStr el) .dString⟩,
   ⟨bn c, CMSO.hasCoordinationNumber, .lit (.vInt co) .dInteger⟩]

/-- Pure form of one `add_atoms` loop iteration. -/
def atomStepPure (smp : Node) (st : GState) (a : (ℚ × ℚ × ℚ) × String × ℤ) : GState :=
  { st with graph := (atomTriples smp st.ctr a.1 a.2.1 a.2.2).foldl RDFGraph.add st.graph,
            ctr := st.ctr + 3 }

/-- Pure form of the whole `add_atoms` loop (the source indexes the three
lists at `0 ≤ x < len(Positions)`). -/
def atomsFold (smp : Node) (poss : List (ℚ × ℚ × ℚ)) (elms : List String) (cos : List ℤ)
    (st : GState) : GState :=
  (List.range poss.length).foldl
    (fun st x => atomStepPure smp st (poss.getD x (0, 0, 0), elms.getD x "", cos.getD x 0)) st

/-- The graph produced for the non-atom part of `create_graph` in anonymous
mode from a fresh store: blank nodes are numbered in creation order (sample
0, material 1, composition 2, simulation cell 3, length 4, vectors 5-7,
angle 8, crystal structure 9, space group 10, unit cell 11, Bravais lattice
12, lattice parameter 13, lattice angle 14). -/
def encPrefixG (els : List String) (rats : List ℚ) (v : ℚ) (na : Option ℤ)
    (lx ly lz : Option ℚ) (va vb vc : ℚ × ℚ × ℚ) (aa ab ag : Option ℚ)
    (csn sgs : Option String) (sgn : Option ℤ) (bl : Option String) (lp : Option ℚ) :
    List Triple :=
  let g := RDFGraph.add [] ⟨bn 0, RDFtype, CMSO.AtomicScaleSample⟩
  let g := RDFGraph.add g ⟨bn 0, CMSO.hasMaterial, bn 1⟩
  let g := RDFGraph.add g ⟨bn 1, RDFtype, CMSO.CrystallineMaterial⟩
  let g := RDFGraph.add g ⟨bn 1, CMSO.hasComposition, bn 2⟩
  let g := RDFGraph.add g ⟨bn 2, RDFtype, CMSO.ChemicalComposition⟩
  let g := (chemStrings els rats).foldl
    (fun g s => RDFGraph.add g ⟨bn 2, CMSO.hasElementRatio', .lit (.vStr s) .dString⟩) g
  let g := RDFGraph.add g ⟨bn 0, CMSO.hasSimulationCell, bn 3⟩
  let g := RDFGraph.add g ⟨bn 3, RDFtype, CMSO.SimulationCell⟩
  let g := RDFGraph.add g ⟨bn 3, CMSO.hasVolume, .lit (.vRat (npRound2 v)) .dFloat⟩
  let g := RDFGraph.add g ⟨bn 0, CMSO.hasNumberOfAtoms, .lit (Value.ofOptInt na) .dInteger⟩
  let g := RDFGraph.add g ⟨bn 3, CMSO.hasLength, bn 4⟩
  let g := RDFGraph.add g ⟨bn 4, RDFtype, CMSO.SimulationCellLength⟩
  let g := RDFGraph.add g ⟨bn 4, CMSO.hasLength_x, .lit (Value.ofOptRat lx) .dFloat⟩
  let g := RDFGraph.add g ⟨bn 4, CMSO.hasLength_y, .lit (Value.ofOptRat ly) .dFloat⟩
  let g := RDFGraph.add g ⟨bn 4, CMSO.hasLength_z, .lit (Value.ofOptRat lz) .dFloat⟩
  let g := RDFGraph.add g ⟨bn 3, CMSO.hasVector, bn 5⟩
  let g := RDFGraph.add g ⟨bn 5, RDFtype, CMSO.SimulationCellVector⟩
  let g := RDFGraph.add g ⟨bn 5, CMSO.hasComponent_x, .lit (.vRat va.1) .dFloat⟩
  let g := RDFGraph.add g ⟨bn 5, CMSO.hasComponent_y, .lit (.vRat va.2.1) .dFloat⟩
  let g := RDFGraph.add g ⟨bn 5, CMSO.hasComponent_z, .lit (.vRat va.2.2) .dFloat⟩
  let g := RDFGraph.add g ⟨bn 3, CMSO.hasVector, bn 6⟩
  let g := RDFGraph.add g ⟨bn 6, RDFtype, CMSO.SimulationCellVector⟩
  let g := RDFGraph.add g ⟨bn 6, CMSO.hasComponent_x, .lit (.vRat vb.1) .dFloat⟩
  let g := RDFGraph.add g ⟨bn 6, CMSO.hasComponent_y, .lit (.vRat vb.2.1) .dFloat⟩
  let g := RDFGraph.add g ⟨bn 6, CMSO.hasComponent_z, .lit (.vRat vb.2.2) .dFloat⟩
  let g := RDFGraph.add g ⟨bn 3, CMSO.hasVector, bn 7⟩
  let g := RDFGraph.add g ⟨bn 7, RDFtype, CMSO.SimulationCellVector⟩
  let g := RDFGraph.add g ⟨bn 7, CMSO.hasComponent_x, .lit (.vRat vc.1) .dFloat⟩
  let g := RDFGraph.add g ⟨bn 7, CMSO.hasComponent_y, .lit (.vRat vc.2.1) .dFloat⟩
  let g := RDFGraph.add g ⟨bn 7, CMSO.hasComponent_z, .lit (.vRat vc.2.2) .dFloat⟩
  let g := RDFGraph.add g ⟨bn 3, CMSO.hasAngle, bn 8⟩
  let g := RDFGraph.add g ⟨bn 8, RDFtype, CMSO.SimulationCellAngle⟩
  let g := RDFGraph.add g ⟨bn 8, CMSO.hasAngle_alpha, .lit (Value.ofOptRat aa) .dFloat⟩
  let g := RDFGraph.add g ⟨bn 8, CMSO.hasAngle_beta, .lit (Value.ofOptRat ab) .dFloat⟩
  let g := RDFGraph.add g ⟨bn 8, CMSO.hasAngle_gamma, .lit (Value.ofOptRat ag) .dFloat⟩
  let g := RDFGraph.add g ⟨bn 1, CMSO.hasStructure, bn 9⟩
  let g := RDFGraph.add g ⟨bn 9, RDFtype, CMSO.CrystalStructure⟩
  let g := RDFGraph.add g ⟨bn 9, CMSO.hasAltName, .lit (Value.ofOptStr csn) .dString⟩
  let g := RDFGraph.add g ⟨bn 9, CMSO.hasSpaceGroup, bn 10⟩
  let g := RDFGraph.add g ⟨bn 10, RDFtype, CMSO.SpaceGroup⟩
  let g := RDFGraph.add g ⟨bn 10, CMSO.hasSpaceGroupSymbol, .lit (Value.ofOptStr sgs) .dString⟩
  let g := RDFGraph.add g ⟨bn 10, CMSO.hasSpaceGroupNumber, .lit (Value.ofOptInt sgn) .dInteger⟩
  let g := RDFGraph.add g ⟨bn 9, CMSO.hasUnitCell, bn 11⟩
  let g := RDFGraph.add g ⟨bn 11, RDFtype, CMSO.UnitCell⟩
  let g := RDFGraph.add g ⟨bn 11, CMSO.hasLattice, bn 12⟩
  let g := RDFGraph.add g ⟨bn 12, RDFtype, CMSO.BravaisLattice⟩
  let g := RDFGraph.add g ⟨bn 12, CMSO.hasLatticeSystem, .lit (Value.ofOptStr bl) .dString⟩
  let g := RDFGraph.add g ⟨bn 11, CMSO.hasLatticeParamter, bn 13⟩
  let g := RDFGraph.add g ⟨bn 13, RDFtype, CMSO.LatticeParameter⟩
  let g := RDFGraph.add g ⟨bn 13, CMSO.hasLength_x, .lit (Value.ofOptRat lp) .dFloat⟩
  let g := RDFGraph.add g ⟨bn 13, CMSO.hasLength_y, .lit (Value.ofOptRat lp) .dFloat⟩
  let g := RDFGraph.add g ⟨bn 13, CMSO.hasLength_z, .lit (Value.ofOptRat lp) .dFloat⟩
  let g := RDFGraph.add g ⟨bn 11, CMSO.hasAngle, bn 14⟩
  let g := RDFGraph.add g ⟨bn 14, RDFtype, CMSO.LatticeAngle⟩
  let g := RDFGraph.add g ⟨bn 14, CMSO.hasAngle_alpha, .lit (.vRat 90) .dFloat⟩
  let g := RDFGraph.add g ⟨bn 14, CMSO.hasAngle_beta, .lit (.vRat 90) .dFloat⟩
  let g := RDFGraph.add g ⟨bn 14, CMSO.hasAngle_gamma, .lit (.vRat 90) .dFloat⟩
  g

/-- The insertion-ordered list of triples offered to the store by the
non-atom part of `create_graph` (anonymous mode, fresh store); the five
scalar-field literals are singled out as their own segments. -/
def encPrefixList (els : List String) (rats : List ℚ) (v : ℚ) (na : Option ℤ)
    (lx ly lz : Option ℚ) (va vb vc : ℚ × ℚ × ℚ) (aa ab ag : Option ℚ)
    (csn sgs : Option String) (sgn : Option ℤ) (bl : Option String) (lp : Option ℚ) :
    List Triple :=
  [⟨bn 0, RDFtype, CMSO.AtomicScaleSample⟩,
   ⟨bn 0, CMSO.hasMaterial, bn 1⟩,
   ⟨bn 1, RDFtype, CMSO.CrystallineMaterial⟩,
   ⟨bn 1, CMSO.hasComposition, bn 2⟩,
   ⟨bn 2, RDFtype, CMSO.ChemicalComposition⟩]
  ++ (chemStrings els rats).map
      (fun s => ⟨bn 2, CMSO.hasElementRatio', .lit (.vStr s) .dString⟩)
  ++ [⟨bn 0, CMSO.hasSimulationCell, bn 3⟩,
      ⟨bn 3, RDFtype, CMSO.SimulationCell⟩,
      ⟨bn 3, CMSO.hasVolume, .lit (.vRat (npRound2 v)) .dFloat⟩]
  ++ [⟨bn 0, CMSO.hasNumberOfAtoms, .lit (Value.ofOptInt na) .dInteger⟩]
  ++ [⟨bn 3, CMSO.hasLength, bn 4⟩,
      ⟨bn 4, RDFtype, CMSO.SimulationCellLength⟩,
      ⟨bn 4, CMSO.hasLength_x, .lit (Value.ofOptRat lx) .dFloat⟩,
      ⟨bn 4, CMSO.hasLength_y, .lit (Value.ofOptRat ly) .dFloat⟩,
      ⟨bn 4, CMSO.hasLength_z, .lit (Value.ofOptRat lz) .dFloat⟩,
      ⟨bn 3, CMSO.hasVector, bn 5⟩,
      ⟨bn 5, RDFtype, CMSO.SimulationCellVector⟩,
      ⟨bn 5, CMSO.hasComponent_x, .lit (.vRat va.1) .dFloat⟩,
      ⟨bn 5, CMSO.hasComponent_y, .lit (.vRat va.2.1) .dFloat⟩,
      ⟨bn 5, CMSO.hasComponent_z, .lit (.vRat va.2.2) .dFloat⟩,
      ⟨bn 3, CMSO.hasVector, bn 6⟩,
      ⟨bn 6, RDFtype, CMSO.SimulationCellVector⟩,
      ⟨bn 6, CMSO.hasComponent_x, .lit (.vRat vb.1) .dFloat⟩,
      ⟨bn 6, CMSO.hasComponent_y, .lit (.vRat vb.2.1) .dFloat⟩,
      ⟨bn 6, CMSO.hasComponent_z, .lit (.vRat vb.2.2) .dFloat⟩,
      ⟨bn 3, CMSO.hasVector, bn 7⟩,
      ⟨bn 7, RDFtype, CMSO.SimulationCellVector⟩,
      ⟨bn 7, CMSO.hasComponent_x, .lit (.vRat vc.1) .dFloat⟩,
      ⟨bn 7, CMSO.hasComponent_y, .lit (.vRat vc.2.1) .dFloat⟩,
      ⟨bn 7, CMSO.hasComponent_z, .lit (.vRat vc.2.2) .dFloat⟩,
      ⟨bn 3, CMSO.hasAngle, bn 8⟩,
      ⟨bn 8, RDFtype, CMSO.SimulationCellAngle⟩,
      ⟨bn 8, CMSO.hasAngle_alpha, .lit (Value.ofOptRat aa) .dFloat⟩,
      ⟨bn 8, CMSO.hasAngle_beta, .lit (Value.ofOptRat ab) .dFloat⟩,
      ⟨bn 8, CMSO.hasAngle_gamma, .lit (Value.ofOptRat ag) .dFloat⟩,
      ⟨bn 1, CMSO.hasStructure, bn 9⟩,
      ⟨bn 9, RDFtype, CMSO.CrystalStructure⟩]
  ++ [⟨bn 9, CMSO.hasAltName, .lit (Value.ofOptStr csn) .dString⟩]
  ++ [⟨bn 9, CMSO.hasSpaceGroup, bn 10⟩,
      ⟨bn 10, RDFtype, CMSO.SpaceGroup⟩]
  ++ [⟨bn 10, CMSO.hasSpaceGroupSymbol, .lit (Value.ofOptStr sgs) .dString⟩,
      ⟨bn 10, CMSO.hasSpaceGroupNumber, .lit (Value.ofOptInt sgn) .dInteger⟩]
  ++ [⟨bn 9, CMSO.hasUnitCell, bn 11⟩,
      ⟨bn 11, RDFtype, CMSO.UnitCell⟩,
      ⟨bn 11, CMSO.hasLattice, bn 12⟩,
      ⟨bn 12, RDFtype, CMSO.BravaisLattice⟩]
  ++ [⟨bn 12, CMSO.hasLatticeSystem, .lit (Value.ofOptStr bl) .dString⟩]
  ++ [⟨bn 11, CMSO.hasLatticeParamter, bn 13⟩,
      ⟨bn 13, RDFtype, CMSO.LatticeParameter⟩,
      ⟨bn 13, CMSO.hasLength_x, .lit (Value.ofOptRat lp) .dFloat⟩,
      ⟨bn 13, CMSO.hasLength_y, .lit (Value.ofOptRat lp) .dFloat⟩,
      ⟨bn 13, CMSO.hasLength_z, .lit (Value.ofOptRat lp) .dFloat⟩,
      ⟨bn 11, CMSO.hasAngle, bn 14⟩,
      ⟨bn 14, RDFtype, CMSO.LatticeAngle⟩,
      ⟨bn 14, CMSO.hasAngle_alpha, .lit (.vRat 90) .dFloat⟩,
      ⟨bn 14, CMSO.hasAngle_beta, .lit (.vRat 90) .dFloat⟩,
      ⟨bn 14, CMSO.hasAngle_gamma, .lit (.vRat 90) .dFloat⟩]

/-- The insertion-ordered list of triples offered to the store by the atom
loop: one `atomTriples` block per atom index, blank nodes counted from
`c`. -/
def atomsTripleList (smp : Node) (c : Nat) (poss : List (ℚ × ℚ × ℚ))
    (elms : List String) (cos : List ℤ) : List Triple :=
  ((List.range poss.length).map (fun j => atomTriples smp (c + 3 * j)
    (poss.getD j (0, 0, 0)) (elms.getD j "") (cos.getD j 0))).flatten

/-- Discriminating key for store triples: subject, predicate, the blank-node
index of the object if any, and (for composition triples only) the object's
string payload. -/
def tkey (u : Triple) : Node × Node × Option Nat × Option String :=
  (u.s, u.p,
   (match u.o with | .bnode (.inr k) => some k | _ => none),
   if u.p = CMSO.hasElementRatio' then
     (match u.o with | .lit (.vStr s) _ => some s | _ => none)
   else none)

/-- The extraction (depth-first preorder) order of the non-atom prefix: the
subtree below the material node first, then the simulation-cell subtree,
then the number-of-atoms literal. -/
def sgPrefixList (els : List String) (rats : List ℚ) (v : ℚ) (na : Option ℤ)
    (lx ly lz : Option ℚ) (va vb vc : ℚ × ℚ × ℚ) (aa ab ag : Option ℚ)
    (csn sgs : Option String) (sgn : Option ℤ) (bl : Option String) (lp : Option ℚ) :
    List Triple :=
  [⟨bn 0, RDFtype, CMSO.AtomicScaleSample⟩,
   ⟨bn 0, CMSO.hasMaterial, bn 1⟩,
   ⟨bn 1, RDFtype, CMSO.CrystallineMaterial⟩,
   ⟨bn 1, CMSO.hasComposition, bn 2⟩,
   ⟨bn 2, RDFtype, CMSO.ChemicalComposition⟩]
  ++ (chemStrings els rats).map
      (fun s => ⟨bn 2, CMSO.hasElementRatio', .lit (.vStr s) .dString⟩)
  ++ [⟨bn 1, CMSO.hasStructure, bn 9⟩,
      ⟨bn 9, RDFtype, CMSO.CrystalStructure⟩,
      ⟨bn 9, CMSO.hasAltName, .lit (Value.ofOptStr csn) .dString⟩,
      ⟨bn 9, CMSO.hasSpaceGroup, bn 10⟩,
      ⟨bn 10, RDFtype, CMSO.SpaceGroup⟩,
      ⟨bn 10, CMSO.hasSpaceGroupSymbol, .lit (Value.ofOptStr sgs) .dString⟩,
      ⟨bn 10, CMSO.hasSpaceGroupNumber, .lit (Value.ofOptInt sgn) .dInteger⟩,
      ⟨bn 9, CMSO.hasUnitCell, bn 11⟩,
      ⟨bn 11, RDFtype, CMSO.UnitCell⟩,
      ⟨bn 11, CMSO.hasLattice, bn 12⟩,
      ⟨bn 12, RDFtype, CMSO.BravaisLattice⟩,
      ⟨bn 12, CMSO.hasLatticeSystem, .lit (Value.ofOptStr bl) .dString⟩,
      ⟨bn 11, CMSO.hasLatticeParamter, bn 13⟩,
      ⟨bn 13, RDFtype, CMSO.LatticeParameter⟩,
      ⟨bn 13, CMSO.hasLength_x, .lit (Value.ofOptRat lp) .dFloat⟩,
      ⟨bn 13, CMSO.hasLength_y, .lit (Value.ofOptRat lp) .dFloat⟩,
      ⟨bn 13, CMSO.hasLength_z, .lit (Value.ofOptRat lp) .dFloat⟩,
      ⟨bn 11, CMSO.hasAngle, bn 14⟩,
      ⟨bn 14, RDFtype, CMSO.LatticeAngle⟩,
      ⟨bn 14, CMSO.hasAngle_alpha, .lit (.vRat 90) .dFloat⟩,
      ⟨bn 14, CMSO.hasAngle_beta, .lit (.vRat 90) .dFloat⟩,
      ⟨bn 14, CMSO.hasAngle_gamma, .lit (.vRat 90) .dFloat⟩]
  ++ [⟨bn 0, CMSO.hasSimulationCell, bn 3⟩,
      ⟨bn 3, RDFtype, CMSO.SimulationCell⟩,
      ⟨bn 3, CMSO.hasVolume, .lit (.vRat (npRound2 v)) .dFloat⟩,
      ⟨bn 3, CMSO.hasLength, bn 4⟩,
      ⟨bn 4, RDFtype, CMSO.SimulationCellLength⟩,
      ⟨bn 4, CMSO.hasLength_x, .lit (Value.ofOptRat lx) .dFloat⟩,
      ⟨bn 4, CMSO.hasLength_y, .lit (Value.ofOptRat ly) .dFloat⟩,
      ⟨bn 4, CMSO.hasLength_z, .lit (Value.ofOptRat lz) .dFloat⟩,
      ⟨bn 3, CMSO.hasVector, bn 5⟩,
      ⟨bn 5, RDFtype, CMSO.SimulationCellVector⟩,
      ⟨bn 5, CMSO.hasComponent_x, .lit (.vRat va.1) .dFloat⟩,
      ⟨bn 5, CMSO.hasComponent_y, .lit (.vRat va.2.1) .dFloat⟩,
      ⟨bn 5, CMSO.hasComponent_z, .lit (.vRat va.2.2) .dFloat⟩,
      ⟨bn 3, CMSO.hasVector, bn 6⟩,
      ⟨bn 6, RDFtype, CMSO.SimulationCellVector⟩,
      ⟨bn 6, CMSO.hasComponent_x, .lit (.vRat vb.1) .dFloat⟩,
      ⟨bn 6, CMSO.hasComponent_y, .lit (.vRat vb.2.1) .dFloat⟩,
      ⟨bn 6, CMSO.hasComponent_z, .lit (.vRat vb.2.2) .dFloat⟩,
      ⟨bn 3, CMSO.hasVector, bn 7⟩,
      ⟨bn 7, RDFtype, CMSO.SimulationCellVector⟩,
      ⟨bn 7, CMSO.hasComponent_x, .lit (.vRat vc.1) .dFloat⟩,
      ⟨bn 7, CMSO.hasComponent_y, .lit (.vRat vc.2.1) .dFloat⟩,
      ⟨bn 7, CMSO.hasComponent_z, .lit (.vRat vc.2.2) .dFloat⟩,
      ⟨bn 3, CMSO.hasAngle, bn 8⟩,
      ⟨bn 8, RDFtype, CMSO.SimulationCellAngle⟩,
      ⟨bn 8, CMSO.hasAngle_alpha, .lit (Value.ofOptRat aa) .dFloat⟩,
      ⟨bn 8, CMSO.hasAngle_beta, .lit (Value.ofOptRat ab) .dFloat⟩,
      ⟨bn 8, CMSO.hasAngle_gamma, .lit (Value.ofOptRat ag) .dFloat⟩]
  ++ [⟨bn 0, CMSO.hasNumberOfAtoms, .lit (Value.ofOptInt na) .dInteger⟩]

/-- The full store of a fully populated record, encoded from a fresh
store: prefix then atom blocks. -/
def storeList (els : List String) (rats : List ℚ) (v lx ly lz aa ab ag lp : ℚ)
    (na sgn : ℤ) (csn sgs bl : String) (va vb vc : ℚ × ℚ × ℚ)
    (poss : List (ℚ × ℚ × ℚ)) (elms : List String) (cos : List ℤ) : List Triple :=
  encPrefixList els rats v (some na) (some lx) (some ly) (some lz) va vb vc
      (some aa) (some ab) (some ag) (some csn) (some sgs) (some sgn) (some bl) (some lp)
    ++ atomsTripleList (bn 0) 15 poss elms cos

/-- The extracted subgraph of that store, in depth-first preorder. -/
def sgList (els : List String) (rats : List ℚ) (v lx ly lz aa ab ag lp : ℚ)
    (na sgn : ℤ) (csn sgs bl : String) (va vb vc : ℚ × ℚ × ℚ)
    (poss : List (ℚ × ℚ × ℚ)) (elms : List String) (cos : List ℤ) : List Triple :=
  sgPrefixList els rats v (some na) (some lx) (some ly) (some lz) va vb vc
      (some aa) (some ab) (some ag) (some csn) (some sgs) (some sgn) (some bl) (some lp)
    ++ atomsTripleList (bn 0) 15 poss elms cos

/-! Helper lemmas about the store model. -/

theorem mem_addTriple {g : List Triple} {t u : Triple} :
    u ∈ Graph.addTriple g t ↔ u ∈ g ∨ u = t := by
  unfold Graph.addTriple
  by_cases h : t ∈ g
  · simp only [if_pos h]
    constructor
    · exact Or.inl
    · rintro (hu | rfl)
      · exact hu
      · exact h
  · simp [if_neg h]

theorem mem_RDFadd {g : List Triple} {t u : Triple} :
    u ∈ RDFGraph.add g t ↔ u ∈ g ∨ (t.o.strIsNone = false ∧ u = t) := by
  unfold RDFGraph.add
  cases h : t.o.strIsNone with
  | true => simp [h]
  | false => simp [h, mem_addTriple]

theorem mem_addT {st : GState} {t u : Triple} :
    u ∈ (st.addT t).graph ↔ u ∈ st.graph ∨ (t.o.strIsNone = false ∧ u = t) := by
  simp [GState.addT, mem_RDFadd]

theorem GState.graph_mk (g : List Triple) (c : Nat) (s m sc cs uc : Option Node) :
    (GState.mk g c s m sc cs uc).graph = g := rfl

theorem GState.addT_graph (st : GState) (t : Triple) :
    (st.addT t).graph = RDFGraph.add st.graph t := rfl

theorem exbind_ok {α β : Type} (a : α) (f : α → Except String β) :
    (Except.ok a >>= f) = f a := rfl

theorem exbind_error {α β : Type} (e : String) (f : α → Except String β) :
    ((Except.error e : Except String α) >>= f) = .error e := rfl

theorem expure {α : Type} (a : α) : (pure a : Except String α) = .ok a := rfl

theorem obind_some {α β : Type} (a : α) (f : α → Option β) : (some a >>= f) = f a := rfl

theorem obind_none {α β : Type} (f : α → Option β) : ((none : Option α) >>= f) = none := rfl

theorem opure {α : Type} (a : α) : (pure a : Option α) = some a := rfl

/-- Invariant preservation through the guarded insert. -/
theorem NoNoneObjects_add {g : List Triple} {t : Triple} (h : NoNoneObjects g) :
    NoNoneObjects (RDFGraph.add g t) := by
  intro u hu
  rcases mem_RDFadd.1 hu with h' | ⟨hf, rfl⟩
  · exact h u h'
  · exact hf

theorem NoNoneObjects_addT {st : GState} {t : Triple} (h : NoNoneObjects st.graph) :
    NoNoneObjects (st.addT t).graph :=
  NoNoneObjects_add h

/-- Generic invariant preservation through an `Except`-valued left fold. -/
theorem foldlM_except_inv {α β : Type} (P : β → Prop) (f : β → α → Except String β)
    (hf : ∀ b a b', f b a = .ok b' → P b → P b') :
    ∀ (l : List α) (b b' : β), l.foldlM f b = .ok b' → P b → P b' := by
  intro l
  induction l with
  | nil =>
    intro b b' h hb
    simp only [List.foldlM_nil, expure, Except.ok.injEq] at h
    exact h ▸ hb
  | cons a l ih =>
    intro b b' h hb
    rw [List.foldlM_cons] at h
    cases hfa : f b a with
    | error e => rw [hfa, exbind_error] at h; exact absurd h (by simp)
    | ok b1 =>
      rw [hfa, exbind_ok] at h
      exact ih b1 b' h (hf b a b1 hfa hb)

/-- An `Except`-valued left fold errors whenever the list contains an
element on which the step function errors for every accumulator. -/
theorem foldlM_except_err {α β : Type} (f : β → α → Except String β) (bad : α)
    (hbad : ∀ b, ∃ m, f b bad = .error m) :
    ∀ (l : List α), bad ∈ l → ∀ b, ∃ m, l.foldlM f b = .error m := by
  intro l
  induction l with
  | nil => intro h; exact absurd h (List.not_mem_nil bad)
  | cons a l ih =>
    intro hmem b
    rw [List.foldlM_cons]
    rcases List.mem_cons.1 hmem with rfl | hmem'
    · obtain ⟨m, hm⟩ := hbad b
      exact ⟨m, by rw [hm, exbind_error]⟩
    · cases hfa : f b a with
      | error e => exact ⟨e, rfl⟩
      | ok b1 =>
        obtain ⟨m, hm⟩ := ih hmem' b1
        exact ⟨m, hm⟩

/-- Everything an extraction run puts into the new store comes from the
initial accumulator or from the source store. -/
theorem iterate_graph_subset (g : List Triple) :
    ∀ (fuel : Nat) (item : Node) (sg sg' : List Triple),
      iterate_graph g fuel item sg = some sg' → ∀ t ∈ sg', t ∈ sg ∨ t ∈ g := by
  intro fuel
  induction fuel with
  | zero => intro _ _ _ h; simp [iterate_graph] at h
  | succ n ih =>
    intro item sg sg' h
    rw [iterate_graph] at h
    have key : ∀ (l : List Triple), (∀ u ∈ l, u ∈ g) → ∀ (sg sg' : List Triple),
        l.foldlM (fun acc triple => iterate_graph g n triple.o (Graph.addTriple acc triple)) sg
          = some sg' → ∀ t ∈ sg', t ∈ sg ∨ t ∈ g := by
      intro l
      induction l with
      | nil =>
        intro _ sg sg' h
        simp only [List.foldlM_nil, opure, Option.some.injEq] at h
        exact h ▸ fun t ht => Or.inl ht
      | cons a l ihl =>
        intro hl sg sg' h
        rw [List.foldlM_cons] at h
        cases hstep : iterate_graph g n a.o (Graph.addTriple sg a) with
        | none => rw [hstep, obind_none] at h; exact absurd h (by simp)
        | some sg1 =>
          rw [hstep, obind_some] at h
          intro t ht
          rcases ihl (fun u hu => hl u (List.mem_cons_of_mem a hu)) sg1 sg' h t ht with h1 | h1
          · rcases ih a.o (Graph.addTriple sg a) sg1 hstep t h1 with h2 | h2
            · rcases mem_addTriple.1 h2 with h3 | rfl
              · exact Or.inl h3
              · exact Or.inr (hl t (List.mem_cons_self t l))
            · exact Or.inr h2
          · exact Or.inr h1
    exact key _ (fun u hu => List.mem_of_mem_filter hu) sg sg' h

theorem GState.addT_ctr (st : GState) (t : Triple) : (st.addT t).ctr = st.ctr := rfl

theorem GState.addT_sample (st : GState) (t : Triple) : (st.addT t).sample = st.sample := rfl

theorem GState.addT_material (st : GState) (t : Triple) : (st.addT t).material = st.material := rfl

theorem GState.addT_simulation_cell (st : GState) (t : Triple) :
    (st.addT t).simulation_cell = st.simulation_cell := rfl

theorem GState.addT_crystal_structure (st : GState) (t : Triple) :
    (st.addT t).crystal_structure = st.crystal_structure := rfl

theorem GState.addT_unit_cell (st : GState) (t : Triple) :
    (st.addT t).unit_cell = st.unit_cell := rfl

theorem GState.ctr_mk (g : List Triple) (c : Nat) (s m sc cs uc : Option Node) :
    (GState.mk g c s m sc cs uc).ctr = c := rfl

theorem GState.sample_mk (g : List Triple) (c : Nat) (s m sc cs uc : Option Node) :
    (GState.mk g c s m sc cs uc).sample = s := rfl

theorem GState.material_mk (g : List Triple) (c : Nat) (s m sc cs uc : Option Node) :
    (GState.mk g c s m sc cs uc).material = m := rfl

theorem GState.simulation_cell_mk (g : List Triple) (c : Nat) (s m sc cs uc : Option Node) :
    (GState.mk g c s m sc cs uc).simulation_cell = sc := rfl

theorem GState.crystal_structure_mk (g : List Triple) (c : Nat) (s m sc cs uc : Option Node) :
    (GState.mk g c s m sc cs uc).crystal_structure = cs := rfl

theorem GState.unit_cell_mk (g : List Triple) (c : Nat) (s m sc cs uc : Option Node) :
    (GState.mk g c s m sc cs uc).unit_cell = uc := rfl

theorem add_sample_inv {st : GState} {name : Option String} (hg : NoNoneObjects st.graph) :
    NoNoneObjects (add_sample st name).graph := by
  cases name <;> dsimp only [add_sample, GState.newBNode] <;>
    simp only [GState.addT_graph, GState.graph_mk] <;> exact NoNoneObjects_add (hg)

theorem add_material_inv {st : GState} {name : Option String} {st' : GState}
    (h : add_material st name = .ok st') (hg : NoNoneObjects st.graph) :
    NoNoneObjects st'.graph := by
  rw [add_material] at h
  cases name <;> rcases hs : st.sample with _ | smp <;> rw [hs] at h
  · exact absurd h (by simp [req, exbind_error, exbind_ok, GState.newBNode, Option.map_none', Option.map_some'])
  · simp only [req, exbind_ok, GState.newBNode, Option.map_none', Option.map_some', GState.addT_graph, GState.addT_ctr, GState.addT_sample, GState.addT_material, GState.addT_simulation_cell, GState.addT_crystal_structure, GState.addT_unit_cell, GState.graph_mk, GState.ctr_mk, GState.sample_mk, GState.material_mk, GState.simulation_cell_mk, GState.crystal_structure_mk, GState.unit_cell_mk, expure, Except.ok.injEq] at h
    subst h
    try simp only [GState.addT_graph, GState.graph_mk]
    exact NoNoneObjects_add (NoNoneObjects_add (hg))
  · exact absurd h (by simp [req, exbind_error, exbind_ok, GState.newBNode, Option.map_none', Option.map_some'])
  · simp only [req, exbind_ok, GState.newBNode, Option.map_none', Option.map_some', GState.addT_graph, GState.addT_ctr, GState.addT_sample, GState.addT_material, GState.addT_simulation_cell, GState.addT_crystal_structure, GState.addT_unit_cell, GState.graph_mk, GState.ctr_mk, GState.sample_mk, GState.material_mk, GState.simulation_cell_mk, GState.crystal_structure_mk, GState.unit_cell_mk, expure, Except.ok.injEq] at h
    subst h
    try simp only [GState.addT_graph, GState.graph_mk]
    exact NoNoneObjects_add (NoNoneObjects_add (hg))

theorem NoNoneObjects_chem_foldl (cc : Node) :
    ∀ (l : List String) (st : GState), NoNoneObjects st.graph →
      NoNoneObjects ((l.foldl (fun st s =>
        st.addT ⟨cc, CMSO.hasElementRatio', .lit (.vStr s) .dString⟩) st).graph) := by
  intro l
  induction l with
  | nil => intro st h; exact h
  | cons a l ih => intro st h; exact ih _ (NoNoneObjects_addT h)

theorem add_chemical_composition_inv {d : SysDict} {st : GState} {name : Option String}
    {st' : GState} (h : add_chemical_composition d st name = .ok st')
    (hg : NoNoneObjects st.graph) : NoNoneObjects st'.graph := by
  rw [add_chemical_composition] at h
  rcases he : d.ChemicalCompositionElement with _ | els <;> rw [he] at h
  · exact absurd h (by simp [req, exbind_error, exbind_ok, GState.newBNode, Option.map_none', Option.map_some'])
  rcases hr : SysDict.ChemicalCompositionRatio' d with _ | rats <;> rw [hr] at h
  · exact absurd h (by simp [req, exbind_error, exbind_ok, GState.newBNode, Option.map_none', Option.map_some'])
  cases name <;> rcases hm : st.material with _ | mat <;> rw [hm] at h
  · exact absurd h (by simp [req, exbind_error, exbind_ok, GState.newBNode, Option.map_none', Option.map_some'])
  · simp only [req, exbind_ok, GState.newBNode, Option.map_none', Option.map_some', GState.addT_graph, GState.addT_ctr, GState.addT_sample, GState.addT_material, GState.addT_simulation_cell, GState.addT_crystal_structure, GState.addT_unit_cell, GState.graph_mk, GState.ctr_mk, GState.sample_mk, GState.material_mk, GState.simulation_cell_mk, GState.crystal_structure_mk, GState.unit_cell_mk, expure, Except.ok.injEq] at h
    subst h
    apply NoNoneObjects_chem_foldl
    try simp only [GState.addT_graph, GState.graph_mk]
    exact NoNoneObjects_add (NoNoneObjects_add (hg))
  · exact absurd h (by simp [req, exbind_error, exbind_ok, GState.newBNode, Option.map_none', Option.map_some'])
  · simp only [req, exbind_ok, GState.newBNode, Option.map_none', Option.map_some', GState.addT_graph, GState.addT_ctr, GState.addT_sample, GState.addT_material, GState.addT_simulation_cell, GState.addT_crystal_structure, GState.addT_unit_cell, GState.graph_mk, GState.ctr_mk, GState.sample_mk, GState.material_mk, GState.simulation_cell_mk, GState.crystal_structure_mk, GState.unit_cell_mk, expure, Except.ok.injEq] at h
    subst h
    apply NoNoneObjects_chem_foldl
    try simp only [GState.addT_graph, GState.graph_mk]
    exact NoNoneObjects_add (NoNoneObjects_add (hg))

theorem add_simulation_cell_inv {d : SysDict} {st : GState} {name : Option String}
    {st' : GState} (h : add_simulation_cell d st name = .ok st')
    (hg : NoNoneObjects st.graph) : NoNoneObjects st'.graph := by
  rw [add_simulation_cell] at h
  cases name <;> rcases hs : st.sample with _ | smp <;> rw [hs] at h
  · exact absurd h (by simp [req, exbind_error, exbind_ok, GState.newBNode, Option.map_none', Option.map_some'])
  · rcases hv : d.CellVolume with _ | vol <;> rw [hv] at h
    · exact absurd h (by simp [req, exbind_error, exbind_ok, GState.newBNode, Option.map_none', Option.map_some'])
    · simp only [req, exbind_ok, GState.newBNode, Option.map_none', Option.map_some', GState.addT_graph, GState.addT_ctr, GState.addT_sample, GState.addT_material, GState.addT_simulation_cell, GState.addT_crystal_structure, GState.addT_unit_cell, GState.graph_mk, GState.ctr_mk, GState.sample_mk, GState.material_mk, GState.simulation_cell_mk, GState.crystal_structure_mk, GState.unit_cell_mk, expure, Except.ok.injEq] at h
      subst h
      try simp only [GState.addT_graph, GState.graph_mk]
      exact NoNoneObjects_add (NoNoneObjects_add (NoNoneObjects_add (NoNoneObjects_add (hg))))
  · exact absurd h (by simp [req, exbind_error, exbind_ok, GState.newBNode, Option.map_none', Option.map_some'])
  · rcases hv : d.CellVolume with _ | vol <;> rw [hv] at h
    · exact absurd h (by simp [req, exbind_error, exbind_ok, GState.newBNode, Option.map_none', Option.map_some'])
    · simp only [req, exbind_ok, GState.newBNode, Option.map_none', Option.map_some', GState.addT_graph, GState.addT_ctr, GState.addT_sample, GState.addT_material, GState.addT_simulation_cell, GState.addT_crystal_structure, GState.addT_unit_cell, GState.graph_mk, GState.ctr_mk, GState.sample_mk, GState.material_mk, GState.simulation_cell_mk, GState.crystal_structure_mk, GState.unit_cell_mk, expure, Except.ok.injEq] at h
      subst h
      try simp only [GState.addT_graph, GState.graph_mk]
      exact NoNoneObjects_add (NoNoneObjects_add (NoNoneObjects_add (NoNoneObjects_add (hg))))

theorem add_cell_length_block_inv {d : SysDict} {sc : Node} {st : GState}
    {uname : Option String} (hg : NoNoneObjects st.graph) :
    NoNoneObjects (add_cell_length_block d sc st uname).graph := by
  cases uname <;> dsimp only [add_cell_length_block, GState.newBNode] <;>
    simp only [GState.addT_graph, GState.graph_mk] <;> exact NoNoneObjects_add (NoNoneObjects_add (NoNoneObjects_add (NoNoneObjects_add (NoNoneObjects_add (hg)))))

theorem add_cell_angle_block_inv {d : SysDict} {sc : Node} {st : GState}
    {uname : Option String} (hg : NoNoneObjects st.graph) :
    NoNoneObjects (add_cell_angle_block d sc st uname).graph := by
  cases uname <;> dsimp only [add_cell_angle_block, GState.newBNode] <;>
    simp only [GState.addT_graph, GState.graph_mk] <;> exact NoNoneObjects_add (NoNoneObjects_add (NoNoneObjects_add (NoNoneObjects_add (NoNoneObjects_add (hg)))))

theorem add_cell_vector_block_inv {vec : Option (ℚ × ℚ × ℚ)} {sc : Node} {st : GState}
    {uname : Option String} {st' : GState}
    (h : add_cell_vector_block vec sc st uname = .ok st') (hg : NoNoneObjects st.graph) :
    NoNoneObjects st'.graph := by
  rw [add_cell_vector_block] at h
  cases uname <;> rcases hv : vec with _ | v <;> rw [hv] at h
  · exact absurd h (by simp [req, exbind_error, exbind_ok, GState.newBNode, Option.map_none', Option.map_some'])
  · simp only [req, exbind_ok, GState.newBNode, Option.map_none', Option.map_some', GState.addT_graph, GState.addT_ctr, GState.addT_sample, GState.addT_material, GState.addT_simulation_cell, GState.addT_crystal_structure, GState.addT_unit_cell, GState.graph_mk, GState.ctr_mk, GState.sample_mk, GState.material_mk, GState.simulation_cell_mk, GState.crystal_structure_mk, GState.unit_cell_mk, expure, Except.ok.injEq] at h
    subst h
    try simp only [GState.addT_graph, GState.graph_mk]
    exact NoNoneObjects_add (NoNoneObjects_add (NoNoneObjects_add (NoNoneObjects_add (NoNoneObjects_add (hg)))))
  · exact absurd h (by simp [req, exbind_error, exbind_ok, GState.newBNode, Option.map_none', Option.map_some'])
  · simp only [req, exbind_ok, GState.newBNode, Option.map_none', Option.map_some', GState.addT_graph, GState.addT_ctr, GState.addT_sample, GState.addT_material, GState.addT_simulation_cell, GState.addT_crystal_structure, GState.addT_unit_cell, GState.graph_mk, GState.ctr_mk, GState.sample_mk, GState.material_mk, GState.simulation_cell_mk, GState.crystal_structure_mk, GState.unit_cell_mk, expure, Except.ok.injEq] at h
    subst h
    try simp only [GState.addT_graph, GState.graph_mk]
    exact NoNoneObjects_add (NoNoneObjects_add (NoNoneObjects_add (NoNoneObjects_add (NoNoneObjects_add (hg)))))

theorem add_simulation_cell_properties_inv {d : SysDict} {st : GState} {name : Option String}
    {st' : GState} (h : add_simulation_cell_properties d st name = .ok st')
    (hg : NoNoneObjects st.graph) : NoNoneObjects st'.graph := by
  rw [add_simulation_cell_properties] at h
  rcases hs : st.simulation_cell with _ | sc <;> rw [hs] at h
  · exact absurd h (by simp [req, exbind_error])
  simp only [req, exbind_ok] at h
  rcases h1 : add_cell_vector_block d.SimulationCellVectorA sc
      (add_cell_length_block d sc st (name.map (· ++ "Length"))) (name.map (· ++ "Vector01"))
    with e1 | st1 <;> rw [h1] at h
  · exact absurd h (by simp [exbind_error])
  simp only [exbind_ok] at h
  rcases h2 : add_cell_vector_block d.SimulationCellVectorB sc st1 (name.map (· ++ "Vector02"))
    with e2 | st2 <;> rw [h2] at h
  · exact absurd h (by simp [exbind_error])
  simp only [exbind_ok] at h
  rcases h3 : add_cell_vector_block d.SimulationCellVectorC sc st2 (name.map (· ++ "Vector03"))
    with e3 | st3 <;> rw [h3] at h
  · exact absurd h (by simp [exbind_error])
  simp only [exbind_ok, expure, Except.ok.injEq] at h
  subst h
  exact add_cell_angle_block_inv (add_cell_vector_block_inv h3 (add_cell_vector_block_inv h2
    (add_cell_vector_block_inv h1 (add_cell_length_block_inv hg))))

theorem add_crystal_structure_inv {d : SysDict} {st : GState} {name : Option String}
    {st' : GState} (h : add_crystal_structure d st name = .ok st')
    (hg : NoNoneObjects st.graph) : NoNoneObjects st'.graph := by
  rw [add_crystal_structure] at h
  cases name <;> rcases hm : st.material with _ | mat <;> rw [hm] at h
  · exact absurd h (by simp [req, exbind_error, exbind_ok, GState.newBNode, Option.map_none', Option.map_some'])
  · simp only [req, exbind_ok, GState.newBNode, Option.map_none', Option.map_some', GState.addT_graph, GState.addT_ctr, GState.addT_sample, GState.addT_material, GState.addT_simulation_cell, GState.addT_crystal_structure, GState.addT_unit_cell, GState.graph_mk, GState.ctr_mk, GState.sample_mk, GState.material_mk, GState.simulation_cell_mk, GState.crystal_structure_mk, GState.unit_cell_mk, expure, Except.ok.injEq] at h
    subst h
    try simp only [GState.addT_graph, GState.graph_mk]
    exact NoNoneObjects_add (NoNoneObjects_add (NoNoneObjects_add (hg)))
  · exact absurd h (by simp [req, exbind_error, exbind_ok, GState.newBNode, Option.map_none', Option.map_some'])
  · simp only [req, exbind_ok, GState.newBNode, Option.map_none', Option.map_some', GState.addT_graph, GState.addT_ctr, GState.addT_sample, GState.addT_material, GState.addT_simulation_cell, GState.addT_crystal_structure, GState.addT_unit_cell, GState.graph_mk, GState.ctr_mk, GState.sample_mk, GState.material_mk, GState.simulation_cell_mk, GState.crystal_structure_mk, GState.unit_cell_mk, expure, Except.ok.injEq] at h
    subst h
    try simp only [GState.addT_graph, GState.graph_mk]
    exact NoNoneObjects_add (NoNoneObjects_add (NoNoneObjects_add (hg)))

theorem add_space_group_inv {d : SysDict} {st : GState} {name : Option String}
    {st' : GState} (h : add_space_group d st name = .ok st')
    (hg : NoNoneObjects st.graph) : NoNoneObjects st'.graph := by
  rw [add_space_group] at h
  cases name <;> rcases hm : st.crystal_structure with _ | cs <;> rw [hm] at h
  · exact absurd h (by simp [req, exbind_error, exbind_ok, GState.newBNode, Option.map_none', Option.map_some'])
  · simp only [req, exbind_ok, GState.newBNode, Option.map_none', Option.map_some', GState.addT_graph, GState.addT_ctr, GState.addT_sample, GState.addT_material, GState.addT_simulation_cell, GState.addT_crystal_structure, GState.addT_unit_cell, GState.graph_mk, GState.ctr_mk, GState.sample_mk, GState.material_mk, GState.simulation_cell_mk, GState.crystal_structure_mk, GState.unit_cell_mk, expure, Except.ok.injEq] at h
    subst h
    try simp only [GState.addT_graph, GState.graph_mk]
    exact NoNoneObjects_add (NoNoneObjects_add (NoNoneObjects_add (NoNoneObjects_add (hg))))
  · exact absurd h (by simp [req, exbind_error, exbind_ok, GState.newBNode, Option.map_none', Option.map_some'])
  · simp only [req, exbind_ok, GState.newBNode, Option.map_none', Option.map_some', GState.addT_graph, GState.addT_ctr, GState.addT_sample, GState.addT_material, GState.addT_simulation_cell, GState.addT_crystal_structure, GState.addT_unit_cell, GState.graph_mk, GState.ctr_mk, GState.sample_mk, GState.material_mk, GState.simulation_cell_mk, GState.crystal_structure_mk, GState.unit_cell_mk, expure, Except.ok.injEq] at h
    subst h
    try simp only [GState.addT_graph, GState.graph_mk]
    exact NoNoneObjects_add (NoNoneObjects_add (NoNoneObjects_add (NoNoneObjects_add (hg))))

theorem add_unit_cell_inv {d : SysDict} {st : GState} {name : Option String}
    {st' : GState} (h : add_unit_cell d st name = .ok st')
    (hg : NoNoneObjects st.graph) : NoNoneObjects st'.graph := by
  rw [add_unit_cell] at h
  cases name <;> rcases hm : st.crystal_structure with _ | cs <;> rw [hm] at h
  · exact absurd h (by simp [req, exbind_error, exbind_ok, GState.newBNode, Option.map_none', Option.map_some'])
  · simp only [req, exbind_ok, GState.newBNode, Option.map_none', Option.map_some', GState.addT_graph, GState.addT_ctr, GState.addT_sample, GState.addT_material, GState.addT_simulation_cell, GState.addT_crystal_structure, GState.addT_unit_cell, GState.graph_mk, GState.ctr_mk, GState.sample_mk, GState.material_mk, GState.simulation_cell_mk, GState.crystal_structure_mk, GState.unit_cell_mk, expure, Except.ok.injEq] at h
    subst h
    try simp only [GState.addT_graph, GState.graph_mk]
    exact NoNoneObjects_add (NoNoneObjects_add (NoNoneObjects_add (NoNoneObjects_add (NoNoneObjects_add (hg)))))
  · exact absurd h (by simp [req, exbind_error, exbind_ok, GState.newBNode, Option.map_none', Option.map_some'])
  · simp only [req, exbind_ok, GState.newBNode, Option.map_none', Option.map_some', GState.addT_graph, GState.addT_ctr, GState.addT_sample, GState.addT_material, GState.addT_simulation_cell, GState.addT_crystal_structure, GState.addT_unit_cell, GState.graph_mk, GState.ctr_mk, GState.sample_mk, GState.material_mk, GState.simulation_cell_mk, GState.crystal_structure_mk, GState.unit_cell_mk, expure, Except.ok.injEq] at h
    subst h
    try simp only [GState.addT_graph, GState.graph_mk]
    exact NoNoneObjects_add (NoNoneObjects_add (NoNoneObjects_add (NoNoneObjects_add (NoNoneObjects_add (hg)))))

theorem add_lattice_properties_inv {d : SysDict} {st : GState} {name : Option String}
    {st' : GState} (h : add_lattice_properties d st name = .ok st')
    (hg : NoNoneObjects st.graph) : NoNoneObjects st'.graph := by
  rw [add_lattice_properties] at h
  cases name <;> rcases hm : st.unit_cell with _ | uc <;> rw [hm] at h
  · exact absurd h (by simp [req, exbind_error, exbind_ok, GState.newBNode, Option.map_none', Option.map_some'])
  · simp only [req, exbind_ok, GState.newBNode, Option.map_none', Option.map_some', GState.addT_graph, GState.addT_ctr, GState.addT_sample, GState.addT_material, GState.addT_simulation_cell, GState.addT_crystal_structure, GState.addT_unit_cell, GState.graph_mk, GState.ctr_mk, GState.sample_mk, GState.material_mk, GState.simulation_cell_mk, GState.crystal_structure_mk, GState.unit_cell_mk, expure, Except.ok.injEq] at h
    subst h
    try simp only [GState.addT_graph, GState.graph_mk]
    exact NoNoneObjects_add (NoNoneObjects_add (NoNoneObjects_add (NoNoneObjects_add (NoNoneObjects_add (NoNoneObjects_add (NoNoneObjects_add (NoNoneObjects_add (NoNoneObjects_add (NoNoneObjects_add (hg))))))))))
  · exact absurd h (by simp [req, exbind_error, exbind_ok, GState.newBNode, Option.map_none', Option.map_some'])
  · simp only [req, exbind_ok, GState.newBNode, Option.map_none', Option.map_some', GState.addT_graph, GState.addT_ctr, GState.addT_sample, GState.addT_material, GState.addT_simulation_cell, GState.addT_crystal_structure, GState.addT_unit_cell, GState.graph_mk, GState.ctr_mk, GState.sample_mk, GState.material_mk, GState.simulation_cell_mk, GState.crystal_structure_mk, GState.unit_cell_mk, expure, Except.ok.injEq] at h
    subst h
    try simp only [GState.addT_graph, GState.graph_mk]
    exact NoNoneObjects_add (NoNoneObjects_add (NoNoneObjects_add (NoNoneObjects_add (NoNoneObjects_add (NoNoneObjects_add (NoNoneObjects_add (NoNoneObjects_add (NoNoneObjects_add (NoNoneObjects_add (hg))))))))))

set_option maxHeartbeats 1600000 in
theorem add_atom_step_inv {d : SysDict} {smp : Node} {name : Option String}
    {poss : List (ℚ × ℚ × ℚ)} {st : GState} {x : Nat} {st' : GState}
    (h : add_atom_step d smp name poss st x = .ok st') (hg : NoNoneObjects st.graph) :
    NoNoneObjects st'.graph := by
  rw [add_atom_step] at h
  cases name
  · rcases hp : poss.get? x with _ | pos <;> rw [hp] at h
    · exact absurd h (by simp [req, exbind_error, exbind_ok, GState.newBNode, Option.map_none', Option.map_some'])
    · simp only [req, exbind_ok, GState.newBNode, Option.map_none', Option.map_some'] at h
      rcases he : d.Element with _ | els <;> rw [he] at h
      · exact absurd h (by simp [req, exbind_error, exbind_ok, GState.newBNode, Option.map_none', Option.map_some'])
      · simp only [req, exbind_ok] at h
        rcases he2 : els.get? x with _ | el <;> rw [he2] at h
        · exact absurd h (by simp [req, exbind_error, exbind_ok, GState.newBNode, Option.map_none', Option.map_some'])
        · simp only [req, exbind_ok] at h
          rcases hc : d.Coordination with _ | cos <;> rw [hc] at h
          · exact absurd h (by simp [req, exbind_error, exbind_ok, GState.newBNode, Option.map_none', Option.map_some'])
          · simp only [req, exbind_ok] at h
            rcases hc2 : cos.get? x with _ | co <;> rw [hc2] at h
            · exact absurd h (by simp [req, exbind_error, exbind_ok, GState.newBNode, Option.map_none', Option.map_some'])
            · simp only [req, exbind_ok, GState.newBNode, Option.map_none', Option.map_some', GState.addT_graph, GState.addT_ctr, GState.addT_sample, GState.addT_material, GState.addT_simulation_cell, GState.addT_crystal_structure, GState.addT_unit_cell, GState.graph_mk, GState.ctr_mk, GState.sample_mk, GState.material_mk, GState.simulation_cell_mk, GState.crystal_structure_mk, GState.unit_cell_mk, expure, Except.ok.injEq] at h
              subst h
              try simp only [GState.addT_graph, GState.graph_mk]
              exact NoNoneObjects_add (NoNoneObjects_add (NoNoneObjects_add (NoNoneObjects_add (NoNoneObjects_add (NoNoneObjects_add (NoNoneObjects_add (NoNoneObjects_add (NoNoneObjects_add (NoNoneObjects_add (NoNoneObjects_add (hg)))))))))))
  · rcases hp : poss.get? x with _ | pos <;> rw [hp] at h
    · exact absurd h (by simp [req, exbind_error, exbind_ok, GState.newBNode, Option.map_none', Option.map_some'])
    · simp only [req, exbind_ok, GState.newBNode, Option.map_none', Option.map_some'] at h
      rcases he : d.Element with _ | els <;> rw [he] at h
      · exact absurd h (by simp [req, exbind_error, exbind_ok, GState.newBNode, Option.map_none', Option.map_some'])
      · simp only [req, exbind_ok] at h
        rcases he2 : els.get? x with _ | el <;> rw [he2] at h
        · exact absurd h (by simp [req, exbind_error, exbind_ok, GState.newBNode, Option.map_none', Option.map_some'])
        · simp only [req, exbind_ok] at h
          rcases hc : d.Coordination with _ | cos <;> rw [hc] at h
          · exact absurd h (by simp [req, exbind_error, exbind_ok, GState.newBNode, Option.map_none', Option.map_some'])
          · simp only [req, exbind_ok] at h
            rcases hc2 : cos.get? x with _ | co <;> rw [hc2] at h
            · exact absurd h (by simp [req, exbind_error, exbind_ok, GState.newBNode, Option.map_none', Option.map_some'])
            · simp only [req, exbind_ok, GState.newBNode, Option.map_none', Option.map_some', GState.addT_graph, GState.addT_ctr, GState.addT_sample, GState.addT_material, GState.addT_simulation_cell, GState.addT_crystal_structure, GState.addT_unit_cell, GState.graph_mk, GState.ctr_mk, GState.sample_mk, GState.material_mk, GState.simulation_cell_mk, GState.crystal_structure_mk, GState.unit_cell_mk, expure, Except.ok.injEq] at h
              subst h
              try simp only [GState.addT_graph, GState.graph_mk]
              exact NoNoneObjects_add (NoNoneObjects_add (NoNoneObjects_add (NoNoneObjects_add (NoNoneObjects_add (NoNoneObjects_add (NoNoneObjects_add (NoNoneObjects_add (NoNoneObjects_add (NoNoneObjects_add (NoNoneObjects_add (hg)))))))))))

theorem add_atoms_inv {d : SysDict} {st : GState} {name : Option String} {st' : GState}
    (h : add_atoms d st name = .ok st') (hg : NoNoneObjects st.graph) :
    NoNoneObjects st'.graph := by
  rw [add_atoms] at h
  rcases hs : st.sample with _ | smp <;> rw [hs] at h
  · exact absurd h (by simp [req, exbind_error, exbind_ok, GState.newBNode, Option.map_none', Option.map_some'])
  rcases hp : d.Positions with _ | poss <;> rw [hp] at h
  · exact absurd h (by simp [req, exbind_error, exbind_ok, GState.newBNode, Option.map_none', Option.map_some'])
  simp only [req, exbind_ok] at h
  exact foldlM_except_inv (fun st => NoNoneObjects st.graph) _
    (fun b a b' hb => add_atom_step_inv hb) _ _ _ h hg

theorem create_graph_inv {d : SysDict} {names : Bool} {idx : String} {st st' : GState}
    (h : create_graph d names idx st = .ok st') (hg : NoNoneObjects st.graph) :
    NoNoneObjects st'.graph := by
  rw [create_graph] at h
  rcases h1 : add_material (add_sample st _) _ with e1 | st1 <;> rw [h1] at h
  · exact absurd h (by simp [exbind_error])
  simp only [exbind_ok] at h
  rcases h2 : add_chemical_composition d st1 _ with e2 | st2 <;> rw [h2] at h
  · exact absurd h (by simp [exbind_error])
  simp only [exbind_ok] at h
  rcases h3 : add_simulation_cell d st2 _ with e3 | st3 <;> rw [h3] at h
  · exact absurd h (by simp [exbind_error])
  simp only [exbind_ok] at h
  rcases h4 : add_simulation_cell_properties d st3 _ with e4 | st4 <;> rw [h4] at h
  · exact absurd h (by simp [exbind_error])
  simp only [exbind_ok] at h
  rcases h5 : add_crystal_structure d st4 _ with e5 | st5 <;> rw [h5] at h
  · exact absurd h (by simp [exbind_error])
  simp only [exbind_ok] at h
  rcases h6 : add_space_group d st5 _ with e6 | st6 <;> rw [h6] at h
  · exact absurd h (by simp [exbind_error])
  simp only [exbind_ok] at h
  rcases h7 : add_unit_cell d st6 _ with e7 | st7 <;> rw [h7] at h
  · exact absurd h (by simp [exbind_error])
  simp only [exbind_ok] at h
  rcases h8 : add_lattice_properties d st7 _ with e8 | st8 <;> rw [h8] at h
  · exact absurd h (by simp [exbind_error])
  simp only [exbind_ok] at h
  rcases h9 : add_atoms d st8 _ with e9 | st9 <;> rw [h9] at h
  · exact absurd h (by simp [exbind_error])
  simp only [exbind_ok] at h
  simp only [exbind_ok, expure, Except.ok.injEq] at h
  subst h
  exact add_atoms_inv h9 (add_lattice_properties_inv h8 (add_unit_cell_inv h7
    (add_space_group_inv h6 (add_crystal_structure_inv h5
    (add_simulation_cell_properties_inv h4 (add_simulation_cell_inv h3
    (add_chemical_composition_inv h2 (add_material_inv h1 (add_sample_inv hg)))))))))

theorem add_gb_inv {gb : GBDict} {st : GState} {name : Option String} {st' : GState}
    (h : add_gb gb st name = .ok st') (hg : NoNoneObjects st.graph) :
    NoNoneObjects st'.graph := by
  rw [add_gb] at h
  cases name <;> rcases hm : st.material with _ | mat <;> rw [hm] at h
  · exact absurd h (by simp [req, exbind_error, exbind_ok, GState.newBNode, Option.map_none', Option.map_some'])
  · simp only [req, exbind_ok, GState.newBNode, Option.map_none', Option.map_some', GState.addT_graph, GState.addT_ctr, GState.addT_sample, GState.addT_material, GState.addT_simulation_cell, GState.addT_crystal_structure, GState.addT_unit_cell, GState.graph_mk, GState.ctr_mk, GState.sample_mk, GState.material_mk, GState.simulation_cell_mk, GState.crystal_structure_mk, GState.unit_cell_mk, expure, Except.ok.injEq] at h
    subst h
    try simp only [GState.addT_graph, GState.graph_mk]
    refine NoNoneObjects_add (NoNoneObjects_add (NoNoneObjects_add (NoNoneObjects_add (NoNoneObjects_add (NoNoneObjects_add (NoNoneObjects_add (NoNoneObjects_add (NoNoneObjects_add (NoNoneObjects_add (NoNoneObjects_add (NoNoneObjects_add (?_))))))))))))
    rcases gb.GBType with _ | tag
    · try simp only [GState.addT_graph, GState.graph_mk]
      exact NoNoneObjects_add (NoNoneObjects_add (hg))
    · by_cases h1 : tag = "Twist"
      · simp only [if_pos h1, GState.addT_graph, GState.graph_mk]
        exact NoNoneObjects_add (NoNoneObjects_add (hg))
      by_cases h2 : tag = "Tilt"
      · simp only [if_neg h1, if_pos h2, GState.addT_graph, GState.graph_mk]
        exact NoNoneObjects_add (NoNoneObjects_add (hg))
      by_cases h3 : tag = "Symmetric Tilt"
      · simp only [if_neg h1, if_neg h2, if_pos h3, GState.addT_graph, GState.graph_mk]
        exact NoNoneObjects_add (NoNoneObjects_add (hg))
      by_cases h4 : tag = "Mixed"
      · simp only [if_neg h1, if_neg h2, if_neg h3, if_pos h4, GState.addT_graph, GState.graph_mk]
        exact NoNoneObjects_add (NoNoneObjects_add (hg))
      simp only [if_neg h1, if_neg h2, if_neg h3, if_neg h4, GState.addT_graph, GState.graph_mk]
      exact NoNoneObjects_add (hg)
  · exact absurd h (by simp [req, exbind_error, exbind_ok, GState.newBNode, Option.map_none', Option.map_some'])
  · simp only [req, exbind_ok, GState.newBNode, Option.map_none', Option.map_some', GState.addT_graph, GState.addT_ctr, GState.addT_sample, GState.addT_material, GState.addT_simulation_cell, GState.addT_crystal_structure, GState.addT_unit_cell, GState.graph_mk, GState.ctr_mk, GState.sample_mk, GState.material_mk, GState.simulation_cell_mk, GState.crystal_structure_mk, GState.unit_cell_mk, expure, Except.ok.injEq] at h
    subst h
    try simp only [GState.addT_graph, GState.graph_mk]
    refine NoNoneObjects_add (NoNoneObjects_add (NoNoneObjects_add (NoNoneObjects_add (NoNoneObjects_add (NoNoneObjects_add (NoNoneObjects_add (NoNoneObjects_add (NoNoneObjects_add (NoNoneObjects_add (NoNoneObjects_add (NoNoneObjects_add (?_))))))))))))
    rcases gb.GBType with _ | tag
    · try simp only [GState.addT_graph, GState.graph_mk]
      exact NoNoneObjects_add (NoNoneObjects_add (hg))
    · by_cases h1 : tag = "Twist"
      · simp only [if_pos h1, GState.addT_graph, GState.graph_mk]
        exact NoNoneObjects_add (NoNoneObjects_add (hg))
      by_cases h2 : tag = "Tilt"
      · simp only [if_neg h1, if_pos h2, GState.addT_graph, GState.graph_mk]
        exact NoNoneObjects_add (NoNoneObjects_add (hg))
      by_cases h3 : tag = "Symmetric Tilt"
      · simp only [if_neg h1, if_neg h2, if_pos h3, GState.addT_graph, GState.graph_mk]
        exact NoNoneObjects_add (NoNoneObjects_add (hg))
      by_cases h4 : tag = "Mixed"
      · simp only [if_neg h1, if_neg h2, if_neg h3, if_pos h4, GState.addT_graph, GState.graph_mk]
        exact NoNoneObjects_add (NoNoneObjects_add (hg))
      simp only [if_neg h1, if_neg h2, if_neg h3, if_neg h4, GState.addT_graph, GState.graph_mk]
      exact NoNoneObjects_add (hg)

theorem add_vacancy_inv {c : Value} {num : Option Value} {st : GState}
    {name : Option String} {st' : GState}
    (h : add_vacancy c num st name = .ok st') (hg : NoNoneObjects st.graph) :
    NoNoneObjects st'.graph := by
  rw [add_vacancy] at h
  cases name <;> cases num <;> rcases hm : st.material with _ | mat <;> rw [hm] at h
  · exact absurd h (by simp [req, exbind_error, exbind_ok, GState.newBNode, Option.map_none', Option.map_some'])
  · simp only [req, exbind_ok, GState.newBNode, Option.map_none', Option.map_some', GState.addT_graph, GState.addT_ctr, GState.addT_sample, GState.addT_material, GState.addT_simulation_cell, GState.addT_crystal_structure, GState.addT_unit_cell, GState.graph_mk, GState.ctr_mk, GState.sample_mk, GState.material_mk, GState.simulation_cell_mk, GState.crystal_structure_mk, GState.unit_cell_mk, expure, Except.ok.injEq] at h
    subst h
    try simp only [GState.addT_graph, GState.graph_mk]
    exact NoNoneObjects_add (NoNoneObjects_add (NoNoneObjects_add (hg)))
  · exact absurd h (by simp [req, exbind_error, exbind_ok, GState.newBNode, Option.map_none', Option.map_some'])
  · simp only [req, exbind_ok, GState.newBNode, Option.map_none', Option.map_some', GState.addT_graph, GState.addT_ctr, GState.addT_sample, GState.addT_material, GState.addT_simulation_cell, GState.addT_crystal_structure, GState.addT_unit_cell, GState.graph_mk, GState.ctr_mk, GState.sample_mk, GState.material_mk, GState.simulation_cell_mk, GState.crystal_structure_mk, GState.unit_cell_mk, expure, Except.ok.injEq] at h
    subst h
    try simp only [GState.addT_graph, GState.graph_mk]
    exact NoNoneObjects_add (NoNoneObjects_add (NoNoneObjects_add (NoNoneObjects_add (hg))))
  · exact absurd h (by simp [req, exbind_error, exbind_ok, GState.newBNode, Option.map_none', Option.map_some'])
  · simp only [req, exbind_ok, GState.newBNode, Option.map_none', Option.map_some', GState.addT_graph, GState.addT_ctr, GState.addT_sample, GState.addT_material, GState.addT_simulation_cell, GState.addT_crystal_structure, GState.addT_unit_cell, GState.graph_mk, GState.ctr_mk, GState.sample_mk, GState.material_mk, GState.simulation_cell_mk, GState.crystal_structure_mk, GState.unit_cell_mk, expure, Except.ok.injEq] at h
    subst h
    try simp only [GState.addT_graph, GState.graph_mk]
    exact NoNoneObjects_add (NoNoneObjects_add (NoNoneObjects_add (hg)))
  · exact absurd h (by simp [req, exbind_error, exbind_ok, GState.newBNode, Option.map_none', Option.map_some'])
  · simp only [req, exbind_ok, GState.newBNode, Option.map_none', Option.map_some', GState.addT_graph, GState.addT_ctr, GState.addT_sample, GState.addT_material, GState.addT_simulation_cell, GState.addT_crystal_structure, GState.addT_unit_cell, GState.graph_mk, GState.ctr_mk, GState.sample_mk, GState.material_mk, GState.simulation_cell_mk, GState.crystal_structure_mk, GState.unit_cell_mk, expure, Except.ok.injEq] at h
    subst h
    try simp only [GState.addT_graph, GState.graph_mk]
    exact NoNoneObjects_add (NoNoneObjects_add (NoNoneObjects_add (NoNoneObjects_add (hg))))

/-- C9: the insertion guard filters by the string form of the object — every
triple whose object converts to the exact string `"None"` (including a
present string literal such as a species symbol `"None"`) is silently
dropped by `RDFGraph.add` and never reaches the store. -/
theorem C9_guard_drops_none_string (g : List Triple) (t : Triple)
    (h : t.o.strIsNone = true) : RDFGraph.add g t = g := by
  rw [RDFGraph.add, if_pos h]

/-- Witness for C9 at a concrete species-symbol triple whose present string
value is `"None"`. -/
theorem C9_guard_drops_none_string_witness :
    RDFGraph.add [] ⟨.bnode (.inl "el0"), CMSO.hasSymbol, .lit (.vStr "None") .dString⟩ = [] :=
  C9_guard_drops_none_string [] ⟨.bnode (.inl "el0"), CMSO.hasSymbol, .lit (.vStr "None") .dString⟩
    (by decide)

/-- C2, counterexample: a triple whose object is a literal carrying the
present (non-null) string value `"None"` is dropped by `RDFGraph.add`, so it
is not the case that all triples with a present value are added unchanged. -/
theorem C2_counterexample :
    RDFGraph.add [] ⟨.bnode (.inl "atom1"), CMSO.hasSymbol, .lit (.vStr "None") .dString⟩ = []
      ∧ Value.vStr "None" ≠ Value.vNone :=
  ⟨by decide, by decide⟩

/-- C2, amended: a triple whose object's Python string form is `"None"` — in
particular every literal carrying a null value — is never inserted by
`RDFGraph.add`, and this guard is the single insertion path of the encoder
(`create_graph`) and of the defect annotators (`add_gb`, `add_vacancy`), so
a store in which no object stringifies to `"None"` keeps that property
through every one of these operations; a triple whose object's string form
is not `"None"` (rather than: any triple with a present value) is added
unchanged. -/
theorem C2_null_literal_guard :
    (∀ (g : List Triple) (t : Triple), t.o.strIsNone = true → RDFGraph.add g t = g) ∧
    (∀ (g : List Triple) (t : Triple), t.o.strIsNone = false →
      RDFGraph.add g t = Graph.addTriple g t) ∧
    (∀ (d : SysDict) (names : Bool) (idx : String) (st st' : GState),
      create_graph d names idx st = .ok st' →
      NoNoneObjects st.graph → NoNoneObjects st'.graph) ∧
    (∀ (gb : GBDict) (st : GState) (name : Option String) (st' : GState),
      add_gb gb st name = .ok st' → NoNoneObjects st.graph → NoNoneObjects st'.graph) ∧
    (∀ (c : Value) (num : Option Value) (st : GState) (name : Option String) (st' : GState),
      add_vacancy c num st name = .ok st' → NoNoneObjects st.graph → NoNoneObjects st'.graph) := by
  refine ⟨?_, ?_, ?_, ?_, ?_⟩
  · intro g t h; rw [RDFGraph.add, if_pos h]
  · intro g t h; rw [RDFGraph.add, if_neg (by simp [h])]
  · intro d names idx st st' h hg; exact create_graph_inv h hg
  · intro gb st name st' h hg; exact add_gb_inv h hg
  · intro c num st name st' h hg; exact add_vacancy_inv h hg

/-- Witness for C2's amended statement: the guard drops a null literal on a
concrete store, keeps a concrete present-valued triple unchanged, and the
encoder run on the concrete record `dmin` from the empty store yields a
store with no `"None"`-stringifying object. -/
theorem C2_null_literal_guard_witness :
    RDFGraph.add [] ⟨.bnode (.inl "x1"), CMSO.hasSpaceGroupSymbol, .lit .vNone .dString⟩ = [] ∧
    RDFGraph.add [] ⟨.bnode (.inl "x1"), CMSO.hasAltName, .lit (.vStr "bcc") .dString⟩ =
      Graph.addTriple [] ⟨.bnode (.inl "x1"), CMSO.hasAltName, .lit (.vStr "bcc") .dString⟩ ∧
    NoNoneObjects ((create_graph dmin false "01" {}).toOption.getD {}).graph :=
  ⟨C2_null_literal_guard.1 [] _ (by decide),
   C2_null_literal_guard.2.1 [] _ (by decide),
   C2_null_literal_guard.2.2.1 dmin false "01" {} _ (by rfl)
     (fun t ht => absurd ht (List.not_mem_nil t))⟩

/-- Monotonicity of the guarded insert. -/
theorem mem_add_mono {g : List Triple} {t u : Triple} (h : t ∈ g) :
    t ∈ RDFGraph.add g u :=
  mem_RDFadd.2 (Or.inl h)

/-- A triple whose object does not stringify to `"None"` is present after
its own guarded insert. -/
theorem mem_add_self {g : List Triple} {t : Triple} (h : t.o.strIsNone = false) :
    t ∈ RDFGraph.add g t :=
  mem_RDFadd.2 (Or.inr ⟨h, rfl⟩)

/-- Preservation of "no `RDF.type` triple with this subject" through an
insert whose triple differs in subject or predicate. -/
theorem notmem_add (pd : Node) {g : List Triple} {s p o : Node}
    (ht : s ≠ pd ∨ p ≠ RDFtype)
    (h : ∀ x : Node, (⟨pd, RDFtype, x⟩ : Triple) ∉ g) :
    ∀ x : Node, (⟨pd, RDFtype, x⟩ : Triple) ∉ RDFGraph.add g ⟨s, p, o⟩ := by
  intro x hmem
  rcases mem_RDFadd.1 hmem with hm | ⟨_, heq⟩
  · exact h x hm
  · rcases ht with hts | htp
    · exact hts (congrArg Triple.s heq).symm
    · exact htp (congrArg Triple.p heq).symm

/-- C4: on the cyclic store A→B→A the source's unguarded recursion in
`iterate_graph` never terminates — for every recursion-depth budget the
extraction runs out of depth (in Python: unbounded recursion /
`RecursionError`), contradicting the claimed termination with the reachable
triples. -/
theorem C4_cycle_extraction_diverges (fuel : Nat) (sg : List Triple) :
    iterate_graph cycStore fuel cycA sg = none ∧
    iterate_graph cycStore fuel cycB sg = none := by
  induction fuel generalizing sg with
  | zero => exact ⟨rfl, rfl⟩
  | succ n ih =>
    constructor
    · rw [iterate_graph]
      rw [show Graph.triples cycStore (some cycA) none none
            = [⟨cycA, .uri "p", cycB⟩] from by decide]
      rw [List.foldlM_cons]
      rw [show (⟨cycA, Node.uri "p", cycB⟩ : Triple).o = cycB from rfl]
      rw [(ih (Graph.addTriple sg ⟨cycA, .uri "p", cycB⟩)).2]
      rfl
    · rw [iterate_graph]
      rw [show Graph.triples cycStore (some cycB) none none
            = [⟨cycB, .uri "q", cycA⟩] from by decide]
      rw [List.foldlM_cons]
      rw [show (⟨cycB, Node.uri "q", cycA⟩ : Triple).o = cycA from rfl]
      rw [(ih (Graph.addTriple sg ⟨cycB, .uri "q", cycA⟩)).1]
      rfl

/-- C8: extraction from an entry node that occurs as the subject of no
triple terminates at once with an empty new store and raises no error, both
through `iterate_graph` directly and through `get_sample`. -/
theorem C8_absent_entry_empty (g : List Triple) (entry : Node) (fuel : Nat)
    (h : ∀ t ∈ g, t.s ≠ entry) :
    iterate_graph g (fuel + 1) entry [] = some [] ∧
    get_sample g entry false (fuel + 1) = some (.ok ([], none)) := by
  have hf : Graph.triples g (some entry) none none = [] := by
    rw [Graph.triples, List.filter_eq_nil]
    intro t ht
    simp only [Bool.and_true, beq_iff_eq]
    exact fun hc => h t ht hc
  have h1 : iterate_graph g (fuel + 1) entry [] = some [] := by
    rw [iterate_graph, hf]; rfl
  refine ⟨h1, ?_⟩
  rw [get_sample, h1]
  rfl

/-- Witness for C8 on a concrete two-triple store not mentioning the entry
node as a subject. -/
theorem C8_absent_entry_empty_witness :
    iterate_graph [(⟨cycB, .uri "p", cycB⟩ : Triple)] 1 cycA [] = some [] ∧
    get_sample [(⟨cycB, .uri "p", cycB⟩ : Triple)] cycA false 1 = some (.ok ([], none)) :=
  C8_absent_entry_empty [⟨cycB, .uri "p", cycB⟩] cycA 0 (by decide)

/-- C10: when the sample has no `hasNumberOfAtoms` triple in the store,
`get_sample` with the atom-count option calls `.toPython()` on a `None`
lookup result and raises `AttributeError` instead of returning the subgraph
with a missing count. -/
theorem C10_missing_count_raises (g : List Triple) (sample : Node) (fuel : Nat)
    (r : Except String (List Triple × Option Value))
    (h : ∀ o : Node, (⟨sample, CMSO.hasNumberOfAtoms, o⟩ : Triple) ∉ g)
    (hr : get_sample g sample true fuel = some r) :
    r = .error attrErr := by
  rw [get_sample] at hr
  cases hit : iterate_graph g fuel sample [] with
  | none => rw [hit] at hr; exact absurd hr (by simp)
  | some sg =>
    rw [hit] at hr
    have hsub := iterate_graph_subset g fuel sample [] sg hit
    have htr : Graph.triples sg (some sample) (some CMSO.hasNumberOfAtoms) none = [] := by
      rw [Graph.triples, List.filter_eq_nil]
      intro t ht
      simp only [Bool.and_true, beq_iff_eq, Bool.and_eq_true, not_and]
      intro hts htp
      rcases hsub t ht with h0 | h0
      · exact absurd h0 (List.not_mem_nil t)
      · refine absurd ?_ (h t.o)
        rw [← hts, ← htp]
        exact h0
    simp only [Graph.value] at hr
    rw [htr] at hr
    simp only [List.head?_nil, Option.map_none', toPythonE, if_true] at hr
    exact (Option.some.inj hr).symm

/-- Witness for C10 on a concrete one-triple store lacking the count
triple. -/
theorem C10_missing_count_raises_witness :
    (Except.error attrErr : Except String (List Triple × Option Value)) = .error attrErr :=
  C10_missing_count_raises [⟨cycA, CMSO.hasMaterial, cycB⟩] cycA 2 (.error attrErr)
    (by intro o hmem
        simp [List.mem_singleton, Triple.mk.injEq, CMSO.hasNumberOfAtoms, CMSO.hasMaterial,
          cmsoUri] at hmem)
    (by rfl)

/-- C5: a grain-boundary annotation whose GBType tag lies outside the fixed
enumeration (None, "Twist", "Tilt", "Symmetric Tilt", "Mixed") inserts no
RDF.type triple for the defect node, while the sigma value, the GB-plane
Miller indices, the three rotation-axis components and the misorientation
angle are still inserted. -/
theorem C5_unrecognized_gb_tag (st : GState) (gb : GBDict) (mat : Node) (tag : String)
    (hmat : st.material = some mat) (htag : gb.GBType = some tag)
    (h1 : tag ≠ "Twist") (h2 : tag ≠ "Tilt") (h3 : tag ≠ "Symmetric Tilt")
    (h4 : tag ≠ "Mixed")
    (hsg : gb.sigma.strIsNone = false) (hpl : gb.GBPlane.strIsNone = false)
    (hx : gb.RotationAxis.1.strIsNone = false) (hy : gb.RotationAxis.2.1.strIsNone = false)
    (hz : gb.RotationAxis.2.2.strIsNone = false)
    (hma : gb.MisorientationAngle.strIsNone = false)
    (hfresh : ∀ o : Node, (⟨.bnode (.inr st.ctr), RDFtype, o⟩ : Triple) ∉ st.graph) :
    ∃ st', add_gb gb st none = .ok st' ∧
      (∀ o : Node, (⟨.bnode (.inr st.ctr), RDFtype, o⟩ : Triple) ∉ st'.graph) ∧
      (⟨.bnode (.inr st.ctr), PLDO.hasSigmaValue, .lit gb.sigma .dInteger⟩ : Triple)
        ∈ st'.graph ∧
      (⟨.bnode (.inr (st.ctr + 1)), PLDO.hasMillerIndices, .lit gb.GBPlane .dString⟩ : Triple)
        ∈ st'.graph ∧
      (⟨.bnode (.inr (st.ctr + 2)), PLDO.hasComponentX, .lit gb.RotationAxis.1 .dFloat⟩ : Triple)
        ∈ st'.graph ∧
      (⟨.bnode (.inr (st.ctr + 2)), PLDO.hasComponentY, .lit gb.RotationAxis.2.1 .dFloat⟩ : Triple)
        ∈ st'.graph ∧
      (⟨.bnode (.inr (st.ctr + 2)), PLDO.hasComponentZ, .lit gb.RotationAxis.2.2 .dFloat⟩ : Triple)
        ∈ st'.graph ∧
      (⟨.bnode (.inr (st.ctr + 3)), PLDO.hasAngle, .lit gb.MisorientationAngle .dFloat⟩ : Triple)
        ∈ st'.graph := by
  rcases hres : add_gb gb st none with e | st'
  · refine absurd hres ?_
    rw [add_gb, hmat]
    simp [req, exbind_ok, GState.newBNode, Option.map_none', Option.map_some', GState.addT_graph, GState.addT_ctr, GState.addT_sample, GState.addT_material, GState.addT_simulation_cell, GState.addT_crystal_structure, GState.addT_unit_cell, GState.graph_mk, GState.ctr_mk, GState.sample_mk, GState.material_mk, GState.simulation_cell_mk, GState.crystal_structure_mk, GState.unit_cell_mk, expure, Except.ok.injEq, htag, if_neg h1, if_neg h2, if_neg h3, if_neg h4]
  · rw [add_gb, hmat] at hres
    simp only [req, exbind_ok, GState.newBNode, Option.map_none', Option.map_some', GState.addT_graph, GState.addT_ctr, GState.addT_sample, GState.addT_material, GState.addT_simulation_cell, GState.addT_crystal_structure, GState.addT_unit_cell, GState.graph_mk, GState.ctr_mk, GState.sample_mk, GState.material_mk, GState.simulation_cell_mk, GState.crystal_structure_mk, GState.unit_cell_mk, expure, Except.ok.injEq, htag, if_neg h1, if_neg h2, if_neg h3, if_neg h4] at hres
    subst hres
    refine ⟨_, rfl, ?_, ?_, ?_, ?_, ?_, ?_, ?_⟩ <;>
      simp only [GState.addT_graph, GState.graph_mk]
    · refine notmem_add _ ?_ (notmem_add _ ?_ (notmem_add _ ?_ (notmem_add _ ?_
        (notmem_add _ ?_ (notmem_add _ ?_ (notmem_add _ ?_ (notmem_add _ ?_
        (notmem_add _ ?_ (notmem_add _ ?_ (notmem_add _ ?_ (notmem_add _ ?_
        (notmem_add _ ?_ hfresh))))))))))))
      all_goals first
        | exact Or.inr (by decide)
        | exact Or.inl (fun hc => by
            simp only [Node.bnode.injEq, Sum.inr.injEq] at hc
            first
              | exact hc
              | omega)
    · exact mem_add_mono (mem_add_mono (mem_add_mono (mem_add_mono (mem_add_mono (mem_add_mono (mem_add_mono (mem_add_mono (mem_add_mono (mem_add_mono (mem_add_mono (mem_add_self hsg)))))))))))
    · exact mem_add_mono (mem_add_mono (mem_add_mono (mem_add_mono (mem_add_mono (mem_add_mono (mem_add_mono (mem_add_mono (mem_add_self hpl))))))))
    · exact mem_add_mono (mem_add_mono (mem_add_mono (mem_add_mono (mem_add_mono (mem_add_self hx)))))
    · exact mem_add_mono (mem_add_mono (mem_add_mono (mem_add_mono (mem_add_self hy))))
    · exact mem_add_mono (mem_add_mono (mem_add_mono (mem_add_self hz)))
    · exact mem_add_self hma

/-- Witness for C5 with the unrecognized tag "Twisted" on a one-atom-style
state whose material is set. -/
theorem C5_unrecognized_gb_tag_witness :
    ∃ st', add_gb ⟨some "Twisted", .vInt 5, .vStr "(1,1,1)",
        (.vRat 0, .vRat 0, .vRat 1), .vRat 30⟩
      ⟨[], 0, none, some (.bnode (.inl "m")), none, none, none⟩ none = .ok st' ∧
      (∀ o : Node, (⟨.bnode (.inr 0), RDFtype, o⟩ : Triple) ∉ st'.graph) ∧
      (⟨.bnode (.inr 0), PLDO.hasSigmaValue, .lit (.vInt 5) .dInteger⟩ : Triple) ∈ st'.graph ∧
      (⟨.bnode (.inr 1), PLDO.hasMillerIndices, .lit (.vStr "(1,1,1)") .dString⟩ : Triple)
        ∈ st'.graph ∧
      (⟨.bnode (.inr 2), PLDO.hasComponentX, .lit (.vRat 0) .dFloat⟩ : Triple) ∈ st'.graph ∧
      (⟨.bnode (.inr 2), PLDO.hasComponentY, .lit (.vRat 0) .dFloat⟩ : Triple) ∈ st'.graph ∧
      (⟨.bnode (.inr 2), PLDO.hasComponentZ, .lit (.vRat 1) .dFloat⟩ : Triple) ∈ st'.graph ∧
      (⟨.bnode (.inr 3), PLDO.hasAngle, .lit (.vRat 30) .dFloat⟩ : Triple) ∈ st'.graph :=
  C5_unrecognized_gb_tag ⟨[], 0, none, some (.bnode (.inl "m")), none, none, none⟩
    ⟨some "Twisted", .vInt 5, .vStr "(1,1,1)", (.vRat 0, .vRat 0, .vRat 1), .vRat 30⟩
    (.bnode (.inl "m")) "Twisted" rfl rfl (by decide) (by decide) (by decide) (by decide)
    (by decide) (by decide) (by decide) (by decide) (by decide) (by decide)
    (fun o hmem => absurd hmem (List.not_mem_nil _))

/-- C6, counterexample: two stores missing different mandatory pieces — the
atom's `Element` sub-node in the first, the `Element`'s symbol literal in
the second — make the decoder raise the identical generic `AttributeError`,
so the error does not identify which node or edge was missing. -/
theorem C6_counterexample :
    get_system_from_sample c6g1 c6sample = .error attrErr ∧
    get_system_from_sample c6g2 c6sample = .error attrErr ∧
    c6g1 ≠ c6g2 :=
  ⟨rfl, rfl, by decide⟩

/-- C6, amended: decoding a sample one of whose atoms lacks its `Element`
sub-node, or whose `Element` lacks the `hasSymbol` literal, always raises an
error — it neither substitutes a default species nor returns a partial
record — but the error is the generic `AttributeError` rather than an
identification of the missing node or edge. -/
theorem C6_missing_element_errors (g : List Triple) (sample a : Node)
    (hatom : (⟨sample, CMSO.hasAtom, a⟩ : Triple) ∈ g)
    (helem : Graph.value g (some a) (some CMSO.hasElement) = none ∨
      ∃ e, Graph.value g (some a) (some CMSO.hasElement) = some e ∧
           Graph.value g (some e) (some CMSO.hasSymbol) = none) :
    ∃ msg, get_system_from_sample g sample = .error msg := by
  have hbad : ∀ ps, ∃ m,
      decode_atom_step g ps ⟨sample, CMSO.hasAtom, a⟩ = .error m := by
    intro ps
    rw [decode_atom_step]
    dsimp only
    rcases hx : toPythonE (Graph.value g
        (Graph.value g (some a) (some CMSO.hasPositionVector)) (some CMSO.hasComponent_x))
      with ex | vx
    · exact ⟨ex, rfl⟩
    rcases hyy : toPythonE (Graph.value g
        (Graph.value g (some a) (some CMSO.hasPositionVector)) (some CMSO.hasComponent_y))
      with ey | vy
    · exact ⟨ey, rfl⟩
    rcases hzz : toPythonE (Graph.value g
        (Graph.value g (some a) (some CMSO.hasPositionVector)) (some CMSO.hasComponent_z))
      with ez | vz
    · exact ⟨ez, rfl⟩
    have hsym : toPythonE (Graph.value g
        (Graph.value g (some a) (some CMSO.hasElement)) (some CMSO.hasSymbol)) = .error attrErr := by
      rcases helem with h0 | ⟨e, he, hs⟩
      · rw [h0]; rfl
      · rw [he, hs]; rfl
    exact ⟨attrErr, by rw [hsym]; rfl⟩
  have hmem : (⟨sample, CMSO.hasAtom, a⟩ : Triple)
      ∈ Graph.triples g (some sample) (some CMSO.hasAtom) none := by
    rw [Graph.triples, List.mem_filter]
    exact ⟨hatom, by simp⟩
  obtain ⟨m, hm⟩ := foldlM_except_err (decode_atom_step g) _ hbad _ hmem ([], [])
  simp only [get_system_from_sample]
  rcases hcv : decode_cell g (Graph.value g (some sample) (some CMSO.hasSimulationCell))
    with e | cv
  · exact ⟨e, rfl⟩
  · refine ⟨m, ?_⟩
    rw [show decode_atoms g sample = Except.error m from hm]
    rfl

/-- Witness for C6's amended statement at the concrete store `c6g1`. -/
theorem C6_missing_element_errors_witness :
    ∃ msg, get_system_from_sample c6g1 c6sample = .error msg :=
  C6_missing_element_errors c6g1 c6sample c6atom (by decide) (Or.inl (by rfl))

set_option maxRecDepth 100000 in
set_option maxHeartbeats 4000000 in
/-- C7: encoding the concrete record (cubic cell of side 3, one Al atom at
(0.5, 0.5, 0.5), coordination 12) in named mode with index "01" succeeds and
produces a store containing the node labelled `01_Sample` with a
`hasSimulationCell` edge to the node labelled `01_SimulationCell`, which
carries the float volume literal 27.0; decoding that sample yields exactly
one atom at position (0.5, 0.5, 0.5) with species "Al". -/
theorem C7_named_mode_scenario :
    (create_graph d7 true "01" {}).toOption.isSome = true ∧
    (⟨.bnode (.inl "01_Sample"), CMSO.hasSimulationCell,
        .bnode (.inl "01_SimulationCell")⟩ : Triple) ∈ st7.graph ∧
    (⟨.bnode (.inl "01_SimulationCell"), CMSO.hasVolume,
        .lit (.vRat 27) .dFloat⟩ : Triple) ∈ st7.graph ∧
    get_system_from_sample st7.graph (.bnode (.inl "01_Sample")) =
      .ok ⟨[[.vRat 3, .vRat 0, .vRat 0], [.vRat 0, .vRat 3, .vRat 0],
            [.vRat 0, .vRat 0, .vRat 3]],
           [[.vRat (mkRat 1 2), .vRat (mkRat 1 2), .vRat (mkRat 1 2)]], [.vStr "Al"]⟩ :=
  ⟨rfl, by decide, by decide, rfl⟩

/-! Equational characterizations of the encoder in anonymous mode.  Each
lemma computes one `add_*` call into an explicit successor state; they are
composed below into a closed form for `create_graph` from a fresh store. -/

/-- The chemical-composition fold acts on the graph component only. -/
theorem chem_foldl_graph (cc : Node) :
    ∀ (l : List String) (st : GState),
      l.foldl (fun st s => st.addT ⟨cc, CMSO.hasElementRatio', .lit (.vStr s) .dString⟩) st
        = ⟨l.foldl
            (fun g s => RDFGraph.add g ⟨cc, CMSO.hasElementRatio', .lit (.vStr s) .dString⟩)
            st.graph, st.ctr, st.sample, st.material, st.simulation_cell, st.crystal_structure, st.unit_cell⟩
  | [], _ => rfl
  | s :: l, st => by
    rw [List.foldl_cons, List.foldl_cons, chem_foldl_graph cc l]
    rfl

theorem add_sample_eq (st : GState) :
    add_sample st none
      = ⟨RDFGraph.add (st.graph) ⟨bn st.ctr, RDFtype, CMSO.AtomicScaleSample⟩,
        st.ctr + 1, some (bn st.ctr), st.material, st.simulation_cell, st.crystal_structure,
        st.unit_cell⟩ := rfl

theorem add_material_eq (st : GState) (smp : Node) (hs : st.sample = some smp) :
    add_material st none
      = .ok ⟨RDFGraph.add (RDFGraph.add (st.graph) ⟨smp, CMSO.hasMaterial, bn st.ctr⟩)
        ⟨bn st.ctr, RDFtype, CMSO.CrystallineMaterial⟩,
        st.ctr + 1, st.sample, some (bn st.ctr), st.simulation_cell, st.crystal_structure,
        st.unit_cell⟩ := by
  conv_lhs => rw [add_material, hs]
  rfl

theorem add_chemical_composition_eq (d : SysDict) (st : GState) (els : List String)
    (rats : List ℚ) (mat : Node) (hels : d.ChemicalCompositionElement = some els)
    (hrats : SysDict.ChemicalCompositionRatio' d = some rats) (hm : st.material = some mat) :
    add_chemical_composition d st none
      = .ok ⟨(chemStrings els rats).foldl
            (fun g s => RDFGraph.add g ⟨bn st.ctr, CMSO.hasElementRatio', .lit (.vStr s) .dString⟩)
            (RDFGraph.add (RDFGraph.add (st.graph) ⟨mat, CMSO.hasComposition, bn st.ctr⟩)
              ⟨bn st.ctr, RDFtype, CMSO.ChemicalComposition⟩),
          st.ctr + 1, st.sample, some mat, st.simulation_cell, st.crystal_structure, st.unit_cell⟩ := by
  conv_lhs =>
    simp only [add_chemical_composition, hels, hrats, hm, req, exbind_ok, GState.newBNode]
  rw [chem_foldl_graph]
  rfl

theorem add_simulation_cell_eq (d : SysDict) (st : GState) (smp : Node) (v : ℚ)
    (hs : st.sample = some smp) (hv : d.CellVolume = some v) :
    add_simulation_cell d st none
      = .ok ⟨RDFGraph.add (RDFGraph.add (RDFGraph.add (RDFGraph.add (st.graph)
        ⟨smp, CMSO.hasSimulationCell, bn st.ctr⟩) ⟨bn st.ctr, RDFtype, CMSO.SimulationCell⟩)
        ⟨bn st.ctr, CMSO.hasVolume, .lit (.vRat (npRound2 v)) .dFloat⟩)
        ⟨smp, CMSO.hasNumberOfAtoms, .lit (Value.ofOptInt d.NumberOfAtoms) .dInteger⟩,
        st.ctr + 1, st.sample, st.material, some (bn st.ctr), st.crystal_structure,
        st.unit_cell⟩ := by
  conv_lhs => rw [add_simulation_cell, hs, hv]
  rfl

theorem add_cell_length_block_eq (d : SysDict) (sc : Node) (st : GState) :
    add_cell_length_block d sc st none
      = ⟨RDFGraph.add (RDFGraph.add (RDFGraph.add (RDFGraph.add (RDFGraph.add (st.graph)
        ⟨sc, CMSO.hasLength, bn st.ctr⟩) ⟨bn st.ctr, RDFtype, CMSO.SimulationCellLength⟩)
        ⟨bn st.ctr, CMSO.hasLength_x, .lit (Value.ofOptRat d.SimulationCellLengthX) .dFloat⟩)
        ⟨bn st.ctr, CMSO.hasLength_y, .lit (Value.ofOptRat d.SimulationCellLengthY) .dFloat⟩)
        ⟨bn st.ctr, CMSO.hasLength_z, .lit (Value.ofOptRat d.SimulationCellLengthZ) .dFloat⟩,
        st.ctr + 1, st.sample, st.material, st.simulation_cell, st.crystal_structure, st.unit_cell⟩ := rfl

theorem add_cell_vector_block_eq (v : ℚ × ℚ × ℚ) (sc : Node) (st : GState) :
    add_cell_vector_block (some v) sc st none
      = .ok ⟨RDFGraph.add (RDFGraph.add (RDFGraph.add (RDFGraph.add (RDFGraph.add (st.graph)
        ⟨sc, CMSO.hasVector, bn st.ctr⟩) ⟨bn st.ctr, RDFtype, CMSO.SimulationCellVector⟩)
        ⟨bn st.ctr, CMSO.hasComponent_x, .lit (.vRat v.1) .dFloat⟩)
        ⟨bn st.ctr, CMSO.hasComponent_y, .lit (.vRat v.2.1) .dFloat⟩)
        ⟨bn st.ctr, CMSO.hasComponent_z, .lit (.vRat v.2.2) .dFloat⟩,
        st.ctr + 1, st.sample, st.material, st.simulation_cell, st.crystal_structure, st.unit_cell⟩ := rfl

theorem add_cell_angle_block_eq (d : SysDict) (sc : Node) (st : GState) :
    add_cell_angle_block d sc st none
      = ⟨RDFGraph.add (RDFGraph.add (RDFGraph.add (RDFGraph.add (RDFGraph.add (st.graph)
        ⟨sc, CMSO.hasAngle, bn st.ctr⟩) ⟨bn st.ctr, RDFtype, CMSO.SimulationCellAngle⟩)
        ⟨bn st.ctr, CMSO.hasAngle_alpha, .lit (Value.ofOptRat d.SimulationCellAngleAlpha) .dFloat⟩)
        ⟨bn st.ctr, CMSO.hasAngle_beta, .lit (Value.ofOptRat d.SimulationCellAngleBeta) .dFloat⟩)
        ⟨bn st.ctr, CMSO.hasAngle_gamma, .lit (Value.ofOptRat d.SimulationCellAngleGamma) .dFloat⟩,
        st.ctr + 1, st.sample, st.material, st.simulation_cell, st.crystal_structure, st.unit_cell⟩ := rfl

set_option maxHeartbeats 1600000 in
theorem add_simulation_cell_properties_eq (d : SysDict) (st : GState) (sc : Node)
    (va vb vc : ℚ × ℚ × ℚ) (hsc : st.simulation_cell = some sc)
    (hva : d.SimulationCellVectorA = some va) (hvb : d.SimulationCellVectorB = some vb)
    (hvc : d.SimulationCellVectorC = some vc) :
    add_simulation_cell_properties d st none
      = .ok ⟨RDFGraph.add (RDFGraph.add (RDFGraph.add (RDFGraph.add (RDFGraph.add (RDFGraph.add (RDFGraph.add (RDFGraph.add (RDFGraph.add (RDFGraph.add (RDFGraph.add (RDFGraph.add (RDFGraph.add (RDFGraph.add (RDFGraph.add (RDFGraph.add (RDFGraph.add (RDFGraph.add (RDFGraph.add (RDFGraph.add (RDFGraph.add (RDFGraph.add (RDFGraph.add (RDFGraph.add (RDFGraph.add (st.graph)
        ⟨sc, CMSO.hasLength, bn st.ctr⟩) ⟨bn st.ctr, RDFtype, CMSO.SimulationCellLength⟩)
        ⟨bn st.ctr, CMSO.hasLength_x, .lit (Value.ofOptRat d.SimulationCellLengthX) .dFloat⟩)
        ⟨bn st.ctr, CMSO.hasLength_y, .lit (Value.ofOptRat d.SimulationCellLengthY) .dFloat⟩)
        ⟨bn st.ctr, CMSO.hasLength_z, .lit (Value.ofOptRat d.SimulationCellLengthZ) .dFloat⟩)
        ⟨sc, CMSO.hasVector, bn (st.ctr + 1)⟩)
        ⟨bn (st.ctr + 1), RDFtype, CMSO.SimulationCellVector⟩)
        ⟨bn (st.ctr + 1), CMSO.hasComponent_x, .lit (.vRat va.1) .dFloat⟩)
        ⟨bn (st.ctr + 1), CMSO.hasComponent_y, .lit (.vRat va.2.1) .dFloat⟩)
        ⟨bn (st.ctr + 1), CMSO.hasComponent_z, .lit (.vRat va.2.2) .dFloat⟩)
        ⟨sc, CMSO.hasVector, bn (st.ctr + 2)⟩)
        ⟨bn (st.ctr + 2), RDFtype, CMSO.SimulationCellVector⟩)
        ⟨bn (st.ctr + 2), CMSO.hasComponent_x, .lit (.vRat vb.1) .dFloat⟩)
        ⟨bn (st.ctr + 2), CMSO.hasComponent_y, .lit (.vRat vb.2.1) .dFloat⟩)
        ⟨bn (st.ctr + 2), CMSO.hasComponent_z, .lit (.vRat vb.2.2) .dFloat⟩)
        ⟨sc, CMSO.hasVector, bn (st.ctr + 3)⟩)
        ⟨bn (st.ctr + 3), RDFtype, CMSO.SimulationCellVector⟩)
        ⟨bn (st.ctr + 3), CMSO.hasComponent_x, .lit (.vRat vc.1) .dFloat⟩)
        ⟨bn (st.ctr + 3), CMSO.hasComponent_y, .lit (.vRat vc.2.1) .dFloat⟩)
        ⟨bn (st.ctr + 3), CMSO.hasComponent_z, .lit (.vRat vc.2.2) .dFloat⟩)
        ⟨sc, CMSO.hasAngle, bn (st.ctr + 4)⟩)
        ⟨bn (st.ctr + 4), RDFtype, CMSO.SimulationCellAngle⟩)
        ⟨bn (st.ctr + 4), CMSO.hasAngle_alpha, .lit (Value.ofOptRat d.SimulationCellAngleAlpha) .dFloat⟩)
        ⟨bn (st.ctr + 4), CMSO.hasAngle_beta, .lit (Value.ofOptRat d.SimulationCellAngleBeta) .dFloat⟩)
        ⟨bn (st.ctr + 4), CMSO.hasAngle_gamma, .lit (Value.ofOptRat d.SimulationCellAngleGamma) .dFloat⟩,
        st.ctr + 5, st.sample, st.material, st.simulation_cell, st.crystal_structure, st.unit_cell⟩ := by
  conv_lhs =>
    rw [add_simulation_cell_properties, hsc]
    simp only [req, exbind_ok, Option.map_none', hva, hvb, hvc]
    rw [add_cell_length_block_eq, add_cell_vector_block_eq]
    simp only [exbind_ok]
    rw [add_cell_vector_block_eq]
    simp only [exbind_ok]
    rw [add_cell_vector_block_eq]
    simp only [exbind_ok]
    rw [add_cell_angle_block_eq]
    simp only [GState.addT_graph, GState.addT_ctr, GState.addT_sample, GState.addT_material,
      GState.addT_simulation_cell, GState.addT_crystal_structure, GState.addT_unit_cell,
      GState.graph_mk, GState.ctr_mk, GState.sample_mk, GState.material_mk,
      GState.simulation_cell_mk, GState.crystal_structure_mk, GState.unit_cell_mk]
  rfl

theorem add_crystal_structure_eq (d : SysDict) (st : GState) (mat : Node)
    (hm : st.material = some mat) :
    add_crystal_structure d st none
      = .ok ⟨RDFGraph.add (RDFGraph.add (RDFGraph.add (st.graph) ⟨mat, CMSO.hasStructure, bn st.ctr⟩)
        ⟨bn st.ctr, RDFtype, CMSO.CrystalStructure⟩)
        ⟨bn st.ctr, CMSO.hasAltName, .lit (Value.ofOptStr d.CrystalStructureName) .dString⟩,
        st.ctr + 1, st.sample, st.material, st.simulation_cell, some (bn st.ctr),
        st.unit_cell⟩ := by
  conv_lhs => rw [add_crystal_structure, hm]
  rfl

theorem add_space_group_eq (d : SysDict) (st : GState) (cs : Node)
    (hcs : st.crystal_structure = some cs) :
    add_space_group d st none
      = .ok ⟨RDFGraph.add (RDFGraph.add (RDFGraph.add (RDFGraph.add (st.graph)
        ⟨cs, CMSO.hasSpaceGroup, bn st.ctr⟩) ⟨bn st.ctr, RDFtype, CMSO.SpaceGroup⟩)
        ⟨bn st.ctr, CMSO.hasSpaceGroupSymbol, .lit (Value.ofOptStr d.SpaceGroupSymbol) .dString⟩)
        ⟨bn st.ctr, CMSO.hasSpaceGroupNumber, .lit (Value.ofOptInt d.SpaceGroupNumber) .dInteger⟩,
        st.ctr + 1, st.sample, st.material, st.simulation_cell, st.crystal_structure, st.unit_cell⟩ := by
  conv_lhs => rw [add_space_group, hcs]
  rfl

theorem add_unit_cell_eq (d : SysDict) (st : GState) (cs : Node)
    (hcs : st.crystal_structure = some cs) :
    add_unit_cell d st none
      = .ok ⟨RDFGraph.add (RDFGraph.add (RDFGraph.add (RDFGraph.add (RDFGraph.add (st.graph)
        ⟨cs, CMSO.hasUnitCell, bn st.ctr⟩) ⟨bn st.ctr, RDFtype, CMSO.UnitCell⟩)
        ⟨bn st.ctr, CMSO.hasLattice, bn (st.ctr + 1)⟩)
        ⟨bn (st.ctr + 1), RDFtype, CMSO.BravaisLattice⟩)
        ⟨bn (st.ctr + 1), CMSO.hasLatticeSystem, .lit (Value.ofOptStr d.BravaisLattice) .dString⟩,
        st.ctr + 2, st.sample, st.material, st.simulation_cell, st.crystal_structure,
        some (bn st.ctr)⟩ := by
  conv_lhs => rw [add_unit_cell, hcs]
  rfl

theorem add_lattice_properties_eq (d : SysDict) (st : GState) (uc : Node)
    (huc : st.unit_cell = some uc) :
    add_lattice_properties d st none
      = .ok ⟨RDFGraph.add (RDFGraph.add (RDFGraph.add (RDFGraph.add (RDFGraph.add (RDFGraph.add (RDFGraph.add (RDFGraph.add (RDFGraph.add (RDFGraph.add (st.graph)
        ⟨uc, CMSO.hasLatticeParamter, bn st.ctr⟩) ⟨bn st.ctr, RDFtype, CMSO.LatticeParameter⟩)
        ⟨bn st.ctr, CMSO.hasLength_x, .lit (Value.ofOptRat d.LatticeParameter) .dFloat⟩)
        ⟨bn st.ctr, CMSO.hasLength_y, .lit (Value.ofOptRat d.LatticeParameter) .dFloat⟩)
        ⟨bn st.ctr, CMSO.hasLength_z, .lit (Value.ofOptRat d.LatticeParameter) .dFloat⟩)
        ⟨uc, CMSO.hasAngle, bn (st.ctr + 1)⟩) ⟨bn (st.ctr + 1), RDFtype, CMSO.LatticeAngle⟩)
        ⟨bn (st.ctr + 1), CMSO.hasAngle_alpha, .lit (.vRat 90) .dFloat⟩)
        ⟨bn (st.ctr + 1), CMSO.hasAngle_beta, .lit (.vRat 90) .dFloat⟩)
        ⟨bn (st.ctr + 1), CMSO.hasAngle_gamma, .lit (.vRat 90) .dFloat⟩,
        st.ctr + 2, st.sample, st.material, st.simulation_cell, st.crystal_structure, st.unit_cell⟩ := by
  conv_lhs => rw [add_lattice_properties, huc]
  rfl

set_option maxHeartbeats 800000 in
theorem add_atom_step_eq (d : SysDict) (smp : Node) (poss : List (ℚ × ℚ × ℚ))
    (elms : List String) (cos : List ℤ) (st : GState) (x : Nat)
    (pos : ℚ × ℚ × ℚ) (el : String) (co : ℤ)
    (helms : d.Element = some elms) (hcos : d.Coordination = some cos)
    (hp : poss.get? x = some pos) (he : elms.get? x = some el) (hc : cos.get? x = some co) :
    add_atom_step d smp none poss st x = .ok (atomStepPure smp st (pos, el, co)) := by
  simp only [add_atom_step, hp, helms, hcos, he, hc, req, exbind_ok, Option.map_none',
    GState.newBNode, GState.addT, GState.addT_graph, GState.addT_ctr, GState.addT_sample,
    GState.addT_material, GState.addT_simulation_cell, GState.addT_crystal_structure,
    GState.addT_unit_cell, GState.graph_mk, GState.ctr_mk, GState.sample_mk, GState.material_mk,
    GState.simulation_cell_mk, GState.crystal_structure_mk, GState.unit_cell_mk,
    atomStepPure, atomTriples, bn, List.foldl_cons, List.foldl_nil, expure]

theorem add_atoms_go (d : SysDict) (smp : Node) (poss : List (ℚ × ℚ × ℚ))
    (elms : List String) (cos : List ℤ)
    (helms : d.Element = some elms) (hcos : d.Coordination = some cos) :
    ∀ (xs : List Nat) (st : GState),
      (∀ x ∈ xs, x < poss.length ∧ x < elms.length ∧ x < cos.length) →
      xs.foldlM (add_atom_step d smp none poss) st
        = .ok (xs.foldl (fun st x => atomStepPure smp st
            ((poss.get? x).getD (0, 0, 0), (elms.get? x).getD "", (cos.get? x).getD 0)) st)
  | [], _, _ => rfl
  | x :: xs, st, h => by
    have hx := h x (List.mem_cons_self x xs)
    rcases hpx : poss.get? x with _ | p
    · exact absurd (List.get?_eq_none.mp hpx) (Nat.not_le.mpr hx.1)
    rcases hex : elms.get? x with _ | e
    · exact absurd (List.get?_eq_none.mp hex) (Nat.not_le.mpr hx.2.1)
    rcases hcx : cos.get? x with _ | c
    · exact absurd (List.get?_eq_none.mp hcx) (Nat.not_le.mpr hx.2.2)
    rw [List.foldlM_cons,
      add_atom_step_eq d smp poss elms cos st x p e c helms hcos hpx hex hcx]
    simp only [exbind_ok]
    rw [add_atoms_go d smp poss elms cos helms hcos xs _
      (fun y hy => h y (List.mem_cons_of_mem x hy))]
    simp only [List.foldl_cons]
    rw [hpx, hex, hcx]
    rfl

theorem add_atoms_eq (d : SysDict) (st : GState) (smp : Node) (poss : List (ℚ × ℚ × ℚ))
    (elms : List String) (cos : List ℤ)
    (hs : st.sample = some smp) (hposs : d.Positions = some poss)
    (helms : d.Element = some elms) (hcos : d.Coordination = some cos)
    (hl1 : poss.length ≤ elms.length) (hl2 : poss.length ≤ cos.length) :
    add_atoms d st none = .ok (atomsFold smp poss elms cos st) := by
  conv_lhs => rw [add_atoms, hs, hposs]
  simp only [req, exbind_ok]
  rw [add_atoms_go d smp poss elms cos helms hcos (List.range poss.length) st
    (fun x hx => ⟨List.mem_range.mp hx, Nat.lt_of_lt_of_le (List.mem_range.mp hx) hl1,
      Nat.lt_of_lt_of_le (List.mem_range.mp hx) hl2⟩)]
  rfl

set_option maxHeartbeats 3200000 in
/-- Closed form of `create_graph` in anonymous mode from a fresh store, for
any record whose crash-prone fields are present. -/
theorem create_graph_eq (d : SysDict) (idx : String) (els : List String) (rats : List ℚ)
    (v : ℚ) (va vb vc : ℚ × ℚ × ℚ) (poss : List (ℚ × ℚ × ℚ)) (elms : List String)
    (cos : List ℤ)
    (hels : d.ChemicalCompositionElement = some els)
    (hrats : SysDict.ChemicalCompositionRatio' d = some rats)
    (hv : d.CellVolume = some v)
    (hva : d.SimulationCellVectorA = some va) (hvb : d.SimulationCellVectorB = some vb)
    (hvc : d.SimulationCellVectorC = some vc)
    (hposs : d.Positions = some poss) (helms : d.Element = some elms)
    (hcos : d.Coordination = some cos)
    (hl1 : poss.length ≤ elms.length) (hl2 : poss.length ≤ cos.length) :
    create_graph d false idx {}
      = .ok (atomsFold (bn 0) poss elms cos
          ⟨encPrefixG els rats v d.NumberOfAtoms d.SimulationCellLengthX
              d.SimulationCellLengthY d.SimulationCellLengthZ va vb vc
              d.SimulationCellAngleAlpha d.SimulationCellAngleBeta d.SimulationCellAngleGamma
              d.CrystalStructureName d.SpaceGroupSymbol d.SpaceGroupNumber d.BravaisLattice
              d.LatticeParameter,
            15, some (bn 0), some (bn 1), some (bn 3), some (bn 9), some (bn 11)⟩) := by
  have hn : ∀ s : String, (if false = true then some s else (none : Option String)) = none :=
    fun _ => rfl
  simp only [create_graph, hn]
  rw [add_sample_eq, add_material_eq _ _ rfl]
  simp only [exbind_ok]
  rw [add_chemical_composition_eq d _ els rats _ hels hrats rfl]
  simp only [exbind_ok]
  rw [add_simulation_cell_eq d _ _ v rfl hv]
  simp only [exbind_ok]
  rw [add_simulation_cell_properties_eq d _ _ va vb vc rfl hva hvb hvc]
  simp only [exbind_ok]
  rw [add_crystal_structure_eq d _ _ rfl]
  simp only [exbind_ok]
  rw [add_space_group_eq d _ _ rfl]
  simp only [exbind_ok]
  rw [add_unit_cell_eq d _ _ rfl]
  simp only [exbind_ok]
  rw [add_lattice_properties_eq d _ _ rfl]
  simp only [exbind_ok]
  rw [add_atoms_eq d _ (bn 0) poss elms cos rfl hposs helms hcos hl1 hl2]
  simp only [exbind_ok, expure]
  rfl

/-! Membership characterization of the encoded store, and claim C3. -/

/-- `encPrefixG` is the fold of the guard over `encPrefixList`. -/
theorem encPrefixG_eq_foldl (els : List String) (rats : List ℚ) (v : ℚ) (na : Option ℤ)
    (lx ly lz : Option ℚ) (va vb vc : ℚ × ℚ × ℚ) (aa ab ag : Option ℚ)
    (csn sgs : Option String) (sgn : Option ℤ) (bl : Option String) (lp : Option ℚ) :
    encPrefixG els rats v na lx ly lz va vb vc aa ab ag csn sgs sgn bl lp
      = (encPrefixList els rats v na lx ly lz va vb vc aa ab ag csn sgs sgn bl lp).foldl
          RDFGraph.add [] := by
  rw [encPrefixList]
  simp only [List.foldl_append, List.foldl_map]
  rfl

theorem atomStepPure_ctr (smp : Node) (st : GState) (a : (ℚ × ℚ × ℚ) × String × ℤ) :
    (atomStepPure smp st a).ctr = st.ctr + 3 := rfl

theorem atomStepPure_graph (smp : Node) (st : GState) (a : (ℚ × ℚ × ℚ) × String × ℤ) :
    (atomStepPure smp st a).graph
      = (atomTriples smp st.ctr a.1 a.2.1 a.2.2).foldl RDFGraph.add st.graph := rfl

theorem atoms_range_fold_ctr (smp : Node) (poss : List (ℚ × ℚ × ℚ)) (elms : List String)
    (cos : List ℤ) (n : Nat) :
    ∀ st : GState,
      ((List.range n).foldl (fun st x => atomStepPure smp st
          (poss.getD x (0, 0, 0), elms.getD x "", cos.getD x 0)) st).ctr = st.ctr + 3 * n := by
  induction n with
  | zero => intro st; rfl
  | succ n ih =>
    intro st
    rw [List.range_succ, List.foldl_append, List.foldl_cons, List.foldl_nil,
      atomStepPure_ctr, ih]
    omega

theorem atoms_range_fold_graph (smp : Node) (poss : List (ℚ × ℚ × ℚ)) (elms : List String)
    (cos : List ℤ) (n : Nat) :
    ∀ st : GState,
      ((List.range n).foldl (fun st x => atomStepPure smp st
          (poss.getD x (0, 0, 0), elms.getD x "", cos.getD x 0)) st).graph
        = (((List.range n).map (fun j => atomTriples smp (st.ctr + 3 * j)
            (poss.getD j (0, 0, 0)) (elms.getD j "") (cos.getD j 0))).flatten).foldl
            RDFGraph.add st.graph := by
  induction n with
  | zero => intro st; rfl
  | succ n ih =>
    intro st
    rw [List.range_succ, List.foldl_append, List.foldl_cons, List.foldl_nil,
      atomStepPure_graph, atoms_range_fold_ctr, ih]
    rw [List.map_append, List.flatten_append, List.foldl_append]
    simp only [List.map_cons, List.map_nil, List.flatten_cons, List.flatten_nil,
      List.append_nil]

/-- The graph of the atom fold: the atom blocks offered on top of the
incoming graph. -/
theorem atomsFold_graph (smp : Node) (poss : List (ℚ × ℚ × ℚ)) (elms : List String)
    (cos : List ℤ) (st : GState) :
    (atomsFold smp poss elms cos st).graph
      = (atomsTripleList smp st.ctr poss elms cos).foldl RDFGraph.add st.graph :=
  atoms_range_fold_graph smp poss elms cos poss.length st

set_option maxRecDepth 100000 in
set_option maxHeartbeats 4000000 in
/-- C1: counterexample — encoding a record with cell vectors A=(1,2,3),
B=(4,5,6), C=(7,8,9), extracting the subgraph below the sample node, and
decoding yields the box [[1,4,7],[2,5,8],[3,6,9]]: the TRANSPOSE of the
encoded vector matrix, not the matrix itself, because `cell_vectors[0]`
(graph.py 795-798) collects the x components of all three vectors. -/
theorem C1_counterexample :
    ∃ st : GState,
      create_graph d1 false "01" {} = .ok st ∧
      (get_sample st.graph (bn 0) false 20).map
          (Except.map (fun p => get_system_from_sample p.1 (bn 0)))
        = some (.ok (.ok ⟨[[.vRat 1, .vRat 4, .vRat 7],
                           [.vRat 2, .vRat 5, .vRat 8],
                           [.vRat 3, .vRat 6, .vRat 9]],
                          [[.vRat (mkRat 1 2), .vRat (mkRat 1 2), .vRat (mkRat 1 2)]],
                          [.vStr "Al"]⟩)) ∧
      ([[Value.vRat 1, .vRat 4, .vRat 7],
        [.vRat 2, .vRat 5, .vRat 8],
        [.vRat 3, .vRat 6, .vRat 9]] : List (List Value))
        ≠ [[.vRat 1, .vRat 2, .vRat 3],
           [.vRat 4, .vRat 5, .vRat 6],
           [.vRat 7, .vRat 8, .vRat 9]] := by
  refine ⟨_, rfl, by rfl, by decide⟩

/-! Toward the round-trip theorem: the exact store list produced by the
encoder when no insertion is deduplicated or guard-dropped. -/

/-- Folding the guarded insert over pairwise-distinct, guard-passing
candidates just appends them. -/
theorem foldl_add_append :
    ∀ (l g : List Triple), (g ++ l).Nodup → (∀ u ∈ l, u.o.strIsNone = false) →
      l.foldl RDFGraph.add g = g ++ l
  | [], g, _, _ => by simp
  | t :: l, g, hnd, hg => by
    rw [List.foldl_cons]
    have htg : t ∉ g := fun hm =>
      (List.disjoint_of_nodup_append hnd) hm (List.mem_cons_self t l)
    have hadd : RDFGraph.add g t = g ++ [t] := by
      rw [RDFGraph.add, hg t (List.mem_cons_self t l)]
      simp [Graph.addTriple, htg]
    rw [hadd, foldl_add_append l (g ++ [t]) (by rwa [← List.append_cons])
      (fun u hu => hg u (List.mem_cons_of_mem t hu))]
    simp

/-- The exact graph of the final encoder state, given that all offered
triples are pairwise distinct and guard-passing. -/
theorem store_exact_of (smp : Node) (poss : List (ℚ × ℚ × ℚ)) (elms : List String)
    (cos : List ℤ) (G : List Triple) (c : Nat) (s m sc cs uc : Option Node)
    (hnd : (G ++ atomsTripleList smp c poss elms cos).Nodup)
    (hg : ∀ u ∈ atomsTripleList smp c poss elms cos, u.o.strIsNone = false) :
    (atomsFold smp poss elms cos ⟨G, c, s, m, sc, cs, uc⟩).graph
      = G ++ atomsTripleList smp c poss elms cos := by
  rw [atomsFold_graph]
  simp only [GState.graph_mk, GState.ctr_mk]
  exact foldl_add_append _ _ hnd hg

/-- The exact non-atom prefix graph, given distinctness and guards. -/
theorem encPrefixG_exact_of (els : List String) (rats : List ℚ) (v : ℚ) (na : Option ℤ)
    (lx ly lz : Option ℚ) (va vb vc : ℚ × ℚ × ℚ) (aa ab ag : Option ℚ)
    (csn sgs : Option String) (sgn : Option ℤ) (bl : Option String) (lp : Option ℚ)
    (hnd : (encPrefixList els rats v na lx ly lz va vb vc aa ab ag csn sgs sgn bl lp).Nodup)
    (hg : ∀ u ∈ encPrefixList els rats v na lx ly lz va vb vc aa ab ag csn sgs sgn bl lp,
      u.o.strIsNone = false) :
    encPrefixG els rats v na lx ly lz va vb vc aa ab ag csn sgs sgn bl lp
      = encPrefixList els rats v na lx ly lz va vb vc aa ab ag csn sgs sgn bl lp := by
  rw [encPrefixG_eq_foldl]
  exact (foldl_add_append _ [] (by simpa using hnd) hg).trans (by simp)

/-- The keys of the non-atom prefix: the five head keys, the composition
keys and the remaining 51 keys. -/
theorem map_tkey_encPrefixList (els : List String) (rats : List ℚ) (v : ℚ) (na : Option ℤ)
    (lx ly lz : Option ℚ) (va vb vc : ℚ × ℚ × ℚ) (aa ab ag : Option ℚ)
    (csn sgs : Option String) (sgn : Option ℤ) (bl : Option String) (lp : Option ℚ) :
    (encPrefixList els rats v na lx ly lz va vb vc aa ab ag csn sgs sgn bl lp).map tkey
      = ([(bn 0, RDFtype, none, none),
       (bn 0, CMSO.hasMaterial, some 1, none),
       (bn 1, RDFtype, none, none),
       (bn 1, CMSO.hasComposition, some 2, none),
       (bn 2, RDFtype, none, none)]
         ++ (chemStrings els rats).map (fun s =>
              ((bn 2 : Node), (CMSO.hasElementRatio' : Node), (none : Option Nat),
                (some s : Option String))))
        ++ [(bn 0, CMSO.hasSimulationCell, some 3, none),
           (bn 3, RDFtype, none, none),
           (bn 3, CMSO.hasVolume, none, none),
           (bn 0, CMSO.hasNumberOfAtoms, none, none),
           (bn 3, CMSO.hasLength, some 4, none),
           (bn 4, RDFtype, none, none),
           (bn 4, CMSO.hasLength_x, none, none),
           (bn 4, CMSO.hasLength_y, none, none),
           (bn 4, CMSO.hasLength_z, none, none),
           (bn 3, CMSO.hasVector, some 5, none),
           (bn 5, RDFtype, none, none),
           (bn 5, CMSO.hasComponent_x, none, none),
           (bn 5, CMSO.hasComponent_y, none, none),
           (bn 5, CMSO.hasComponent_z, none, none),
           (bn 3, CMSO.hasVector, some 6, none),
           (bn 6, RDFtype, none, none),
           (bn 6, CMSO.hasComponent_x, none, none),
           (bn 6, CMSO.hasComponent_y, none, none),
           (bn 6, CMSO.hasComponent_z, none, none),
           (bn 3, CMSO.hasVector, some 7, none),
           (bn 7, RDFtype, none, none),
           (bn 7, CMSO.hasComponent_x, none, none),
           (bn 7, CMSO.hasComponent_y, none, none),
           (bn 7, CMSO.hasComponent_z, none, none),
           (bn 3, CMSO.hasAngle, some 8, none),
           (bn 8, RDFtype, none, none),
           (bn 8, CMSO.hasAngle_alpha, none, none),
           (bn 8, CMSO.hasAngle_beta, none, none),
           (bn 8, CMSO.hasAngle_gamma, none, none),
           (bn 1, CMSO.hasStructure, some 9, none),
           (bn 9, RDFtype, none, none),
           (bn 9, CMSO.hasAltName, none, none),
           (bn 9, CMSO.hasSpaceGroup, some 10, none),
           (bn 10, RDFtype, none, none),
           (bn 10, CMSO.hasSpaceGroupSymbol, none, none),
           (bn 10, CMSO.hasSpaceGroupNumber, none, none),
           (bn 9, CMSO.hasUnitCell, some 11, none),
           (bn 11, RDFtype, none, none),
           (bn 11, CMSO.hasLattice, some 12, none),
           (bn 12, RDFtype, none, none),
           (bn 12, CMSO.hasLatticeSystem, none, none),
           (bn 11, CMSO.hasLatticeParamter, some 13, none),
           (bn 13, RDFtype, none, none),
           (bn 13, CMSO.hasLength_x, none, none),
           (bn 13, CMSO.hasLength_y, none, none),
           (bn 13, CMSO.hasLength_z, none, none),
           (bn 11, CMSO.hasAngle, some 14, none),
           (bn 14, RDFtype, none, none),
           (bn 14, CMSO.hasAngle_alpha, none, none),
           (bn 14, CMSO.hasAngle_beta, none, none),
           (bn 14, CMSO.hasAngle_gamma, none, none)] := by
  simp only [encPrefixList, List.map_append, List.map_map, List.append_assoc]
  rfl

/-- The non-atom prefix is duplicate-free when the composition strings
are. -/
theorem encPrefixList_nodup (els : List String) (rats : List ℚ) (v : ℚ) (na : Option ℤ)
    (lx ly lz : Option ℚ) (va vb vc : ℚ × ℚ × ℚ) (aa ab ag : Option ℚ)
    (csn sgs : Option String) (sgn : Option ℤ) (bl : Option String) (lp : Option ℚ)
    (hnd : (chemStrings els rats).Nodup) :
    (encPrefixList els rats v na lx ly lz va vb vc aa ab ag csn sgs sgn bl lp).Nodup := by
  refine List.Nodup.of_map tkey ?_
  rw [map_tkey_encPrefixList, List.nodup_append, List.nodup_append]
  refine ⟨⟨by decide, hnd.map ?_, ?_⟩, by decide, ?_⟩
  · intro a b hab
    have := congrArg (fun x : Node × Node × Option Nat × Option String => x.2.2.2) hab
    simpa using this
  · intro x hx hy
    obtain ⟨s, _, rfl⟩ := List.mem_map.mp hy
    simp +decide at hx
  · rw [List.disjoint_append_left]
    refine ⟨by rw [List.disjoint_left]; decide, ?_⟩
    intro x hx hy
    obtain ⟨s, _, rfl⟩ := List.mem_map.mp hx
    simp +decide at hy

/-- Every triple the non-atom prefix offers passes the null-string guard,
when the record is fully populated and no string field is `"None"`. -/
theorem encPrefixList_guards (els : List String) (rats : List ℚ)
    (v lx ly lz aa ab ag lp : ℚ) (na sgn : ℤ) (csn sgs bl : String)
    (va vb vc : ℚ × ℚ × ℚ)
    (hcsn : csn ≠ "None") (hsgs : sgs ≠ "None") (hbl : bl ≠ "None")
    (hchem : ∀ s ∈ chemStrings els rats, s ≠ "None") :
    ∀ u ∈ encPrefixList els rats v (some na) (some lx) (some ly) (some lz) va vb vc
        (some aa) (some ab) (some ag) (some csn) (some sgs) (some sgn) (some bl) (some lp),
      u.o.strIsNone = false := by
  intro u hu
  rw [encPrefixList] at hu
  rw [List.mem_append, List.mem_append, List.mem_append, List.mem_append,
    List.mem_append, List.mem_append, List.mem_append, List.mem_append,
    List.mem_append, List.mem_append] at hu
  rcases hu with ((((((((((h | h) | h) | h) | h) | h) | h) | h) | h) | h) | h)
  · simp only [List.mem_cons, List.not_mem_nil, or_false] at h
    rcases h with h | h | h | h | h <;> (rw [h]; rfl)
  · obtain ⟨s, hs, rfl⟩ := List.mem_map.mp h
    simpa [Node.strIsNone, Value.strIsNone, Value.ofOptStr, beq_eq_false_iff_ne] using hchem s hs
  · simp only [List.mem_cons, List.not_mem_nil, or_false] at h
    rcases h with h | h | h <;> (rw [h]; rfl)
  · rw [List.eq_of_mem_singleton h]; rfl
  · simp only [List.mem_cons, List.not_mem_nil, or_false] at h
    rcases h with h | h | h | h | h | h | h | h | h | h | h | h | h | h | h | h | h | h | h | h | h | h | h | h | h | h | h <;> (rw [h]; rfl)
  · rw [List.eq_of_mem_singleton h]
    simpa [Node.strIsNone, Value.strIsNone, Value.ofOptStr, beq_eq_false_iff_ne] using hcsn
  · simp only [List.mem_cons, List.not_mem_nil, or_false] at h
    rcases h with h | h <;> (rw [h]; rfl)
  · simp only [List.mem_cons, List.not_mem_nil, or_false] at h
    rcases h with h | h
    · rw [h]
      simpa [Node.strIsNone, Value.strIsNone, Value.ofOptStr, beq_eq_false_iff_ne] using hsgs
    · rw [h]; rfl
  · simp only [List.mem_cons, List.not_mem_nil, or_false] at h
    rcases h with h | h | h | h <;> (rw [h]; rfl)
  · rw [List.eq_of_mem_singleton h]
    simpa [Node.strIsNone, Value.strIsNone, Value.ofOptStr, beq_eq_false_iff_ne] using hbl
  · simp only [List.mem_cons, List.not_mem_nil, or_false] at h
    rcases h with h | h | h | h | h | h | h | h | h | h <;> (rw [h]; rfl)

/-- Every triple of one atom block passes the guard if the species symbol is
not `"None"`. -/
theorem atomTriples_guards (c : Nat) (pos : ℚ × ℚ × ℚ) (el : String) (co : ℤ)
    (hel : el ≠ "None") :
    ∀ u ∈ atomTriples (bn 0) c pos el co, u.o.strIsNone = false := by
  intro u h
  simp only [atomTriples, List.mem_cons, List.not_mem_nil, or_false] at h
  rcases h with h | h | h | h | h | h | h | h | h | h | h <;>
    first
    | (rw [h]; rfl)
    | (rw [h]; simpa [Node.strIsNone, Value.strIsNone, beq_eq_false_iff_ne] using hel)

/-- Guards for the whole atom segment. -/
theorem atomsTripleList_guards (c : Nat) (poss : List (ℚ × ℚ × ℚ)) (elms : List String)
    (cos : List ℤ) (hl1 : poss.length ≤ elms.length)
    (helm : ∀ e ∈ elms, e ≠ "None") :
    ∀ u ∈ atomsTripleList (bn 0) c poss elms cos, u.o.strIsNone = false := by
  intro u hu
  simp only [atomsTripleList, List.mem_flatten, List.mem_map] at hu
  obtain ⟨lsub, ⟨j, hj, rfl⟩, hu⟩ := hu
  have hjl : j < elms.length :=
    Nat.lt_of_lt_of_le (List.mem_range.mp hj) hl1
  refine atomTriples_guards _ _ _ _ ?_ u hu
  have : elms.getD j "" ∈ elms := by
    rw [List.getD_eq_getElem elms "" hjl]
    exact List.getElem_mem hjl
  exact helm _ this

/-- Every atom-block triple carries a blank node with index in `[c, c+2]`. -/
theorem atomTriples_hasBn (c : Nat) (pos : ℚ × ℚ × ℚ) (el : String) (co : ℤ) :
    ∀ u ∈ atomTriples (bn 0) c pos el co,
      ∃ m, (c ≤ m ∧ m ≤ c + 2) ∧ (u.s = bn m ∨ u.o = bn m) := by
  intro u hu
  simp only [atomTriples, List.mem_cons, List.not_mem_nil, or_false] at hu
  rcases hu with h | h | h | h | h | h | h | h | h | h | h <;> subst h <;>
    first
    | exact ⟨c, by omega, Or.inl rfl⟩
    | exact ⟨c, by omega, Or.inr rfl⟩
    | exact ⟨c + 1, by omega, Or.inl rfl⟩
    | exact ⟨c + 2, by omega, Or.inl rfl⟩

/-- Conversely, every blank node of an atom-block triple is the sample (0)
or lies in `[c, c+2]`. -/
theorem atomTriples_bn_bound (c : Nat) (pos : ℚ × ℚ × ℚ) (el : String) (co : ℤ) :
    ∀ u ∈ atomTriples (bn 0) c pos el co, ∀ m, (u.s = bn m ∨ u.o = bn m) →
      m = 0 ∨ (c ≤ m ∧ m ≤ c + 2) := by
  intro u hu m hm
  simp only [atomTriples, List.mem_cons, List.not_mem_nil, or_false] at hu
  rcases hu with h | h | h | h | h | h | h | h | h | h | h <;> subst h <;>
    rcases hm with h | h <;> simp [bn, cmsoUri, RDFtype, CMSO.Atom, CMSO.PositionVector, CMSO.Element,
      CMSO.AtomicScaleSample, CMSO.CrystallineMaterial, CMSO.ChemicalComposition,
      CMSO.SimulationCell, CMSO.SimulationCellLength, CMSO.SimulationCellVector,
      CMSO.SimulationCellAngle, CMSO.CrystalStructure, CMSO.SpaceGroup, CMSO.UnitCell,
      CMSO.BravaisLattice, CMSO.LatticeParameter, CMSO.LatticeAngle] at h <;> omega

/-- One atom block is duplicate-free. -/
theorem atomTriples_nodup (c : Nat) (pos : ℚ × ℚ × ℚ) (el : String) (co : ℤ) :
    (atomTriples (bn 0) c pos el co).Nodup := by
  simp +decide [atomTriples, List.nodup_cons, List.mem_cons, List.not_mem_nil,
    Triple.mk.injEq, bn, Nat.self_eq_add_right, Nat.add_left_cancel_iff]

/-- The whole atom segment is duplicate-free. -/
theorem atomsTripleList_nodup (c : Nat) (hc : 1 ≤ c) (poss : List (ℚ × ℚ × ℚ))
    (elms : List String) (cos : List ℤ) :
    (atomsTripleList (bn 0) c poss elms cos).Nodup := by
  rw [atomsTripleList, List.nodup_flatten]
  constructor
  · intro s hs
    obtain ⟨j, _, rfl⟩ := List.mem_map.mp hs
    exact atomTriples_nodup _ _ _ _
  · rw [List.pairwise_map]
    refine (List.pairwise_lt_range poss.length).imp ?_
    intro j j' hlt u hu hu'
    obtain ⟨m, ⟨hm1, hm2⟩, hso⟩ := atomTriples_hasBn _ _ _ _ u hu
    have hb := atomTriples_bn_bound _ _ _ _ u hu' m hso
    omega

/-- Every blank node of a prefix triple has index at most 14. -/
theorem encPrefixList_bn_bound (els : List String) (rats : List ℚ) (v : ℚ) (na : Option ℤ)
    (lx ly lz : Option ℚ) (va vb vc : ℚ × ℚ × ℚ) (aa ab ag : Option ℚ)
    (csn sgs : Option String) (sgn : Option ℤ) (bl : Option String) (lp : Option ℚ) :
    ∀ u ∈ encPrefixList els rats v na lx ly lz va vb vc aa ab ag csn sgs sgn bl lp,
      ∀ m, (u.s = bn m ∨ u.o = bn m) → m ≤ 14 := by
  intro u hu m hm
  rw [encPrefixList] at hu
  rw [List.mem_append, List.mem_append, List.mem_append, List.mem_append,
    List.mem_append, List.mem_append, List.mem_append, List.mem_append,
    List.mem_append, List.mem_append] at hu
  rcases hu with ((((((((((h | h) | h) | h) | h) | h) | h) | h) | h) | h) | h)
  · simp only [List.mem_cons, List.not_mem_nil, or_false] at h
    rcases h with h | h | h | h | h <;> subst h <;> rcases hm with h | h <;> simp [bn, cmsoUri, RDFtype, CMSO.Atom, CMSO.PositionVector, CMSO.Element,
      CMSO.AtomicScaleSample, CMSO.CrystallineMaterial, CMSO.ChemicalComposition,
      CMSO.SimulationCell, CMSO.SimulationCellLength, CMSO.SimulationCellVector,
      CMSO.SimulationCellAngle, CMSO.CrystalStructure, CMSO.SpaceGroup, CMSO.UnitCell,
      CMSO.BravaisLattice, CMSO.LatticeParameter, CMSO.LatticeAngle] at h <;> omega
  · obtain ⟨s, _, rfl⟩ := List.mem_map.mp h
    rcases hm with h | h <;> simp [bn, cmsoUri, RDFtype, CMSO.Atom, CMSO.PositionVector, CMSO.Element,
      CMSO.AtomicScaleSample, CMSO.CrystallineMaterial, CMSO.ChemicalComposition,
      CMSO.SimulationCell, CMSO.SimulationCellLength, CMSO.SimulationCellVector,
      CMSO.SimulationCellAngle, CMSO.CrystalStructure, CMSO.SpaceGroup, CMSO.UnitCell,
      CMSO.BravaisLattice, CMSO.LatticeParameter, CMSO.LatticeAngle] at h <;> omega
  · simp only [List.mem_cons, List.not_mem_nil, or_false] at h
    rcases h with h | h | h <;> subst h <;> rcases hm with h | h <;> simp [bn, cmsoUri, RDFtype, CMSO.Atom, CMSO.PositionVector, CMSO.Element,
      CMSO.AtomicScaleSample, CMSO.CrystallineMaterial, CMSO.ChemicalComposition,
      CMSO.SimulationCell, CMSO.SimulationCellLength, CMSO.SimulationCellVector,
      CMSO.SimulationCellAngle, CMSO.CrystalStructure, CMSO.SpaceGroup, CMSO.UnitCell,
      CMSO.BravaisLattice, CMSO.LatticeParameter, CMSO.LatticeAngle] at h <;> omega
  · have h := List.eq_of_mem_singleton h
    subst h
    rcases hm with h | h <;> simp [bn, cmsoUri, RDFtype, CMSO.Atom, CMSO.PositionVector, CMSO.Element,
      CMSO.AtomicScaleSample, CMSO.CrystallineMaterial, CMSO.ChemicalComposition,
      CMSO.SimulationCell, CMSO.SimulationCellLength, CMSO.SimulationCellVector,
      CMSO.SimulationCellAngle, CMSO.CrystalStructure, CMSO.SpaceGroup, CMSO.UnitCell,
      CMSO.BravaisLattice, CMSO.LatticeParameter, CMSO.LatticeAngle] at h <;> omega
  · simp only [List.mem_cons, List.not_mem_nil, or_false] at h
    rcases h with h | h | h | h | h | h | h | h | h | h | h | h | h | h | h | h | h | h | h | h | h | h | h | h | h | h | h <;> subst h <;> rcases hm with h | h <;> simp [bn, cmsoUri, RDFtype, CMSO.Atom, CMSO.PositionVector, CMSO.Element,
      CMSO.AtomicScaleSample, CMSO.CrystallineMaterial, CMSO.ChemicalComposition,
      CMSO.SimulationCell, CMSO.SimulationCellLength, CMSO.SimulationCellVector,
      CMSO.SimulationCellAngle, CMSO.CrystalStructure, CMSO.SpaceGroup, CMSO.UnitCell,
      CMSO.BravaisLattice, CMSO.LatticeParameter, CMSO.LatticeAngle] at h <;> omega
  · have h := List.eq_of_mem_singleton h
    subst h
    rcases hm with h | h <;> simp [bn, cmsoUri, RDFtype, CMSO.Atom, CMSO.PositionVector, CMSO.Element,
      CMSO.AtomicScaleSample, CMSO.CrystallineMaterial, CMSO.ChemicalComposition,
      CMSO.SimulationCell, CMSO.SimulationCellLength, CMSO.SimulationCellVector,
      CMSO.SimulationCellAngle, CMSO.CrystalStructure, CMSO.SpaceGroup, CMSO.UnitCell,
      CMSO.BravaisLattice, CMSO.LatticeParameter, CMSO.LatticeAngle] at h <;> omega
  · simp only [List.mem_cons, List.not_mem_nil, or_false] at h
    rcases h with h | h <;> subst h <;> rcases hm with h | h <;> simp [bn, cmsoUri, RDFtype, CMSO.Atom, CMSO.PositionVector, CMSO.Element,
      CMSO.AtomicScaleSample, CMSO.CrystallineMaterial, CMSO.ChemicalComposition,
      CMSO.SimulationCell, CMSO.SimulationCellLength, CMSO.SimulationCellVector,
      CMSO.SimulationCellAngle, CMSO.CrystalStructure, CMSO.SpaceGroup, CMSO.UnitCell,
      CMSO.BravaisLattice, CMSO.LatticeParameter, CMSO.LatticeAngle] at h <;> omega
  · simp only [List.mem_cons, List.not_mem_nil, or_false] at h
    rcases h with h | h <;> subst h <;> rcases hm with h | h <;> simp [bn, cmsoUri, RDFtype, CMSO.Atom, CMSO.PositionVector, CMSO.Element,
      CMSO.AtomicScaleSample, CMSO.CrystallineMaterial, CMSO.ChemicalComposition,
      CMSO.SimulationCell, CMSO.SimulationCellLength, CMSO.SimulationCellVector,
      CMSO.SimulationCellAngle, CMSO.CrystalStructure, CMSO.SpaceGroup, CMSO.UnitCell,
      CMSO.BravaisLattice, CMSO.LatticeParameter, CMSO.LatticeAngle] at h <;> omega
  · simp only [List.mem_cons, List.not_mem_nil, or_false] at h
    rcases h with h | h | h | h <;> subst h <;> rcases hm with h | h <;> simp [bn, cmsoUri, RDFtype, CMSO.Atom, CMSO.PositionVector, CMSO.Element,
      CMSO.AtomicScaleSample, CMSO.CrystallineMaterial, CMSO.ChemicalComposition,
      CMSO.SimulationCell, CMSO.SimulationCellLength, CMSO.SimulationCellVector,
      CMSO.SimulationCellAngle, CMSO.CrystalStructure, CMSO.SpaceGroup, CMSO.UnitCell,
      CMSO.BravaisLattice, CMSO.LatticeParameter, CMSO.LatticeAngle] at h <;> omega
  · have h := List.eq_of_mem_singleton h
    subst h
    rcases hm with h | h <;> simp [bn, cmsoUri, RDFtype, CMSO.Atom, CMSO.PositionVector, CMSO.Element,
      CMSO.AtomicScaleSample, CMSO.CrystallineMaterial, CMSO.ChemicalComposition,
      CMSO.SimulationCell, CMSO.SimulationCellLength, CMSO.SimulationCellVector,
      CMSO.SimulationCellAngle, CMSO.CrystalStructure, CMSO.SpaceGroup, CMSO.UnitCell,
      CMSO.BravaisLattice, CMSO.LatticeParameter, CMSO.LatticeAngle] at h <;> omega
  · simp only [List.mem_cons, List.not_mem_nil, or_false] at h
    rcases h with h | h | h | h | h | h | h | h | h | h <;> subst h <;> rcases hm with h | h <;> simp [bn, cmsoUri, RDFtype, CMSO.Atom, CMSO.PositionVector, CMSO.Element,
      CMSO.AtomicScaleSample, CMSO.CrystallineMaterial, CMSO.ChemicalComposition,
      CMSO.SimulationCell, CMSO.SimulationCellLength, CMSO.SimulationCellVector,
      CMSO.SimulationCellAngle, CMSO.CrystalStructure, CMSO.SpaceGroup, CMSO.UnitCell,
      CMSO.BravaisLattice, CMSO.LatticeParameter, CMSO.LatticeAngle] at h <;> omega

/-- The prefix and the atom segment share no triple. -/
theorem prefix_atoms_disjoint (els : List String) (rats : List ℚ) (v : ℚ) (na : Option ℤ)
    (lx ly lz : Option ℚ) (va vb vc : ℚ × ℚ × ℚ) (aa ab ag : Option ℚ)
    (csn sgs : Option String) (sgn : Option ℤ) (bl : Option String) (lp : Option ℚ)
    (poss : List (ℚ × ℚ × ℚ)) (elms : List String) (cos : List ℤ) :
    (encPrefixList els rats v na lx ly lz va vb vc aa ab ag csn sgs sgn bl lp).Disjoint
      (atomsTripleList (bn 0) 15 poss elms cos) := by
  intro u hu hu'
  simp only [atomsTripleList, List.mem_flatten, List.mem_map] at hu'
  obtain ⟨lsub, ⟨j, _, rfl⟩, hu'⟩ := hu'
  obtain ⟨m, ⟨hm1, _⟩, hso⟩ := atomTriples_hasBn _ _ _ _ u hu'
  have := encPrefixList_bn_bound els rats v na lx ly lz va vb vc aa ab ag csn sgs sgn bl lp
    u hu m hso
  omega

theorem atoms_range_fold_sample (smp : Node) (poss : List (ℚ × ℚ × ℚ)) (elms : List String)
    (cos : List ℤ) (n : Nat) :
    ∀ st : GState,
      ((List.range n).foldl (fun st x => atomStepPure smp st
          (poss.getD x (0, 0, 0), elms.getD x "", cos.getD x 0)) st).sample = st.sample := by
  induction n with
  | zero => intro st; rfl
  | succ n ih =>
    intro st
    rw [List.range_succ, List.foldl_append, List.foldl_cons, List.foldl_nil]
    rw [show ∀ (st' : GState) a, (atomStepPure smp st' a).sample = st'.sample from fun _ _ => rfl]
    exact ih st

/-- `create_graph` on a fully populated record from a fresh store: the exact
store list, in insertion order. -/
theorem create_graph_exact (d : SysDict) (idx : String) (els : List String) (rats : List ℚ)
    (v lx ly lz aa ab ag lp : ℚ) (na sgn : ℤ) (csn sgs bl : String)
    (va vb vc : ℚ × ℚ × ℚ) (poss : List (ℚ × ℚ × ℚ)) (elms : List String) (cos : List ℤ)
    (hels : d.ChemicalCompositionElement = some els)
    (hrats : SysDict.ChemicalCompositionRatio' d = some rats)
    (hv : d.CellVolume = some v) (hna : d.NumberOfAtoms = some na)
    (hlx : d.SimulationCellLengthX = some lx) (hly : d.SimulationCellLengthY = some ly)
    (hlz : d.SimulationCellLengthZ = some lz)
    (hva : d.SimulationCellVectorA = some va) (hvb : d.SimulationCellVectorB = some vb)
    (hvc : d.SimulationCellVectorC = some vc)
    (haa : d.SimulationCellAngleAlpha = some aa) (hab : d.SimulationCellAngleBeta = some ab)
    (hag : d.SimulationCellAngleGamma = some ag)
    (hcsn : d.CrystalStructureName = some csn) (hsgs : d.SpaceGroupSymbol = some sgs)
    (hsgn : d.SpaceGroupNumber = some sgn) (hbl : d.BravaisLattice = some bl)
    (hlp : d.LatticeParameter = some lp)
    (hposs : d.Positions = some poss) (helms : d.Element = some elms)
    (hcos : d.Coordination = some cos)
    (hl1 : poss.length ≤ elms.length) (hl2 : poss.length ≤ cos.length)
    (hcsn' : csn ≠ "None") (hsgs' : sgs ≠ "None") (hbl' : bl ≠ "None")
    (hchem : ∀ s ∈ chemStrings els rats, s ≠ "None")
    (hndchem : (chemStrings els rats).Nodup)
    (helm' : ∀ e ∈ elms, e ≠ "None") :
    ∃ st : GState,
      create_graph d false idx {} = .ok st ∧
      st.sample = some (bn 0) ∧
      st.graph = encPrefixList els rats v (some na) (some lx) (some ly) (some lz) va vb vc
          (some aa) (some ab) (some ag) (some csn) (some sgs) (some sgn) (some bl) (some lp)
        ++ atomsTripleList (bn 0) 15 poss elms cos := by
  refine ⟨_, create_graph_eq d idx els rats v va vb vc poss elms cos hels hrats hv hva hvb
    hvc hposs helms hcos hl1 hl2, ?_, ?_⟩
  · rw [atomsFold]
    rw [atoms_range_fold_sample]
  · simp only [hna, hlx, hly, hlz, haa, hab, hag, hcsn, hsgs, hsgn, hbl, hlp]
    rw [encPrefixG_exact_of _ _ _ _ _ _ _ _ _ _ _ _ _ _ _ _ _ _
      (encPrefixList_nodup _ _ _ _ _ _ _ _ _ _ _ _ _ _ _ _ _ _ hndchem)
      (encPrefixList_guards els rats v lx ly lz aa ab ag lp na sgn csn sgs bl va vb vc
        hcsn' hsgs' hbl' hchem)]
    exact store_exact_of (bn 0) poss elms cos _ 15 _ _ _ _ _
      (List.nodup_append.mpr
        ⟨encPrefixList_nodup _ _ _ _ _ _ _ _ _ _ _ _ _ _ _ _ _ _ hndchem,
         atomsTripleList_nodup 15 (by omega) poss elms cos,
         prefix_atoms_disjoint _ _ _ _ _ _ _ _ _ _ _ _ _ _ _ _ _ _ poss elms cos⟩)
      (atomsTripleList_guards 15 poss elms cos hl1 helm')

/-! Subject filters over the store and the extracted subgraph. -/

/-- `triples` with only the subject bound is a subject filter. -/
theorem triples_subj (g : List Triple) (x : Node) :
    Graph.triples g (some x) none none = g.filter (fun t => t.s == x) := by
  simp [Graph.triples]

/-- `triples` with subject and predicate bound: filter the subject filter. -/
theorem triples_sp (g : List Triple) (x p : Node) :
    Graph.triples g (some x) (some p) none
      = (g.filter (fun t => t.s == x)).filter (fun t => t.p == p) := by
  rw [List.filter_filter]
  simp only [Graph.triples]
  apply List.filter_congr
  intro t _
  rw [Bool.and_true, Bool.and_comm]

theorem bn_beq_false {a b : Nat} (h : a ≠ b) : (bn a == bn b) = false :=
  beq_eq_false_iff_ne.mpr (fun hh => h (by simpa [bn] using hh))

theorem bn_beq_true (a : Nat) : (bn a == bn a) = true := beq_self_eq_true (bn a)

/-- The composition segment filtered by its own subject. -/
theorem chem_filter_bn2 (l : List String) :
    (l.map (fun s => (⟨bn 2, CMSO.hasElementRatio', .lit (.vStr s) .dString⟩ : Triple))).filter
        (fun t => t.s == bn 2)
      = l.map (fun s => ⟨bn 2, CMSO.hasElementRatio', .lit (.vStr s) .dString⟩) := by
  rw [List.filter_map]
  congr 1
  apply List.filter_eq_self.mpr
  intro a _
  exact rfl

/-- The composition segment filtered by any other subject. -/
theorem chem_filter_ne (l : List String) (x : Node) (hx : ¬x = bn 2) :
    (l.map (fun s => (⟨bn 2, CMSO.hasElementRatio', .lit (.vStr s) .dString⟩ : Triple))).filter
        (fun t => t.s == x) = [] := by
  rw [List.filter_map, List.filter_eq_nil_iff.mpr, List.map_nil]
  intro a _
  simp only [Function.comp]
  exact fun hc => hx (by simpa using (beq_iff_eq.mp hc).symm)

/-- Flatten of singleton blocks. -/
theorem flatten_map_singleton {α β : Type} (f : α → β) :
    ∀ l : List α, (l.map (fun a => [f a])).flatten = l.map f
  | [] => rfl
  | a :: l => by
    simp only [List.map_cons, List.flatten_cons, flatten_map_singleton f l, List.cons_append,
      List.nil_append]

/-- Flatten of blocks that are all empty except the one at `j`. -/
theorem flatten_map_single (g : Nat → List Triple) :
    ∀ (n j : Nat), j < n → (∀ i, i < n → i ≠ j → g i = []) →
      ((List.range n).map g).flatten = g j
  | 0, j, hj, _ => absurd hj (Nat.not_lt_zero j)
  | n + 1, j, hj, h0 => by
    rw [List.range_succ, List.map_append, List.flatten_append]
    rcases Nat.lt_or_ge j n with hlt | hge
    · rw [flatten_map_single g n j hlt (fun i hi => h0 i (Nat.lt_succ_of_lt hi))]
      rw [List.map_cons, List.map_nil, List.flatten_cons, List.flatten_nil,
        h0 n (Nat.lt_succ_self n) (by omega)]
      simp
    · have hj' : j = n := by omega
      subst hj'
      rw [List.flatten_eq_nil_iff.mpr, List.map_cons, List.map_nil, List.flatten_cons,
        List.flatten_nil]
      · simp
      · intro l hl
        obtain ⟨i, hi, rfl⟩ := List.mem_map.mp hl
        exact h0 i (Nat.lt_succ_of_lt (List.mem_range.mp hi)) (by
          have := List.mem_range.mp hi
          omega)

/-- One atom block filtered by a subject matching none of its nodes. -/
theorem atomTriples_filter_none (c m : Nat) (pos : ℚ × ℚ × ℚ) (el : String) (co : ℤ)
    (hm0 : m ≠ 0) (hmc : m ≠ c) (hm1 : m ≠ c + 1) (hm2 : m ≠ c + 2) :
    (atomTriples (bn 0) c pos el co).filter (fun t => t.s == bn m) = [] := by
  have h0 := bn_beq_false (fun h => hm0 h.symm)
  have hc := bn_beq_false (fun h => hmc h.symm)
  have h1 := bn_beq_false (fun h => hm1 h.symm)
  have h2 := bn_beq_false (fun h => hm2 h.symm)
  simp [atomTriples, List.filter_cons, h0, hc, h1, h2]

/-- One atom block filtered by the sample subject: just the `hasAtom` edge. -/
theorem atomTriples_filter_bn0 (c : Nat) (hc : 1 ≤ c) (pos : ℚ × ℚ × ℚ) (el : String)
    (co : ℤ) :
    (atomTriples (bn 0) c pos el co).filter (fun t => t.s == bn 0)
      = [⟨bn 0, CMSO.hasAtom, bn c⟩] := by
  have h1 := bn_beq_false (show c ≠ 0 by omega)
  have h2 := bn_beq_false (show c + 1 ≠ 0 by omega)
  have h3 := bn_beq_false (show c + 2 ≠ 0 by omega)
  simp [atomTriples, List.filter_cons, h1, h2, h3]

/-- One atom block filtered by its atom subject. -/
theorem atomTriples_filter_self (c : Nat) (hc : 1 ≤ c) (pos : ℚ × ℚ × ℚ) (el : String)
    (co : ℤ) :
    (atomTriples (bn 0) c pos el co).filter (fun t => t.s == bn c)
      = [⟨bn c, RDFtype, CMSO.Atom⟩,
         ⟨bn c, CMSO.hasPositionVector, bn (c + 1)⟩,
         ⟨bn c, CMSO.hasElement, bn (c + 2)⟩,
         ⟨bn c, CMSO.hasCoordinationNumber, .lit (.vInt co) .dInteger⟩] := by
  have h0 := bn_beq_false (show (0 : Nat) ≠ c by omega)
  have h1 := bn_beq_false (show c + 1 ≠ c by omega)
  have h2 := bn_beq_false (show c + 2 ≠ c by omega)
  simp [atomTriples, List.filter_cons, h0, h1, h2]

/-- One atom block filtered by its position subject. -/
theorem atomTriples_filter_pos (c : Nat) (pos : ℚ × ℚ × ℚ) (el : String) (co : ℤ) :
    (atomTriples (bn 0) c pos el co).filter (fun t => t.s == bn (c + 1))
      = [⟨bn (c + 1), RDFtype, CMSO.PositionVector⟩,
         ⟨bn (c + 1), CMSO.hasComponent_x, .lit (.vRat pos.1) .dFloat⟩,
         ⟨bn (c + 1), CMSO.hasComponent_y, .lit (.vRat pos.2.1) .dFloat⟩,
         ⟨bn (c + 1), CMSO.hasComponent_z, .lit (.vRat pos.2.2) .dFloat⟩] := by
  have h0 := bn_beq_false (show (0 : Nat) ≠ c + 1 by omega)
  have h1 := bn_beq_false (show c ≠ c + 1 by omega)
  have h2 := bn_beq_false (show c + 2 ≠ c + 1 by omega)
  simp [atomTriples, List.filter_cons, h0, h1, h2]

/-- One atom block filtered by its element subject. -/
theorem atomTriples_filter_el (c : Nat) (pos : ℚ × ℚ × ℚ) (el : String) (co : ℤ) :
    (atomTriples (bn 0) c pos el co).filter (fun t => t.s == bn (c + 2))
      = [⟨bn (c + 2), RDFtype, CMSO.Element⟩,
         ⟨bn (c + 2), CMSO.hasSymbol, .lit (.vStr el) .dString⟩] := by
  have h0 := bn_beq_false (show (0 : Nat) ≠ c + 2 by omega)
  have h1 := bn_beq_false (show c ≠ c + 2 by omega)
  have h2 := bn_beq_false (show c + 1 ≠ c + 2 by omega)
  simp [atomTriples, List.filter_cons, h0, h1, h2]

/-- The atom segment filtered by the sample subject: the `hasAtom` edges in
index order. -/
theorem atoms_filter_bn0 (c : Nat) (hc : 1 ≤ c) (poss : List (ℚ × ℚ × ℚ))
    (elms : List String) (cos : List ℤ) :
    (atomsTripleList (bn 0) c poss elms cos).filter (fun t => t.s == bn 0)
      = (List.range poss.length).map (fun j => ⟨bn 0, CMSO.hasAtom, bn (c + 3 * j)⟩) := by
  rw [atomsTripleList, List.filter_flatten, List.map_map]
  trans ((List.range poss.length).map
    (fun j => [(⟨bn 0, CMSO.hasAtom, bn (c + 3 * j)⟩ : Triple)])).flatten
  · congr 1
    apply List.map_congr_left
    intro j _
    exact atomTriples_filter_bn0 (c + 3 * j) (by omega) (poss.getD j (0, 0, 0))
      (elms.getD j "") (cos.getD j 0)
  · exact flatten_map_singleton (fun j => (⟨bn 0, CMSO.hasAtom, bn (c + 3 * j)⟩ : Triple)) _

/-- The atom segment filtered by a low subject: nothing. -/
theorem atoms_filter_lo (c m : Nat) (hm0 : m ≠ 0) (hmc : m < c) (poss : List (ℚ × ℚ × ℚ))
    (elms : List String) (cos : List ℤ) :
    (atomsTripleList (bn 0) c poss elms cos).filter (fun t => t.s == bn m) = [] := by
  rw [atomsTripleList, List.filter_flatten, List.map_map]
  trans ((List.range poss.length).map (fun _ => ([] : List Triple))).flatten
  · congr 1
    apply List.map_congr_left
    intro j _
    exact atomTriples_filter_none (c + 3 * j) m (poss.getD j (0, 0, 0)) (elms.getD j "")
      (cos.getD j 0) hm0 (by omega) (by omega) (by omega)
  · simp

/-- The atom segment filtered by the atom subject of block `j`. -/
theorem atoms_filter_atom (c : Nat) (hc : 1 ≤ c) (poss : List (ℚ × ℚ × ℚ))
    (elms : List String) (cos : List ℤ) (j : Nat) (hj : j < poss.length) :
    (atomsTripleList (bn 0) c poss elms cos).filter (fun t => t.s == bn (c + 3 * j))
      = [⟨bn (c + 3 * j), RDFtype, CMSO.Atom⟩,
         ⟨bn (c + 3 * j), CMSO.hasPositionVector, bn (c + 3 * j + 1)⟩,
         ⟨bn (c + 3 * j), CMSO.hasElement, bn (c + 3 * j + 2)⟩,
         ⟨bn (c + 3 * j), CMSO.hasCoordinationNumber, .lit (.vInt (cos.getD j 0)) .dInteger⟩] := by
  rw [atomsTripleList, List.filter_flatten, List.map_map]
  exact (flatten_map_single _ poss.length j hj (fun i _ hij =>
    atomTriples_filter_none (c + 3 * i) (c + 3 * j) (poss.getD i (0, 0, 0)) (elms.getD i "")
      (cos.getD i 0) (by omega) (by omega) (by omega) (by omega))).trans
    (atomTriples_filter_self (c + 3 * j) (by omega) _ _ _)

/-- The atom segment filtered by the position subject of block `j`. -/
theorem atoms_filter_pos (c : Nat) (hc : 1 ≤ c) (poss : List (ℚ × ℚ × ℚ))
    (elms : List String) (cos : List ℤ) (j : Nat) (hj : j < poss.length) :
    (atomsTripleList (bn 0) c poss elms cos).filter (fun t => t.s == bn (c + 3 * j + 1))
      = [⟨bn (c + 3 * j + 1), RDFtype, CMSO.PositionVector⟩,
         ⟨bn (c + 3 * j + 1), CMSO.hasComponent_x, .lit (.vRat (poss.getD j (0, 0, 0)).1) .dFloat⟩,
         ⟨bn (c + 3 * j + 1), CMSO.hasComponent_y,
           .lit (.vRat (poss.getD j (0, 0, 0)).2.1) .dFloat⟩,
         ⟨bn (c + 3 * j + 1), CMSO.hasComponent_z,
           .lit (.vRat (poss.getD j (0, 0, 0)).2.2) .dFloat⟩] := by
  rw [atomsTripleList, List.filter_flatten, List.map_map]
  exact (flatten_map_single _ poss.length j hj (fun i _ hij =>
    atomTriples_filter_none (c + 3 * i) (c + 3 * j + 1) (poss.getD i (0, 0, 0)) (elms.getD i "")
      (cos.getD i 0) (by omega) (by omega) (by omega) (by omega))).trans
    (atomTriples_filter_pos (c + 3 * j) _ _ _)

/-- The atom segment filtered by the element subject of block `j`. -/
theorem atoms_filter_elnode (c : Nat) (hc : 1 ≤ c) (poss : List (ℚ × ℚ × ℚ))
    (elms : List String) (cos : List ℤ) (j : Nat) (hj : j < poss.length) :
    (atomsTripleList (bn 0) c poss elms cos).filter (fun t => t.s == bn (c + 3 * j + 2))
      = [⟨bn (c + 3 * j + 2), RDFtype, CMSO.Element⟩,
         ⟨bn (c + 3 * j + 2), CMSO.hasSymbol, .lit (.vStr (elms.getD j "")) .dString⟩] := by
  rw [atomsTripleList, List.filter_flatten, List.map_map]
  exact (flatten_map_single _ poss.length j hj (fun i _ hij =>
    atomTriples_filter_none (c + 3 * i) (c + 3 * j + 2) (poss.getD i (0, 0, 0)) (elms.getD i "")
      (cos.getD i 0) (by omega) (by omega) (by omega) (by omega))).trans
    (atomTriples_filter_el (c + 3 * j) _ _ _)

/-- The atom segment filtered by a non-blank-node subject: nothing. -/
theorem atoms_filter_nonbn (c : Nat) (x : Node) (hx : ∀ m, x ≠ bn m)
    (poss : List (ℚ × ℚ × ℚ)) (elms : List String) (cos : List ℤ) :
    (atomsTripleList (bn 0) c poss elms cos).filter (fun t => t.s == x) = [] := by
  rw [List.filter_eq_nil_iff]
  intro u hu
  simp only [atomsTripleList, List.mem_flatten, List.mem_map] at hu
  obtain ⟨lsub, ⟨j, _, rfl⟩, hu⟩ := hu
  simp only [atomTriples, List.mem_cons, List.not_mem_nil, or_false] at hu
  intro hc
  have heq := beq_iff_eq.mp hc
  rcases hu with h | h | h | h | h | h | h | h | h | h | h <;> subst h <;>
    exact hx _ heq.symm

/-! Subject filters of the full store. -/

theorem store_filter_0 (els : List String) (rats : List ℚ) (v lx ly lz aa ab ag lp : ℚ)
    (na sgn : ℤ) (csn sgs bl : String) (va vb vc : ℚ × ℚ × ℚ)
    (poss : List (ℚ × ℚ × ℚ)) (elms : List String) (cos : List ℤ) :
    (storeList els rats v lx ly lz aa ab ag lp na sgn csn sgs bl va vb vc poss elms cos).filter (fun t => t.s == bn 0)
      = [⟨bn 0, RDFtype, CMSO.AtomicScaleSample⟩,
         ⟨bn 0, CMSO.hasMaterial, bn 1⟩,
         ⟨bn 0, CMSO.hasSimulationCell, bn 3⟩,
         ⟨bn 0, CMSO.hasNumberOfAtoms, .lit (Value.ofOptInt (some na)) .dInteger⟩]
        ++ (List.range poss.length).map (fun j => ⟨bn 0, CMSO.hasAtom, bn (15 + 3 * j)⟩) := by
  rw [storeList, List.filter_append]
  rw [atoms_filter_bn0 15 (by omega) poss elms cos]
  have hch := chem_filter_ne (chemStrings els rats) (bn 0) (by decide)
  simp +decide [encPrefixList, List.filter_append, List.filter_cons, hch]

theorem store_filter_1 (els : List String) (rats : List ℚ) (v lx ly lz aa ab ag lp : ℚ)
    (na sgn : ℤ) (csn sgs bl : String) (va vb vc : ℚ × ℚ × ℚ)
    (poss : List (ℚ × ℚ × ℚ)) (elms : List String) (cos : List ℤ) :
    (storeList els rats v lx ly lz aa ab ag lp na sgn csn sgs bl va vb vc poss elms cos).filter (fun t => t.s == bn 1)
      = [⟨bn 1, RDFtype, CMSO.CrystallineMaterial⟩,
         ⟨bn 1, CMSO.hasComposition, bn 2⟩,
         ⟨bn 1, CMSO.hasStructure, bn 9⟩] := by
  rw [storeList, List.filter_append]
  rw [atoms_filter_lo 15 1 (by omega) (by omega) poss elms cos, List.append_nil]
  have hch := chem_filter_ne (chemStrings els rats) (bn 1) (by decide)
  simp +decide [encPrefixList, List.filter_append, List.filter_cons, hch]

theorem store_filter_2 (els : List String) (rats : List ℚ) (v lx ly lz aa ab ag lp : ℚ)
    (na sgn : ℤ) (csn sgs bl : String) (va vb vc : ℚ × ℚ × ℚ)
    (poss : List (ℚ × ℚ × ℚ)) (elms : List String) (cos : List ℤ) :
    (storeList els rats v lx ly lz aa ab ag lp na sgn csn sgs bl va vb vc poss elms cos).filter (fun t => t.s == bn 2)
      = [⟨bn 2, RDFtype, CMSO.ChemicalComposition⟩]
        ++ (chemStrings els rats).map (fun s => ⟨bn 2, CMSO.hasElementRatio', .lit (.vStr s) .dString⟩) := by
  rw [storeList, List.filter_append]
  rw [atoms_filter_lo 15 2 (by omega) (by omega) poss elms cos, List.append_nil]
  have hch := chem_filter_bn2 (chemStrings els rats)
  simp +decide [encPrefixList, List.filter_append, List.filter_cons, hch]

theorem store_filter_3 (els : List String) (rats : List ℚ) (v lx ly lz aa ab ag lp : ℚ)
    (na sgn : ℤ) (csn sgs bl : String) (va vb vc : ℚ × ℚ × ℚ)
    (poss : List (ℚ × ℚ × ℚ)) (elms : List String) (cos : List ℤ) :
    (storeList els rats v lx ly lz aa ab ag lp na sgn csn sgs bl va vb vc poss elms cos).filter (fun t => t.s == bn 3)
      = [⟨bn 3, RDFtype, CMSO.SimulationCell⟩,
         ⟨bn 3, CMSO.hasVolume, .lit (.vRat (npRound2 v)) .dFloat⟩,
         ⟨bn 3, CMSO.hasLength, bn 4⟩,
         ⟨bn 3, CMSO.hasVector, bn 5⟩,
         ⟨bn 3, CMSO.hasVector, bn 6⟩,
         ⟨bn 3, CMSO.hasVector, bn 7⟩,
         ⟨bn 3, CMSO.hasAngle, bn 8⟩] := by
  rw [storeList, List.filter_append]
  rw [atoms_filter_lo 15 3 (by omega) (by omega) poss elms cos, List.append_nil]
  have hch := chem_filter_ne (chemStrings els rats) (bn 3) (by decide)
  simp +decide [encPrefixList, List.filter_append, List.filter_cons, hch]

theorem store_filter_4 (els : List String) (rats : List ℚ) (v lx ly lz aa ab ag lp : ℚ)
    (na sgn : ℤ) (csn sgs bl : String) (va vb vc : ℚ × ℚ × ℚ)
    (poss : List (ℚ × ℚ × ℚ)) (elms : List String) (cos : List ℤ) :
    (storeList els rats v lx ly lz aa ab ag lp na sgn csn sgs bl va vb vc poss elms cos).filter (fun t => t.s == bn 4)
      = [⟨bn 4, RDFtype, CMSO.SimulationCellLength⟩,
         ⟨bn 4, CMSO.hasLength_x, .lit (Value.ofOptRat (some lx)) .dFloat⟩,
         ⟨bn 4, CMSO.hasLength_y, .lit (Value.ofOptRat (some ly)) .dFloat⟩,
         ⟨bn 4, CMSO.hasLength_z, .lit (Value.ofOptRat (some lz)) .dFloat⟩] := by
  rw [storeList, List.filter_append]
  rw [atoms_filter_lo 15 4 (by omega) (by omega) poss elms cos, List.append_nil]
  have hch := chem_filter_ne (chemStrings els rats) (bn 4) (by decide)
  simp +decide [encPrefixList, List.filter_append, List.filter_cons, hch]

theorem store_filter_5 (els : List String) (rats : List ℚ) (v lx ly lz aa ab ag lp : ℚ)
    (na sgn : ℤ) (csn sgs bl : String) (va vb vc : ℚ × ℚ × ℚ)
    (poss : List (ℚ × ℚ × ℚ)) (elms : List String) (cos : List ℤ) :
    (storeList els rats v lx ly lz aa ab ag lp na sgn csn sgs bl va vb vc poss elms cos).filter (fun t => t.s == bn 5)
      = [⟨bn 5, RDFtype, CMSO.SimulationCellVector⟩,
         ⟨bn 5, CMSO.hasComponent_x, .lit (.vRat va.1) .dFloat⟩,
         ⟨bn 5, CMSO.hasComponent_y, .lit (.vRat va.2.1) .dFloat⟩,
         ⟨bn 5, CMSO.hasComponent_z, .lit (.vRat va.2.2) .dFloat⟩] := by
  rw [storeList, List.filter_append]
  rw [atoms_filter_lo 15 5 (by omega) (by omega) poss elms cos, List.append_nil]
  have hch := chem_filter_ne (chemStrings els rats) (bn 5) (by decide)
  simp +decide [encPrefixList, List.filter_append, List.filter_cons, hch]

theorem store_filter_6 (els : List String) (rats : List ℚ) (v lx ly lz aa ab ag lp : ℚ)
    (na sgn : ℤ) (csn sgs bl : String) (va vb vc : ℚ × ℚ × ℚ)
    (poss : List (ℚ × ℚ × ℚ)) (elms : List String) (cos : List ℤ) :
    (storeList els rats v lx ly lz aa ab ag lp na sgn csn sgs bl va vb vc poss elms cos).filter (fun t => t.s == bn 6)
      = [⟨bn 6, RDFtype, CMSO.SimulationCellVector⟩,
         ⟨bn 6, CMSO.hasComponent_x, .lit (.vRat vb.1) .dFloat⟩,
         ⟨bn 6, CMSO.hasComponent_y, .lit (.vRat vb.2.1) .dFloat⟩,
         ⟨bn 6, CMSO.hasComponent_z, .lit (.vRat vb.2.2) .dFloat⟩] := by
  rw [storeList, List.filter_append]
  rw [atoms_filter_lo 15 6 (by omega) (by omega) poss elms cos, List.append_nil]
  have hch := chem_filter_ne (chemStrings els rats) (bn 6) (by decide)
  simp +decide [encPrefixList, List.filter_append, List.filter_cons, hch]

theorem store_filter_7 (els : List String) (rats : List ℚ) (v lx ly lz aa ab ag lp : ℚ)
    (na sgn : ℤ) (csn sgs bl : String) (va vb vc : ℚ × ℚ × ℚ)
    (poss : List (ℚ × ℚ × ℚ)) (elms : List String) (cos : List ℤ) :
    (storeList els rats v lx ly lz aa ab ag lp na sgn csn sgs bl va vb vc poss elms cos).filter (fun t => t.s == bn 7)
      = [⟨bn 7, RDFtype, CMSO.SimulationCellVector⟩,
         ⟨bn 7, CMSO.hasComponent_x, .lit (.vRat vc.1) .dFloat⟩,
         ⟨bn 7, CMSO.hasComponent_y, .lit (.vRat vc.2.1) .dFloat⟩,
         ⟨bn 7, CMSO.hasComponent_z, .lit (.vRat vc.2.2) .dFloat⟩] := by
  rw [storeList, List.filter_append]
  rw [atoms_filter_lo 15 7 (by omega) (by omega) poss elms cos, List.append_nil]
  have hch := chem_filter_ne (chemStrings els rats) (bn 7) (by decide)
  simp +decide [encPrefixList, List.filter_append, List.filter_cons, hch]

theorem store_filter_8 (els : List String) (rats : List ℚ) (v lx ly lz aa ab ag lp : ℚ)
    (na sgn : ℤ) (csn sgs bl : String) (va vb vc : ℚ × ℚ × ℚ)
    (poss : List (ℚ × ℚ × ℚ)) (elms : List String) (cos : List ℤ) :
    (storeList els rats v lx ly lz aa ab ag lp na sgn csn sgs bl va vb vc poss elms cos).filter (fun t => t.s == bn 8)
      = [⟨bn 8, RDFtype, CMSO.SimulationCellAngle⟩,
         ⟨bn 8, CMSO.hasAngle_alpha, .lit (Value.ofOptRat (some aa)) .dFloat⟩,
         ⟨bn 8, CMSO.hasAngle_beta, .lit (Value.ofOptRat (some ab)) .dFloat⟩,
         ⟨bn 8, CMSO.hasAngle_gamma, .lit (Value.ofOptRat (some ag)) .dFloat⟩] := by
  rw [storeList, List.filter_append]
  rw [atoms_filter_lo 15 8 (by omega) (by omega) poss elms cos, List.append_nil]
  have hch := chem_filter_ne (chemStrings els rats) (bn 8) (by decide)
  simp +decide [encPrefixList, List.filter_append, List.filter_cons, hch]

theorem store_filter_9 (els : List String) (rats : List ℚ) (v lx ly lz aa ab ag lp : ℚ)
    (na sgn : ℤ) (csn sgs bl : String) (va vb vc : ℚ × ℚ × ℚ)
    (poss : List (ℚ × ℚ × ℚ)) (elms : List String) (cos : List ℤ) :
    (storeList els rats v lx ly lz aa ab ag lp na sgn csn sgs bl va vb vc poss elms cos).filter (fun t => t.s == bn 9)
      = [⟨bn 9, RDFtype, CMSO.CrystalStructure⟩,
         ⟨bn 9, CMSO.hasAltName, .lit (Value.ofOptStr (some csn)) .dString⟩,
         ⟨bn 9, CMSO.hasSpaceGroup, bn 10⟩,
         ⟨bn 9, CMSO.hasUnitCell, bn 11⟩] := by
  rw [storeList, List.filter_append]
  rw [atoms_filter_lo 15 9 (by omega) (by omega) poss elms cos, List.append_nil]
  have hch := chem_filter_ne (chemStrings els rats) (bn 9) (by decide)
  simp +decide [encPrefixList, List.filter_append, List.filter_cons, hch]

theorem store_filter_10 (els : List String) (rats : List ℚ) (v lx ly lz aa ab ag lp : ℚ)
    (na sgn : ℤ) (csn sgs bl : String) (va vb vc : ℚ × ℚ × ℚ)
    (poss : List (ℚ × ℚ × ℚ)) (elms : List String) (cos : List ℤ) :
    (storeList els rats v lx ly lz aa ab ag lp na sgn csn sgs bl va vb vc poss elms cos).filter (fun t => t.s == bn 10)
      = [⟨bn 10, RDFtype, CMSO.SpaceGroup⟩,
         ⟨bn 10, CMSO.hasSpaceGroupSymbol, .lit (Value.ofOptStr (some sgs)) .dString⟩,
         ⟨bn 10, CMSO.hasSpaceGroupNumber, .lit (Value.ofOptInt (some sgn)) .dInteger⟩] := by
  rw [storeList, List.filter_append]
  rw [atoms_filter_lo 15 10 (by omega) (by omega) poss elms cos, List.append_nil]
  have hch := chem_filter_ne (chemStrings els rats) (bn 10) (by decide)
  simp +decide [encPrefixList, List.filter_append, List.filter_cons, hch]

theorem store_filter_11 (els : List String) (rats : List ℚ) (v lx ly lz aa ab ag lp : ℚ)
    (na sgn : ℤ) (csn sgs bl : String) (va vb vc : ℚ × ℚ × ℚ)
    (poss : List (ℚ × ℚ × ℚ)) (elms : List String) (cos : List ℤ) :
    (storeList els rats v lx ly lz aa ab ag lp na sgn csn sgs bl va vb vc poss elms cos).filter (fun t => t.s == bn 11)
      = [⟨bn 11, RDFtype, CMSO.UnitCell⟩,
         ⟨bn 11, CMSO.hasLattice, bn 12⟩,
         ⟨bn 11, CMSO.hasLatticeParamter, bn 13⟩,
         ⟨bn 11, CMSO.hasAngle, bn 14⟩] := by
  rw [storeList, List.filter_append]
  rw [atoms_filter_lo 15 11 (by omega) (by omega) poss elms cos, List.append_nil]
  have hch := chem_filter_ne (chemStrings els rats) (bn 11) (by decide)
  simp +decide [encPrefixList, List.filter_append, List.filter_cons, hch]

theorem store_filter_12 (els : List String) (rats : List ℚ) (v lx ly lz aa ab ag lp : ℚ)
    (na sgn : ℤ) (csn sgs bl : String) (va vb vc : ℚ × ℚ × ℚ)
    (poss : List (ℚ × ℚ × ℚ)) (elms : List String) (cos : List ℤ) :
    (storeList els rats v lx ly lz aa ab ag lp na sgn csn sgs bl va vb vc poss elms cos).filter (fun t => t.s == bn 12)
      = [⟨bn 12, RDFtype, CMSO.BravaisLattice⟩,
         ⟨bn 12, CMSO.hasLatticeSystem, .lit (Value.ofOptStr (some bl)) .dString⟩] := by
  rw [storeList, List.filter_append]
  rw [atoms_filter_lo 15 12 (by omega) (by omega) poss elms cos, List.append_nil]
  have hch := chem_filter_ne (chemStrings els rats) (bn 12) (by decide)
  simp +decide [encPrefixList, List.filter_append, List.filter_cons, hch]

theorem store_filter_13 (els : List String) (rats : List ℚ) (v lx ly lz aa ab ag lp : ℚ)
    (na sgn : ℤ) (csn sgs bl : String) (va vb vc : ℚ × ℚ × ℚ)
    (poss : List (ℚ × ℚ × ℚ)) (elms : List String) (cos : List ℤ) :
    (storeList els rats v lx ly lz aa ab ag lp na sgn csn sgs bl va vb vc poss elms cos).filter (fun t => t.s == bn 13)
      = [⟨bn 13, RDFtype, CMSO.LatticeParameter⟩,
         ⟨bn 13, CMSO.hasLength_x, .lit (Value.ofOptRat (some lp)) .dFloat⟩,
         ⟨bn 13, CMSO.hasLength_y, .lit (Value.ofOptRat (some lp)) .dFloat⟩,
         ⟨bn 13, CMSO.hasLength_z, .lit (Value.ofOptRat (some lp)) .dFloat⟩] := by
  rw [storeList, List.filter_append]
  rw [atoms_filter_lo 15 13 (by omega) (by omega) poss elms cos, List.append_nil]
  have hch := chem_filter_ne (chemStrings els rats) (bn 13) (by decide)
  simp +decide [encPrefixList, List.filter_append, List.filter_cons, hch]

theorem store_filter_14 (els : List String) (rats : List ℚ) (v lx ly lz aa ab ag lp : ℚ)
    (na sgn : ℤ) (csn sgs bl : String) (va vb vc : ℚ × ℚ × ℚ)
    (poss : List (ℚ × ℚ × ℚ)) (elms : List String) (cos : List ℤ) :
    (storeList els rats v lx ly lz aa ab ag lp na sgn csn sgs bl va vb vc poss elms cos).filter (fun t => t.s == bn 14)
      = [⟨bn 14, RDFtype, CMSO.LatticeAngle⟩,
         ⟨bn 14, CMSO.hasAngle_alpha, .lit (.vRat 90) .dFloat⟩,
         ⟨bn 14, CMSO.hasAngle_beta, .lit (.vRat 90) .dFloat⟩,
         ⟨bn 14, CMSO.hasAngle_gamma, .lit (.vRat 90) .dFloat⟩] := by
  rw [storeList, List.filter_append]
  rw [atoms_filter_lo 15 14 (by omega) (by omega) poss elms cos, List.append_nil]
  have hch := chem_filter_ne (chemStrings els rats) (bn 14) (by decide)
  simp +decide [encPrefixList, List.filter_append, List.filter_cons, hch]

end PyscalRdf
